import Mathlib

/-!
# Verification of the Projekt_KRYS DES cryptanalysis workbench

Shallow embedding of `src/des.py`, `src/differential_attack.py` and
`src/linear_attack.py`.  Bit blocks are `List Nat` of 0/1 digits indexed
MSB-first, exactly as the Python lists; machine integers are `Nat`/`Int`.
-/

set_option maxRecDepth 40000
set_option maxHeartbeats 1600000

namespace KRYS

/-! ## Fixed DES tables (`src/des.py`) -/

/-- Initial permutation table IP. -/
def IP : List Nat := [
  58, 50, 42, 34, 26, 18, 10, 2,
  60, 52, 44, 36, 28, 20, 12, 4,
  62, 54, 46, 38, 30, 22, 14, 6,
  64, 56, 48, 40, 32, 24, 16, 8,
  57, 49, 41, 33, 25, 17, 9, 1,
  59, 51, 43, 35, 27, 19, 11, 3,
  61, 53, 45, 37, 29, 21, 13, 5,
  63, 55, 47, 39, 31, 23, 15, 7]

/-- Final permutation table FP. -/
def FP : List Nat := [
  40, 8, 48, 16, 56, 24, 64, 32,
  39, 7, 47, 15, 55, 23, 63, 31,
  38, 6, 46, 14, 54, 22, 62, 30,
  37, 5, 45, 13, 53, 21, 61, 29,
  36, 4, 44, 12, 52, 20, 60, 28,
  35, 3, 43, 11, 51, 19, 59, 27,
  34, 2, 42, 10, 50, 18, 58, 26,
  33, 1, 41, 9, 49, 17, 57, 25]

/-- Expansion table E (32 -> 48 bits). -/
def E : List Nat := [
  32, 1, 2, 3, 4, 5,
  4, 5, 6, 7, 8, 9,
  8, 9, 10, 11, 12, 13,
  12, 13, 14, 15, 16, 17,
  16, 17, 18, 19, 20, 21,
  20, 21, 22, 23, 24, 25,
  24, 25, 26, 27, 28, 29,
  28, 29, 30, 31, 32, 1]

/-- Permutation P applied after the S-boxes. -/
def P : List Nat := [
  16, 7, 20, 21, 29, 12, 28, 17,
  1, 15, 23, 26, 5, 18, 31, 10,
  2, 8, 24, 14, 32, 27, 3, 9,
  19, 13, 30, 6, 22, 11, 4, 25]

/-- Permuted choice 1 (64 -> 56 bits). -/
def PC1 : List Nat := [
  57, 49, 41, 33, 25, 17, 9,
  1, 58, 50, 42, 34, 26, 18,
  10, 2, 59, 51, 43, 35, 27,
  19, 11, 3, 60, 52, 44, 36,
  63, 55, 47, 39, 31, 23, 15,
  7, 62, 54, 46, 38, 30, 22,
  14, 6, 61, 53, 45, 37, 29,
  21, 13, 5, 28, 20, 12, 4]

/-- Permuted choice 2 (56 -> 48 bits). -/
def PC2 : List Nat := [
  14, 17, 11, 24, 1, 5,
  3, 28, 15, 6, 21, 10,
  23, 19, 12, 4, 26, 8,
  16, 7, 27, 20, 13, 2,
  41, 52, 31, 37, 47, 55,
  30, 40, 51, 45, 33, 48,
  44, 49, 39, 56, 34, 53,
  46, 42, 50, 36, 29, 32]

/-- Per-round left-rotation amounts. -/
def ROTATIONS : List Nat := [1, 1, 2, 2, 2, 2, 2, 2, 1, 2, 2, 2, 2, 2, 2, 1]

/-- The eight DES S-boxes, each 4 rows x 16 columns. -/
def S_BOXES : List (List (List Nat)) := [
  [[14, 4, 13, 1, 2, 15, 11, 8, 3, 10, 6, 12, 5, 9, 0, 7],
   [0, 15, 7, 4, 14, 2, 13, 1, 10, 6, 12, 11, 9, 5, 3, 8],
   [4, 1, 14, 8, 13, 6, 2, 11, 15, 12, 9, 7, 3, 10, 5, 0],
   [15, 12, 8, 2, 4, 9, 1, 7, 5, 11, 3, 14, 10, 0, 6, 13]],
  [[15, 1, 8, 14, 6, 11, 3, 4, 9, 7, 2, 13, 12, 0, 5, 10],
   [3, 13, 4, 7, 15, 2, 8, 14, 12, 0, 1, 10, 6, 9, 11, 5],
   [0, 14, 7, 11, 10, 4, 13, 1, 5, 8, 12, 6, 9, 3, 2, 15],
   [13, 8, 10, 1, 3, 15, 4, 2, 11, 6, 7, 12, 0, 5, 14, 9]],
  [[10, 0, 9, 14, 6, 3, 15, 5, 1, 13, 12, 7, 11, 4, 2, 8],
   [13, 7, 0, 9, 3, 4, 6, 10, 2, 8, 5, 14, 12, 11, 15, 1],
   [13, 6, 4, 9, 8, 15, 3, 0, 11, 1, 2, 12, 5, 10, 14, 7],
   [1, 10, 13, 0, 6, 9, 8, 7, 4, 15, 14, 3, 11, 5, 2, 12]],
  [[7, 13, 14, 3, 0, 6, 9, 10, 1, 2, 8, 5, 11, 12, 4, 15],
   [13, 8, 11, 5, 6, 15, 0, 3, 4, 7, 2, 12, 1, 10, 14, 9],
   [10, 6, 9, 0, 12, 11, 7, 13, 15, 1, 3, 14, 5, 2, 8, 4],
   [3, 15, 0, 6, 10, 1, 13, 8, 9, 4, 5, 11, 12, 7, 2, 14]],
  [[2, 12, 4, 1, 7, 10, 11, 6, 8, 5, 3, 15, 13, 0, 14, 9],
   [14, 11, 2, 12, 4, 7, 13, 1, 5, 0, 15, 10, 3, 9, 8, 6],
   [4, 2, 1, 11, 10, 13, 7, 8, 15, 9, 12, 5, 6, 3, 0, 14],
   [11, 8, 12, 7, 1, 14, 2, 13, 6, 15, 0, 9, 10, 4, 5, 3]],
  [[12, 1, 10, 15, 9, 2, 6, 8, 0, 13, 3, 4, 14, 7, 5, 11],
   [10, 15, 4, 2, 7, 12, 9, 5, 6, 1, 13, 14, 0, 11, 3, 8],
   [9, 14, 15, 5, 2, 8, 12, 3, 7, 0, 4, 10, 1, 13, 11, 6],
   [4, 3, 2, 12, 9, 5, 15, 10, 11, 14, 1, 7, 6, 0, 8, 13]],
  [[4, 11, 2, 14, 15, 0, 8, 13, 3, 12, 9, 7, 5, 10, 6, 1],
   [13, 0, 11, 7, 4, 9, 1, 10, 14, 3, 5, 12, 2, 15, 8, 6],
   [1, 4, 11, 13, 12, 3, 7, 14, 10, 15, 6, 8, 0, 5, 9, 2],
   [6, 11, 13, 8, 1, 4, 10, 7, 9, 5, 0, 15, 14, 2, 3, 12]],
  [[13, 2, 8, 4, 6, 15, 11, 1, 10, 9, 3, 14, 5, 0, 12, 7],
   [1, 15, 13, 8, 10, 3, 7, 4, 12, 5, 6, 11, 0, 14, 9, 2],
   [7, 11, 4, 1, 9, 12, 14, 2, 0, 6, 10, 13, 15, 3, 5, 8],
   [2, 1, 14, 7, 4, 10, 8, 13, 15, 12, 9, 0, 3, 5, 6, 11]]]

/-! ## Bit primitives (`src/des.py`) -/

/-- Function `bits_to_int`: interpret a bit list MSB-first. -/
def bits_to_int (bits : List Nat) : Nat :=
  bits.foldl (fun result bit => (result <<< 1) ||| bit) 0

/-- Function `int_to_bits`: the low `length` bits of `num`, MSB-first. -/
def int_to_bits (num length : Nat) : List Nat :=
  (List.range length).map (fun i => (num >>> (length - 1 - i)) &&& 1)

/-- Function `permute`: select `bits[i-1]` for every (1-indexed) entry `i` of `table`.
All tables used by the cipher have entries in `1..len bits`; out-of-range
entries default to 0 here, see `permuteChecked` for the exact Python
indexing semantics. -/
def permute (bits table : List Nat) : List Nat :=
  table.map (fun i => bits.getD (i - 1) 0)

/-- Function `left_rotate`: `bits[n:] + bits[:n]` (Python slices saturate for
`n > len bits`). -/
def left_rotate (bits : List Nat) (n : Nat) : List Nat :=
  bits.drop n ++ bits.take n

/-- Function `xor`: element-wise XOR, truncating to the shorter list like Python `zip`. -/
def xor (bits1 bits2 : List Nat) : List Nat :=
  List.zipWith (fun b1 b2 => b1 ^^^ b2) bits1 bits2

/-! ## Key schedule and round function (`src/des.py`) -/

/-- Function `generate_subkeys`: the 16 round keys of 48 bits each. -/
def generate_subkeys (key : List Nat) : List (List Nat) :=
  let key_56 := permute key PC1
  let C0 := key_56.take 28
  let D0 := key_56.drop 28
  (ROTATIONS.foldl
    (fun (st : List Nat × List Nat × List (List Nat)) r =>
      let C := left_rotate st.1 r
      let D := left_rotate st.2.1 r
      (C, D, st.2.2 ++ [permute (C ++ D) PC2]))
    (C0, D0, [])).2.2

/-- Function `s_box_substitution`: 48 -> 32 bits through the eight S-boxes
(row from outer bits 0 and 5, column from middle bits 1-4). -/
def s_box_substitution (bits_48 : List Nat) : List Nat :=
  ((List.range 8).map (fun i =>
    let block := (bits_48.drop (i * 6)).take 6
    let row := (block.getD 0 0 <<< 1) ||| block.getD 5 0
    let col := (block.getD 1 0 <<< 3) ||| (block.getD 2 0 <<< 2) |||
               (block.getD 3 0 <<< 1) ||| block.getD 4 0
    int_to_bits (((S_BOXES.getD i []).getD row []).getD col 0) 4)).flatten

/-- Function `feistel_function`: expansion, key mixing, S-boxes, permutation P. -/
def feistel_function (R subkey : List Nat) : List Nat :=
  permute (s_box_substitution (xor (permute R E) subkey)) P

/-- One Feistel round as written in both the encrypt and decrypt loops:
`(L, R) := (R, L XOR f(R, K_i))`. -/
def desRound (subkeys : List (List Nat)) (LR : List Nat × List Nat) (i : Nat) :
    List Nat × List Nat :=
  (LR.2, xor LR.1 (feistel_function LR.2 (subkeys.getD i [])))

/-- Function `des_encrypt_block`: IP, 16 rounds with `K_1 .. K_16`, swap, FP. -/
def des_encrypt_block (plaintext key : List Nat) : List Nat :=
  let subkeys := generate_subkeys key
  let permuted := permute plaintext IP
  let final := (List.range 16).foldl (desRound subkeys)
    (permuted.take 32, permuted.drop 32)
  permute (final.2 ++ final.1) FP

/-- Function `des_decrypt_block`: identical but the loop runs `i = 15, 14, ..., 0`. -/
def des_decrypt_block (ciphertext key : List Nat) : List Nat :=
  let subkeys := generate_subkeys key
  let permuted := permute ciphertext IP
  let final := ((List.range 16).reverse).foldl (desRound subkeys)
    (permuted.take 32, permuted.drop 32)
  permute (final.2 ++ final.1) FP

/-! ## S-box lookup in the integer convention

`compute_ddt`, `compute_lat`, `partial_decrypt_last_round` and
`compute_approximation_value` all inline the same row/column extraction
from a 6-bit integer: `row = ((x >> 5) & 1) << 1 | (x & 1)`,
`col = (x >> 1) & 0x0F`.  It is factored out here verbatim. -/

/-- The integer-convention S-box lookup inlined throughout the attack files. -/
def sbox_lookup_int (sbox : List (List Nat)) (x : Nat) : Nat :=
  let row := (((x >>> 5) &&& 1) <<< 1) ||| (x &&& 1)
  let col := (x >>> 1) &&& 0x0F
  (sbox.getD row []).getD col 0

/-! ## Differential distribution table (`src/differential_attack.py`) -/

/-- Operation `ddt[dx][dy] += 1`, the numpy in-place increment on a 64x16 matrix. -/
def bumpCell (m : List (List Nat)) (r c : Nat) : List (List Nat) :=
  m.set r ((m.getD r []).set c ((m.getD r []).getD c 0 + 1))

/-- Function `compute_ddt`: start from a 64x16 zero matrix and, for every input `x`
and every input difference `delta_x`, bump the cell
`(delta_x, S(x) XOR S(x XOR delta_x))`. -/
def compute_ddt (sbox : List (List Nat)) : List (List Nat) :=
  (List.range 64).foldl (fun ddt x =>
    (List.range 64).foldl (fun ddt delta_x =>
      let x_prime := x ^^^ delta_x
      let y := sbox_lookup_int sbox x
      let y_prime := sbox_lookup_int sbox x_prime
      bumpCell ddt delta_x (y ^^^ y_prime)) ddt)
    ((List.range 64).map (fun _ => List.replicate 16 0))

/-- Function `compute_all_ddts`: one DDT per S-box. -/
def compute_all_ddts : List (List (List Nat)) :=
  S_BOXES.map compute_ddt

/-! ## Linear approximation table (`src/linear_attack.py`) -/

/-- The `while x:` loop of `parity`, with an explicit fuel argument;
`x` itself is enough fuel since `x >> k` reaches 0 after at most `x` steps. -/
def parityFuel : Nat → Nat → Nat
  | _, 0 => 0
  | 0, _ => 0
  | fuel + 1, x => (x &&& 1) ^^^ parityFuel fuel (x >>> 1)

/-- Function `parity`: XOR-fold of all bits of `x`. -/
def parity (x : Nat) : Nat := parityFuel x x

/-- Function `compute_lat`: `lat[alpha][beta] = #{x < 64 : parity(x & alpha) =
parity(S(x) & beta)} - 32`, stored as a signed integer. -/
def compute_lat (sbox : List (List Nat)) : List (List Int) :=
  (List.range 64).map (fun alpha =>
    (List.range 16).map (fun beta =>
      (((List.range 64).filter (fun x =>
        parity (x &&& alpha) == parity (sbox_lookup_int sbox x &&& beta))).length : Int)
      - 32))

/-- Function `compute_all_lats`: one LAT per S-box. -/
def compute_all_lats : List (List (List Int)) :=
  S_BOXES.map compute_lat

/-- Function `best_lat_mask`: scan `alpha = 1..63`, `beta = 1..15` and keep the first
entry of strictly maximal absolute value (Python starts from `(0, 0, 0)` and
updates only on `abs(lat_val) > abs(best_lat)`). -/
def best_lat_mask (lat : List (List Int)) : Nat × Nat × Int :=
  (List.range' 1 63).foldl (fun best alpha =>
    (List.range' 1 15).foldl (fun best beta =>
      let lat_val := (lat.getD alpha []).getD beta 0
      if lat_val.natAbs > best.2.2.natAbs then (alpha, beta, lat_val) else best)
      best)
    (0, 0, 0)

/-! ## Python dict model

Both attacks accumulate counters in a `defaultdict(int)`.  A Python dict
iterates in key-insertion order, so it is modelled as an association list:
incrementing an existing key updates it in place, a new key is appended. -/

/-- Operation `d[k] += 1` on a `defaultdict(int)`. -/
def dictIncr (d : List (Nat × Nat)) (k : Nat) : List (Nat × Nat) :=
  if d.any (fun p => p.1 == k) then
    d.map (fun p => if p.1 == k then (p.1, p.2 + 1) else p)
  else d ++ [(k, 1)]

/-- Expression `max(d.keys(), key=lambda k: d[k])`: first key of maximal count in
insertion order (Python `max` keeps the earliest maximal element). -/
def maxByCount (d : List (Nat × Nat)) : Nat :=
  match d with
  | [] => 0
  | p :: t => (t.foldl (fun best q => if q.2 > best.2 then q else best) p).1

/-! ## Differential attack (`src/differential_attack.py`) -/

/-- Function `partial_decrypt_last_round`: undo FP, take `R15 := L16`, expand, slice
six bits for the S-box, XOR the guess, and look the S-box up. -/
def partial_decrypt_last_round (C subkey_guess : List Nat) (sbox_index : Nat) : Nat :=
  let after_ip_inv := permute C IP
  let L16 := after_ip_inv.drop 32
  let R15 := L16
  let expanded_R15 := permute R15 E
  let input_bits := (expanded_R15.drop (sbox_index * 6)).take 6
  let xored := xor input_bits subkey_guess
  sbox_lookup_int (S_BOXES.getD sbox_index []) (bits_to_int xored)

/-- A collected pair `(P, P', C, C')`. -/
abbrev DiffPair := List Nat × List Nat × List Nat × List Nat

/-- Method `DifferentialAttack.attack_sbox`: for every pair and every guess,
increment the guess's counter when the partial-decryption output difference
equals `expected_output_diff`; return
`(max(scores.keys(), key=...) if scores else 0, scores)`. -/
def diff_attack_sbox (pairs : List DiffPair) (sbox_index expected_output_diff : Nat) :
    Nat × List (Nat × Nat) :=
  let scores := pairs.foldl (fun scores pr =>
    (List.range 64).foldl (fun scores key_guess =>
      let key_bits := int_to_bits key_guess 6
      let out1 := partial_decrypt_last_round pr.2.2.1 key_bits sbox_index
      let out2 := partial_decrypt_last_round pr.2.2.2 key_bits sbox_index
      if out1 ^^^ out2 == expected_output_diff then dictIncr scores key_guess
      else scores) scores) []
  (if scores.isEmpty then 0 else maxByCount scores, scores)

/-! ## Linear attack (`src/linear_attack.py`) -/

/-- Function `compute_approximation_value`: 0 when the parity approximation
`parity(u & alpha) = parity(S(u) & beta)` holds for
`u = (E(R15) slice) XOR guess`, else 1. -/
def compute_approximation_value (ciphertext subkey_guess : List Nat)
    (sbox_index alpha beta : Nat) : Nat :=
  let after_ip_inv := permute ciphertext IP
  let L16 := after_ip_inv.drop 32
  let R15 := L16
  let expanded_R15 := permute R15 E
  let input_bits := (expanded_R15.drop (sbox_index * 6)).take 6
  let xored_int := bits_to_int (xor input_bits subkey_guess)
  let sbox_output := sbox_lookup_int (S_BOXES.getD sbox_index []) xored_int
  if parity (xored_int &&& alpha) == parity (sbox_output &&& beta) then 0 else 1

/-- The body of `LinearAttack.attack_sbox` after the masks
`alpha, beta, lat_val = best_lat_mask(lat)` have been chosen: count satisfied
approximations per guess, then keep the first counter (in insertion order)
whose deviation `abs(count - N // 2)` strictly exceeds the running maximum
(initially `best_key = 0`, `max_deviation = 0`). -/
def linear_attack_counters (ab : Nat × Nat × Int)
    (pairs : List (List Nat × List Nat)) (sbox_index : Nat) :
    Nat × List (Nat × Nat) :=
  let N := pairs.length
  let counters := pairs.foldl (fun counters pr =>
    (List.range 64).foldl (fun counters key_guess =>
      let key_bits := int_to_bits key_guess 6
      let approx_val := compute_approximation_value pr.2 key_bits sbox_index ab.1 ab.2.1
      if approx_val == 0 then dictIncr counters key_guess else counters) counters) []
  let best := counters.foldl (fun best kc =>
    let deviation := ((kc.2 : Int) - (N / 2 : Nat)).natAbs
    if deviation > best.2 then (kc.1, deviation) else best) (0, 0)
  (best.1, counters)

/-- The body of `LinearAttack.attack_sbox` once `lat = self.lats[sbox_index]`
has been read: choose masks with `best_lat_mask`, then count and select. -/
def linear_attack_sbox_core (lat : List (List Int))
    (pairs : List (List Nat × List Nat)) (sbox_index : Nat) :
    Nat × List (Nat × Nat) :=
  linear_attack_counters (best_lat_mask lat) pairs sbox_index

/-- Method `LinearAttack.attack_sbox`, reading the precomputed `self.lats[sbox_index]`. -/
def linear_attack_sbox (pairs : List (List Nat × List Nat)) (sbox_index : Nat) :
    Nat × List (Nat × Nat) :=
  linear_attack_sbox_core (compute_all_lats.getD sbox_index []) pairs sbox_index

/-- One outer step of the `best_lat_mask` scan: all 15 nonzero betas of one
alpha. -/
def blmOuter (lat : List (List Int)) (best : Nat × Nat × Int) (alpha : Nat) :
    Nat × Nat × Int :=
  (List.range' 1 15).foldl (fun best beta =>
    let lat_val := (lat.getD alpha []).getD beta 0
    if lat_val.natAbs > best.2.2.natAbs then (alpha, beta, lat_val) else best) best

/-! ## Python list-indexing semantics of `permute`

The list comprehension `[bits[i - 1] for i in table]` uses full Python
indexing: a negative index `k` with `-len <= k` silently reads
`bits[len + k]` (so a table entry of 0 reads the LAST bit), and only
indices outside `[-len, len)` raise `IndexError`, modelled by `none`. -/

/-- Python `bits[k]` for a possibly negative index `k`. -/
def pyGetItem (bits : List Nat) (k : Int) : Option Nat :=
  let i : Int := if k < 0 then k + bits.length else k
  if 0 ≤ i ∧ i < bits.length then bits[i.toNat]? else none

/-- Exact semantics of `permute` over the integers, `IndexError` as `none`. -/
def permuteChecked (bits : List Nat) : List Int → Option (List Nat)
  | [] => some []
  | i :: rest =>
    match pyGetItem bits (i - 1), permuteChecked bits rest with
    | some b, some bs => some (b :: bs)
    | _, _ => none

/-! ## Certified table values

The eight DDTs and eight LATs, as computed by `compute_ddt`/`compute_lat`,
packed 7 bits per cell into one natural number per matrix (row-major,
cell `(i, j)` at bit offset `7*(16*i + j)`; LAT cells store `value + 32`).
The lemmas `ddt_eq_0` .. `lat_eq_7` below certify them by kernel reduction. -/

/-- Decoder for a packed 64x16 matrix of 7-bit cells. -/
def unpackNatMatrix (n : Nat) : List (List Nat) :=
  (List.range 64).map (fun i => (List.range 16).map (fun j =>
    (n >>> (7 * (16 * i + j))) &&& 127))

/-- Decoder for a packed 64x16 LAT, shifting cells back by 32. -/
def unpackIntMatrix (n : Nat) : List (List Int) :=
  (List.range 64).map (fun i => (List.range 16).map (fun j =>
    (((n >>> (7 * (16 * i + j))) &&& 127 : Nat) : Int) - 32))

/-- Packed literal DDT of S-box 1 (1-based). -/
def ddtPacked0 : Nat :=
  95562700156686848760595614415180438503171696954866004500305050995174823218346912013343794975738746160214841209298190951654246449201648568965581582384847034677666308248750242367776893798795323187179070155122085609926291454003931122523501750572377808674133388883431074630411540540504666458157301122414369844697445863276929841607556892275480613020478550179288391180024171362123304144736890213985993246029228642746049119056050990545044253905548606718461747365661657804895960178814405323194536160717136432452130450910819268452977576582257030686408210213475662558506139554696066140714549133421735657737909042348137356702271190431801586478908350478326408282155744102938716882975223099057455091307797735318846770309968814073543161223522251099713497292822095596058523407743032921562224948076846807913326371078677009674423960005737247050388421961687325668906082505888355892112866539768009251907045193224277794360729894271135835673238964540114219523693310019953443390605177101982590863334383823831738387486705886797118550605136832495650112908386461200709179365748363423898181722570729934528808671608428062047994881326521850588365195415345643435598018026873310328318087293619560352589160656345303976188233039105767231606126010573203163389589060726776588192267216248081836048964518129582343671440766703071955017875819537196526963509027588692359660125936521927116340368564598000754317225467038429469971620208556662259179969793140139523767407944369487793585473106167358364574207415340596492624070914812978817509137369160075136672239726037103205153488735549372332815140059307993908370920219442850481341199012746104410945838301106502038080164169579247212421006045164947065140885931267539344494526681321922392186792091851629878775366821115295840441033470972593503951007324872305093607379570348284446663897589244092932213765736669457858766932465262462957422898367314867132567023457610906788910151763476760953501651665818837711347475215571657534575838794776115675800697808503116776959729583036367574034023637113186840520412029221164028383540809497293915003763750873280623111193058136494559963356219922446548160244551072976022618130207427554435909727458442991343771022792851520

/-- Packed literal DDT of S-box 2 (1-based). -/
def ddtPacked1 : Nat :=
  288157392339180356902942766838045520146316628419188937975936349335087450387710595948258305841883997874293003153150940493653341720513666113541138998563891323152407364636719233528852241539651584200854556342020185480821097216788692904098310742013654827705007399860060065156070727776029298706107342577043587752905845807803550463525455717721820245592377985177349294736172458697560469950321475782153889375258684592895640983792715327267279734185810252774282477137263117104600606731645455495791171687376524314348327316967827109526323042956261801510784640878756245835380977307070238159938188872206215387251501533000386420977396274256767529788118414645825326711156260876407361205771633980662171118170627072857225677692773480693215326425709573194042885668882575562869159183038554972587176725186267112697472841987224912360972956133599106088035954133786132908905381946950935875654415562869186340336692014381583632130867423489056676230600578608677069721744575423431917678923769624350359618730158582066337322579273610773506860916318203618626235136243428606846866067263609860045744993734244599005970079498498214029044132963015849250979471837261991634483827823834107805855175174300097338089278624925842999742922299555962769971472729057434991449375465250390874177421632791634758537885327348148943556634961063194823623583635065628005263780638260603470425409056062498992801105755863692569842980182161341841988259122186494846021936642633409856624479567088607949704098342553648540280870931253355192394797343892995992263291058908347245899007591686702492067628358041207854280413896880638579214940072299406589032037875285361675633350371531054852905858465614618555150661826392265117810038944416303186894490383959865098818386312847990122709835354379765815301890254780225697544502270339007387308558011511702525334746771399847216394684096852830811366746335843871801680841142663536825807614545653667542892251999674133846710079534215788583636130529821887828643667932207555546857075792733803720007965246143358832456891135525587792495413008127819725375752949530200864551461622492745821226171606969256708634664642929376641358869630408359285280502952889511354108249183016540640849777798414400

/-- Packed literal DDT of S-box 3 (1-based). -/
def ddtPacked2 : Nat :=
  189614919833379174992634831336695164307664840009725227125401784421399692710366178414486911007305199919783924183667593999533417257291206448028354331649958959635652774843537169967183377218445982846048719342510377926136781016209807601826766861325143375066137126255019655281279162175477016540990861592764407225028130133571971140245517865579281342829555688099927673771562857685548585696716404312865257072508433185605546110285734911647618128188915032467480667974549168938515230557816876648256727055924937499349995113868415780882297763983796107528623576531724612679677424190886142130906338530323863111466779851908657865865140194726828313732053005940498756478262173993951272570616553807925348490012553650372494180811906040492945687165327427522965512503347459913527714644739031539739750270524993243734394368477538265409218022615768874541920510956049651048819195188210090263835219045491229287268455097385891872219132917433023907960277141664077460443698230572570110391909894735382677384235988800367101758476173515870143616804069921027421198172913368500141764367024756940455068427371799382195096742305548593834878194305788027416007975139219343730730821178544688337433066129743501671871740238906032313553564933819345088747712098389718461228069895061607097625771319210525365909810087124655127087749065973139151531409227131580325686497970657053476852603677241735060616141481653825910741115071706996422513084231587037111475486754837681189574621510145750211358559486943617484541800430577416084548524793416655284312834912118186718258171658574717115076241803211514047025214944389724502339082331808141473081924066715164175680230028729468802965578802289429811215007710596505773169295824467354081163704159935590045658976284853513797268590082001491025845243811210906434732010283106802000411944527207500099471941426592683513400013081025586882101509855404702400695117316082110955158741370138679895784585898224889619076075819528813662392267534278533518120596748236652697028497044190389888327016896751827342807000031441602559510861140384908958111131593831184748768840930643587402667511886368805395908274555892377406028313754442105839213974603951596603586323583638827372034029525139520

/-- Packed literal DDT of S-box 4 (1-based). -/
def ddtPacked3 : Nat :=
  379229748531239402321920380591366138265973069423014600715211707345859011645780987106728546275685587663387487681060146450116998494008986666333673448281316255071630926199325359106386282049992265459686246689483085821881723937140842267829741993459668785455863414870286497652981711845766733687201470487783159859685835872110323012268134707151179956428278652431952844923806539498131438869996838049210764209868756093601796804530659985189454566692824312854727572635333832151135345972794457521122038288420521685981794865506710851848214554393458424889277134109412939547471055109568656236815146538363751684756341146746703266334351806471886993846283453576023336130346009046822480232808872559429627173272967105304107441896600284910097631935556055940699969385236711007126985799685415075963639369658378187491517127852812988560409238690954883574508555787618841917644800308411018908028664869480198995895791832570517266236247543576083970251029497751155650193004287761076361485572591421521829857872909123368346964583168294188734619915920068026928285700554649463289416512924202880648954515005224694052555749173852812123286066097023996043070994977312427772750712907101608942390579575159657625775272737945091886080192426934513963448987560846835113669811393650594564270119199494805587575696548488155795135561062105904082892333085347356122603168063547208572323582815411704274457267727131785287313624019195605439189126718277481357301905961416239153837086353997579619049446854233925506314101062958523451117886615032264214891562167192237513378167830061466229050822023730148745875843622879699200928223332901987463547436848444226467203830980159575255954993903482122252050526240953136848761078654169384247298206763277137478683927992416247911549143125580860198262483196003640607140054259297201505007107750919987923586561961739037937107774335383177355044677167340649698549086389079006636453598296554930943781995470136450873051925310345139148175455150615577966437687992003978618043263389782715499891965990993478704675951064492586257468032922720722720014313557653101091848615668828737420239540368969616684150725979026011220643436775688601784971637594362705667154404927506194756266227386024000

/-- Packed literal DDT of S-box 5 (1-based). -/
def ddtPacked4 : Nat :=
  2233599526329151369068455366157588042433045176331943184454866198368524296722692233042236609815046992607887087433586842737776169584171979036934595100762536091384818417543674911920073086864367140707271859801932469564899062100306469615818707790505800734993959652174753215192724074305851332704408222399172160645430036365172061690707995170331606535993327402751702973102371033517068334091910737201742149348112949783441069143207760380833569745067667712187683734302342355975365106146920615347620485740015775198083915727774549381895896552032190724528020600079863049086891710468229299229288105897304448281496815928881808607775842881348457553507868452398639867308497096024040408587879440618268823352457086101509156699057917346936352344508136771592005941443277603504643907957253242875303832498900864508842340087459829494512014780493334226346690563741156791987024107698464388047018720830174121615807575584476011669136164451302051351391909467643828114417306780792280230276706743466520812381759121088820644640695757549662455213746618944875149251649754681574237438899750643172543203634741953285111985856880287534552718766069295352087808946148055102591888442366297504724508884730061866474257573431653170816909135555220601805947491724042337910486800235812675606197004511920388063395021210422291428420485682784691443489804399650546102342839007949875642671176400632318131327892392495635402286570020130399059259667547297996617771340441652654825712107685350249225687677429187836238013218114056630020969381781574868220042654840160933895250364390735096132845724483703650707132888007648203281095462239215031094741160516592335437554209542311308515981979313319621961980024109288561744201831536804749974264490654284980665676347026905456796215730961154110522822757510974664693003022983373618348282271499801945657454276675677891846930354193338130836131184383940006522200115593280932197541108963826755272117023051928183576536059468477806774879520273504711135470429987670303104458806075136674931764863617434665198737827825776275597471892976844847279220989920636937666341072940283335307040518388022039740200704362463877496175400860754326614699722352375456800944030462568254914711976411200

/-- Packed literal DDT of S-box 6 (1-based). -/
def ddtPacked5 : Nat :=
  95568394738821025323358549773035382197685288015355545231176497716382208423228595043474682486033238098262856901577272179727728954681068140970531142113987913836415165080609087374885856627966384126476831245054183449940001762232548619329019454201331747838413813170398196239537608948095550022274963202542252338444113783165298574512595329880395753210302099560107409034385535919448008753431508236505173334176204340243534437239992626068058107549927623935381684226708993026804846550399377593910077618713721990548233088114125668855400617408040917177605204580338341586076387045745293964696498561493573394696707691984472868326202800294329262641317730609795214876248722791238338638704100452469025764094981211764448223640756638985696077615818894975042831274518831268775969724974299038503468176800835072137457211093984458365054908386861833745269442134805019651048551775028285360097322275275785900849520466230385071109046833204835604196976583956175962396240716244967040104580142935238011925914238428304077564227205519072922645218419487928732008260686439227135495518807800148881038020925664035588755776304680353760441635729082072871318139718318970295258120719606519305427456525873843758948333545219283733269757889023656808194380794504025185726127434303112013751740994895963640867062465282835523437524988513841649113731527214672299110089313407942058131946762710419334603103092216415646216279420997015420189971223631666794902182884238669457390604347532373884622383551467596108123407580520783955789078528747809208373628328149363411335382046720593704931737757053201028237776334751896723989035585381051702769305574764822480599936544647287709397563971414953443760599070162006705392804488750856020722611206080755428649903583602212162724486220108948439641673657804615114637418429302492908533422974580906455366410847379994821871265516444913547820758650329174128603848607702244155685992776681587618274004177841416192904537782790284279117984514106218573729300493374719994279442281367108661968935626729508942591219471023971015694561854949078973284670675796998935506022611605624882323219020655633775511280002937406867444473761850152424599227039696960884928391115348326897376072413741120

/-- Packed literal DDT of S-box 7 (1-based). -/
def ddtPacked6 : Nat :=
  285918051970491769876641975534460698373251056755015247273836985541523632822503272620332560841913407766326569051953755352956572738385745411712763973542500946138830626047517383517757258779774843046339725085992916468591836284146945917562290278894672086497061431489490603674248699847317310333420942329884094108412906997209029777808727248791704017243813208366013141740735610105748652346059849087333287986295287949266954163566473047259800755284810629103471236722767884464364609746495144892497099861784308100514449257375516876609093752210242326274649639789840611649128770984254634454611998135427651452155497097584354327715009829314751931862773429007485259388393172456362740229706803333650571843508948805786133308131712943170164604435109303130660584125331278338002247018153872975411998021576801414472275271676835266725045501011265670557741699864785932653493890521478151251987730658458850332789493506602981662263146613842671524365213791731165186983293683838238205532371226013544929703928304109906937316893429581255126757486509186387990825908629843350871752321577583986276932921519143379741836282959749167741857991755900414473042298287289067653266590416344420174555030608874281542035443043291365941673974564281116240713003996772892548506989978661167282807129737192597634579066880477352909426769709919199322495238999832717382360793864275531125669885449545366509877526923555431237480081880942989082946934511798219916116491577456041121655111299372048785968125112360936705515016298947063943888214190440385898690813371928856627024487918985024832731988950251378871427618749666743770733655153318974333998444099004194062131545222748045555101947225345883330488028525613771586158732173980948686028418882367472734782420468344820895012603548772246963418802654057860653077218990109287664020821656353662322019687360283319550565619656547528696270295649860304580572279163615796578440940848084306082272063352305176566190932655937238262806638925243654153927250272580451348481390263080435994377779355758708794022411570231547818773687013499219573190673519604999206380698138895525718863659346724456129012717233345563489813555967400900800013167749509896216751921177331722839943244872155200

/-- Packed literal DDT of S-box 8 (1-based). -/
def ddtPacked7 : Nat :=
  2974213758607739574867638537136405248880098661807109317292034295786408211364807057625673992075251107779582379673673763231290554761080072363786079848271103536109001981836367837117271946257651871859091054430739547618041151499410280565116814462874043948981843616387669309978695505041320017973445367400777443882605764034885751250574289315689840537840813528562222251444044309469386068565906417019854087724268112063362628742204376580904071330630634900593824251459408523031269679640019602880355238493877105868616978093278516027660917738793150007511262665731689450477404822470128105024813075834201781804052773015042464866299592772934262885582910958918755014363364113689582096046695037150633789708172822228720278328965295430650655272561751167995282505175323959241132878648662689121219274365461426497005800295158831407002869329123028090951830832938725654135460316866083432008635815568982201013394796916177430983985828264565172623314710294093203109813642579564918046162326767446930805022719958557781487372554993327236912286426412842036912118378809701783808432031938763249942974125420328798915356070489847804286790136095566645434826911474360025007123727913610054895177257567341209515413139936293962023462661688322201811345925994053160729177985102157387171964979295622723955421691142573747583369046385698749264130608576793117169898043236204605316983580294007149920877810067911413824272335805461601316363700202190037047250385612043002639658798041011870397326142196097022995889847448210104200210184633109384010487492975828363009447646209495987020474530034070759161863234660104297534804088928997643389819903944992741581073771074896727664826329947484521391261597361494702785149287522759241841406273558254389469605628650767012976465939350727880479335368276889133490688420521875347850698553049516242205248666521774206465421663978287240891545880738771113834777953139692988614690096223489020981800485244029516659181773865325107894339687930730742797948611880322164791255687436025006337889233604857265443465188512715499202062348989043894981060369782228455121670316722930463682885689720156226191990460618919892657699296266918044188822699083530942982076790091086510064468131577920

/-- Packed literal LAT of S-box 1 (1-based). -/
def latPacked0 : Nat :=
  1435486885571020462479907382274172178762654305195491069023455516384568329987795189544469291915151251285621445138147468145934124919218600038357180529712561314177096450108860178809752636500123466728444137250793270229827558151288280538125985802065280777866006483325887673188114215113864298629757999440087696650143700133986130689851529135349038558634332170566112982631322315267017719459560763321052575558077762957546728928568632203797384591795862355519780970559942879326816034638508480570319656932151334307551863439328954300006964895735177978243823138100198273945699893331374761616161760117086998069109514005415166199748487917027027410765448106595450739433993599088382064556766118897552793524039264434868116401515712004829775900334512389356781893020048545299817283701195632893776601361921606405668189476447158923434757566525562525150805192965257133057984293879332748877383699926637975255610080089400456330467941835123821107517561913448342072406579732662259388195715263697863131964736080927532590041065822001732060379240954537018609630398432261274437551753261206601468033348539570910624841196598262705588673051917069522527605189718113317643382371262605956583139433103059843554742282117657433015904376693244966170130411517677835216396518986703799999948784149667402501049546419998871929923014686531948535237226023856899245203683819087338829584274994261690253415554580359968459558406286169921140824177969439754655039229441840627095119961724756054519960501279846961662560489471419339846671117677238360389507356874354122711975762067790509455700589916990841975950368574881376680846103267714991668933090724628110362133655876385025290806121464852283551103919071716863450740298897242396130795845435320407625245988388065508683490139917087953904454342589574464886897981632680031991799241036213650081718504206371825196789176226826269065993255267836498185353725884457903642283160832814086148834754941055050451297368089628826569086209761466005611673350370825830972767243583118087284774310366548391490936708272820103292937958377567844259456521137745128798422871326172341184852957969288517100761184146409639228583844459426828458211784773352578983532995554122554129729876061065280

/-- Packed literal LAT of S-box 2 (1-based). -/
def latPacked1 : Nat :=
  1529556556631790723693961463264165976792863279129463698589092999849301675875694008364900912076975128984505796531691251029347924210628037359315292038362835393809657605256090459791108303139710238494168960292821841662282233013868341270794913666772234437675426601823709336396909213974395965397711824765988518233889918937046819510316508271593948776464053217060901505018864052963007135489059597700262223952018503898747584273612640133808582218981190113130349265074382543401311842604497686624710836162455901210072530812942316476816755706676494161990893167790975099160681611684653247087892545521461194125409453331824299493619188192265230822706131500337906169279939079582190988943075688692121841774718404263267100788602780286529154006798018375409072577799753974446851299998509914861039296964543278379391554671906417924101336116300573409579271824033536195942732911531901964776179743377003252167450575024433153199515352417939189039539008240262262917049067269425211785126262927036811421786001831718627111011850884702283306256110304297571381568617090448498099640640152035820085140389142866960876346353905041249871030281938820577654541761871863707359692121559316372152804866025582955224021608945233247511056737362668892439726605711524309261718276464914643941140853711531963593232516713568365081309892150318349123893254717950276933236987772352133021732894019819110306402145928958885314962312380768400829616592643779959987893466561709786555058336974804810403416948873921520583864747995949738228158827029469788694153053925116524541771386943599881101683274573354805688082633412378222403844314830007878321797413026289157059896318840777859620379880721371027934708220303599230739276607585211382625802087990987026122628958639696971377824931389142540664499314722425999738628086379361847259028889681934264548683550631475634958077948653973899771253468408671107800192933213887453259341878821227866117231213898558911750867351452518732009940354215836669282658671228510820592779092474394038436903137380270584688800299705585899211756896566911905781357397422469885872738474619258152730576110964904937432625673390279399541862317513606820061372256896949389630869227730761633951129648499265600

/-- Packed literal LAT of S-box 3 (1-based). -/
def latPacked2 : Nat :=
  1529562387544627763617158186858751016708869456082378229631304770748690389929823091717933126127782293719550039592765029954247464024653925095873679657158537214803092278572555856879598178401703078234704290770474161446964099989808532993139641005162246450809107748813524732048310074641512543542043831550079293051397542914307838624424779118426989245697540765293705598376696066351015883274316964141656075357712600465617330650254225385544853950314231073312572780486510338258134659270379761898122968587002680376483827135477119955904311897206097938993811480911824043840101094034915727570963082989554327007830846228038626294926496183474673433704871283492695945985407185531893480946303329672371058391049959097107239386116038300022210428406303073376348259161772251680466803274261147502604614964984770212757986862820480237050601761345148428805572681213314060727578792926800170189635000137213196806072848457661365211007885680490072167606047570934678724462633878315302897928037660028555735905714901647666489174307812834586249446109357117298924422958323805305934810474306506306035245245743851462995630254923327805717590330042368509550196840904355237761068796047353858496018359708418607530923752296222072519505618770075595316025270413647537689822915659316314580596145532992484401583244090153582037832384000015160712903407403817550253752169103699007747635624696007025358603893404554765549421374683554787828485528180916288368099023748971038656387276859908276497588169722285565527920359063348169690410865515215500193999591884709887696824586184592714601942860076434572502287520353921155916003849407073653132417083312860738136382482075559098194564189136726670372000376870839156853488812958092432974112755631249155583753544954861648511351574282316774093141914958604804080645705092410840265952553244592799769206114078774331910180185342078334971737682668904800322569755472443294203540102027221141238432048779618285302875468111413636446339516509344155109196046855120396912462791240451418092667130131526952974335012016345492473718784475382645919759135276204793933470322535321265866709174521787813720703985110930763812412855593801298807279091249048928364289875697827570484020371167645760

/-- Packed literal LAT of S-box 4 (1-based). -/
def latPacked3 : Nat :=
  1527322956749549853261793887592313338069317830118621546022633095915242274799954160457199460483350300818159790776117666272721614939097369850388676287074245907146427521999971898064967923741253338005728555596924977555724023729217928433229519938301379110959136385021163806551928872016788375587913737122080349175982753824570944029475895311597550814648440456244531020671117869871500775530981638431139739924783228325706241875865376870337063534952497467856675752576539443471023919338482450391641206428661757324001590603651481106817824689625256783414465286019076009241628489915338695605096333564312905461073402907626605490647482163187928049484040103503455447118833656024946240582663473485378421796961893349417163314948545039295058320647750729336979260581277948446049149351254701952043594590264361651845206239041256975120984654716125900380153890034898360342080349457172302968632604137329452443208830134876037325682972175535910683698857847192502494818293571706279639057322028620735380939420733754482880416919206852033632739613992443187171021007917213711762429787444035900203970850602597046245069123420701112485527096108847012690068410553316421343380530741578755813457189146072441072670667464792065174334622497871483548669268187779646955149051503711968976661460678743601270270190683135897700703470698052710780249036025293822066992602279181457890138603586587416007325670393141644546401712621696194486427150663466244620455370197225420413684116088075941676448288382162701985211322774665640104299575694274153880584269247115482940964451509850256345996391772518125843883131789510257329454222063160342305967279221688823100089461007681117667467131038853021509695678227107859738047579931900782009374871991271086151900583960256707368693604000156727037793921149970612499202725033821236288864346451182574685632038282484908764048786714738212799376933911474682001152340036221414327793179884461301838273393247058024522047421424695381818633630756815813652942614163096376030065111187409878687933935779677191318841520896750039169670090153273368187622853542040511911565223853355973088647909008348167675485537928741920514981066810803019757666430890335041890640690188842263101262286199197760

/-- Packed literal LAT of S-box 5 (1-based). -/
def latPacked4 : Nat :=
  1527334529936781233600383906534531127675577994110775805989424077690354695461461647750607032401185209179185975819533049047465329273036643839261207150599535835885880652040439432042019983560809398205351625396485155902989143902262242979442776107059411218288079754345110850799695542779281565807400739900020128079272241608644584776927987625774395514487362456116817661756718613378597040003667515004840398030084405704194600227600814911869690345751316573204074366485002066780041869830192331383152821242666153030839243764600559538022447302693302568937783604824002610627906520701479044528202013616164966599811128082361808748889624043517492104533091601650849061263751768132215996274745076079415833442339091273575601134517792859000076563814049936870846667853976748431202723578279121679387779078514947117704143960339028005580938811545060586178345152426189198596967495601466508512903149304958557729429747761135589116627424475778773525527979009126750094440337677964856921886055209521559895573760744982570443018186205231196710788815053897726552960877742076908811461770857235245045565984077974057289152132789552113024280663240791721344075374147446933335736901217790104809344744456492416651237790974252803568500605647652007504996357990741656339060958964058732806395186688994262077038941109697859720307861310402470622958190862336505826410286172072428138934917005930286922737813553694561259473984577060110644427662992102333585778274547329620000353146476180730189889194095296354327870419107141699618744429012599699350910529861056878795469199001351414367785700385807329363030755131103563845155691366200938145031326246779536812921206634806189673238287802160681936329719989965414680015675069878055966020961853506812446798086179651037098763178102471639428350261397725503440000971106800784478231989534824745446557240896458033201936159420954607558418274467639145976132785995929395041136926660686008368220541017183002694032794443921968257240966746497342688836881224013515398161490464834521749444534659286755651951585574397031903886721113066268381271365043514150002545241987979982241831581431617065367854634210024043153882689017312530402327812928606663015733677303080327983722742401208384

/-- Packed literal LAT of S-box 6 (1-based). -/
def latPacked5 : Nat :=
  1433265040741557889762550875523701502615408676188455852645338315200164842783226703734658738423685785335447553601771877040155430399305319562349334966998511505860530038857305217892941124477958266798023553268931823025323317013565969531156357718494475357750464682979587824170455250718277268571611997344214557012322967072310867769620715885347169995281985747588197939249167694420877449796568850000315276179777211330084223871420775834029576986435470778498172789481378138497721007166980975798025624725698274303649050174770086764589078531369765899221648822840958155728556683681572970193488083322246152990179213291780134453792332127497377185041610282259717284991136524473756883843717776052113226720022600899130390538219103620015277529606181402449530240033612902301033314950439067408951679631968450174615219509775516914118251069903562532603830316861141679085212140958256070185290257613121143926588224712774782562868430415660357865750737669128964722106526102901152128836115449967806053696942554020427045661969097704367163204274264616339416180863060106301577520359791815416200175379354366317956700921043671683394883438071868286193111723978593607457048111183420918336941680187032519668687356773202691406738925758904900736259568105492751774124186870028152210882300246879697650870579432855270344763629280771296668967860042909749174061584828720040706755899460137647526024327782999458458276448600971972098817506199536786337793544483227713215295436779911820432232899673464473316993198636234993278171954184329748094834791119847538999102424808373007079465136624478188892825803833285587749073362327268555960425404799358807050427596259695669028643510379779931164475406303288999636516542556591852017234230431928361245651488552437658015908489749914204657400508743883239543596582514474494245545359854506313152183176853075374279662415919342262033185502334984759933443822907791210917830404079277431971536841571731884723899741441382445567051420500318001124659785074746219360260811568021733257769657149453178860444127215526640884152799764245782126414903280865292049545737727016715878435527206079809013866805335813714801017444882729518481484604172761540467157591781928478703369208025583680

/-- Packed literal LAT of S-box 7 (1-based). -/
def latPacked6 : Nat :=
  1622150466037451690901002958845835902436712562137391510198267646069051238945290710089271025310037400799551943398813614353504933853691870607982432770416912899465310874252116601732688618839831956237335042069873696055096520752484226698005522969881103932436677932561307652379824187458230396635555259997776175241861472048029236851797358499600609443334047636777803166986686138764206279185472393537361018535378327164793753033298662524855564717177314636909271560119182409919101688649052217218368625665584153721833655031482782305819443599700766339535985441165822156474756416856577436626140375772114712081626411066520215785149535159326612718544997659252178560663161810803617516188315213779441716041842361131669236460086596051389362729662421371632867459519083862974846213386547464908302649105073889243979839084214679388285745953183844225572262183045196713903778393668180157783025501701890241619232847954490614734890445131796423896782666947378547459949090263018938838374029985193064589871360131548036043857519936589514767622446406930415967215811365314345031779512069654832044665156210091856266386494203019121661529626806843120238700714893296478350136223552431426930531962690567108058767919806499848954983091349636135842314944199891731007825790099217598357179387107514751785823951665752803036660917435538608216239406697396087265735075755093200390883646167382262026448398522686365674808403747539123450826327150731724459610024622777581067734177278389694224315771632890455946903986151357862982656505030245247687977001973429288463722308781360961511991661439772156107387671217015023257472461510528726285114534952476065061236378647255639604083757501739143763598952570975509075102405032047441732771103278046314756025803754308886892914568216117027309194194562872170766726866135616303358353648473552235412745496352049954607073525265558681605232893892824000567548423396916965768582607516520029573700180863520876594223701271836119560981278231340749873966669172745094128194999980183006432612606572990609577952127022468723155342571757744244074193583073440925298461152145213819714923781387347071367613335711223158934693326895994384724297564099437696915718411683647341722512300119167040

/-- Packed literal LAT of S-box 8 (1-based). -/
def latPacked7 : Nat :=
  1527346013740675797498558652393843563292106576451275498907214297740700527581985715339933057804043040087312097390527734442331472347787159461415863523473920359840378509157053522403919239087223313566770264298539570157665002836800508843416653373751997214388336750976642103803626383952745242473464467113326476942049620306047290570863513784636466068181169907494890239395736895069500373737377645190192016190193587767687961039499004216178528360094296594880651137366203198389148709393400983543482116878717916284150097226099434094064552673233715859083172161357984178213071580743960167618492305699309901706687134289261392262901227129213818469327380888470918224205345980448812580992643278050311761882999764158269672060040456948190563103623498726407838982826221770209429369861787231959616628871768045154510583340430699987353475720159407507640080479001111333617792079346161859450211450618328315608034021355921001291593486521107219716561733265800927517102066025769853344808499434315199922779710160285914466417149558861580282313670235364425051533284166125607642572311558333697029484305957278860103072068118612636332839014060561249692123959057070062361602305312698389682836654278096300902452357949447646597714129343477402997202699131330864237520116166715005745714602898698907411079558899023908778177857325596408280985884528859178554914241074879168495668033649190835371028316533767482394372950011767204183489286178255546718856480184594445295000399894833724684005758632953062192516718624567037259530171722879465655906790486612152854376114401014520894887130673622370578473787083888313945349079111298221659023190922906844610468066095878344444067145018908343548138175971404994278799011685825937565284381313297136868272570289579123288076301019448849115288443649677803116498680019080050134475936904349580091508366405417745580113280748644195331193854635411749736388048968670225243315625872709526994731666341387420146288553621771676516686046122371647858704120845031354876240176464087975268129452926244162573553917020991191635722760263726750929620892358599145852192215499765316203194648518219681837418033480113002797707073843206780501072748573201720751040357566450724454320789260865600

/-! ## Length and indexing lemmas -/

theorem permute_length (bits table : List Nat) :
    (permute bits table).length = table.length := by
  simp [permute]

theorem xor_length (a b : List Nat) : (xor a b).length = min a.length b.length := by
  simp [xor]

theorem feistel_length (R k : List Nat) : (feistel_function R k).length = 32 := by
  have h := permute_length (s_box_substitution (xor (permute R E) k)) P
  simpa [feistel_function] using h

theorem xor_xor_cancel : ∀ (a b : List Nat), a.length ≤ b.length → xor (xor a b) b = a
  | [], _, _ => rfl
  | _ :: _, [], h => by simp at h
  | x :: xs, y :: ys, h => by
    have ih := xor_xor_cancel xs ys (by simpa using h)
    simp only [xor, List.zipWith_cons_cons] at ih ⊢
    rw [Nat.xor_cancel_right, ih]

theorem getD_map_range {α : Type} (f : Nat → α) (d : α) {n k : Nat} (h : n < k) :
    ((List.range k).map f).getD n d = f n := by
  rw [List.getD_eq_getElem?_getD, List.getElem?_map, List.getElem?_range h]
  rfl

theorem map_getD_range_self : ∀ (x : List Nat),
    (List.range x.length).map (fun k => x.getD k 0) = x
  | [] => rfl
  | a :: t => by
    have ih := map_getD_range_self t
    simp only [List.length_cons, List.range_succ_eq_map, List.map_cons, List.map_map]
    refine congrArg (List.cons a) ?_
    have hfun : ((fun k => (a :: t).getD k 0) ∘ Nat.succ) = fun k => t.getD k 0 := by
      funext k
      simp [List.getD_cons_succ]
    rw [hfun]
    exact ih

/-! ## Composition of permutations -/

theorem permute_permute (x t1 t2 : List Nat)
    (h : ∀ i ∈ t2, 1 ≤ i ∧ i ≤ t1.length) :
    permute (permute x t1) t2 = permute x (permute t1 t2) := by
  simp only [permute, List.map_map]
  refine List.map_congr_left ?_
  intro i hi
  obtain ⟨h1, h2⟩ := h i hi
  have hlt : i - 1 < t1.length := by omega
  simp [Function.comp, List.getD_eq_getElem?_getD, List.getElem?_map,
    List.getElem?_eq_getElem hlt]

theorem permute_id_table (x : List Nat) :
    permute x ((List.range x.length).map (fun k => k + 1)) = x := by
  simp only [permute, List.map_map]
  have h : ((fun i => x.getD (i - 1) 0) ∘ fun k => k + 1) = fun k => x.getD k 0 := by
    funext k; simp
  rw [h, map_getD_range_self]

theorem perm_IP_FP (x : List Nat) (h : x.length = 64) :
    permute (permute x IP) FP = x := by
  have hrange : ∀ i ∈ FP, 1 ≤ i ∧ i ≤ IP.length := by decide
  have hcomp : permute IP FP = (List.range 64).map (fun k => k + 1) := by decide
  calc permute (permute x IP) FP = permute x (permute IP FP) := permute_permute x IP FP hrange
    _ = permute x ((List.range x.length).map (fun k => k + 1)) := by rw [hcomp, h]
    _ = x := permute_id_table x

theorem perm_FP_IP (x : List Nat) (h : x.length = 64) :
    permute (permute x FP) IP = x := by
  have hrange : ∀ i ∈ IP, 1 ≤ i ∧ i ≤ FP.length := by decide
  have hcomp : permute FP IP = (List.range 64).map (fun k => k + 1) := by decide
  calc permute (permute x FP) IP = permute x (permute FP IP) := permute_permute x FP IP hrange
    _ = permute x ((List.range x.length).map (fun k => k + 1)) := by rw [hcomp, h]
    _ = x := permute_id_table x

/-! ## Feistel network inversion -/

theorem desRound_fst_length (sk : List (List Nat)) (s : List Nat × List Nat) (i : Nat)
    (h2 : s.2.length = 32) : (desRound sk s i).1.length = 32 := h2

theorem desRound_snd_length (sk : List (List Nat)) (s : List Nat × List Nat) (i : Nat)
    (h1 : s.1.length = 32) : (desRound sk s i).2.length = 32 := by
  simp [desRound, xor_length, feistel_length, h1]

theorem foldl_desRound_lengths (sk : List (List Nat)) :
    ∀ (l : List Nat) (s : List Nat × List Nat), s.1.length = 32 → s.2.length = 32 →
      (l.foldl (desRound sk) s).1.length = 32 ∧ (l.foldl (desRound sk) s).2.length = 32
  | [], _, h1, h2 => ⟨h1, h2⟩
  | i :: l, s, h1, h2 =>
    foldl_desRound_lengths sk l (desRound sk s i)
      (desRound_fst_length sk s i h2) (desRound_snd_length sk s i h1)

theorem desRound_inv (sk : List (List Nat)) (s : List Nat × List Nat) (i : Nat)
    (h1 : s.1.length = 32) :
    desRound sk ((desRound sk s i).2, (desRound sk s i).1) i = (s.2, s.1) := by
  simp only [desRound]
  refine congrArg (Prod.mk s.2) ?_
  exact xor_xor_cancel s.1 (feistel_function s.2 (sk.getD i [])) (by rw [feistel_length]; omega)

theorem foldl_desRound_inv (sk : List (List Nat)) :
    ∀ (l : List Nat) (s : List Nat × List Nat), s.1.length = 32 → s.2.length = 32 →
      l.reverse.foldl (desRound sk)
        ((l.foldl (desRound sk) s).2, (l.foldl (desRound sk) s).1) = (s.2, s.1)
  | [], _, _, _ => rfl
  | i :: l, s, h1, h2 => by
    have ih := foldl_desRound_inv sk l (desRound sk s i)
      (desRound_fst_length sk s i h2) (desRound_snd_length sk s i h1)
    simp only [List.foldl_cons, List.reverse_cons, List.foldl_append] at ih ⊢
    rw [ih]
    exact desRound_inv sk s i h1

/-! ## Claim C1: DES round trip -/

/-- C1. For every 64-bit plaintext block P and every 64-bit key block K,
`des_decrypt_block (des_encrypt_block P K) K = P`. -/
theorem claim_C1_des_roundtrip (Ppt K : List Nat) (hP : Ppt.length = 64)
    (_hK : K.length = 64) : des_decrypt_block (des_encrypt_block Ppt K) K = Ppt := by
  have hdec : ∀ c : List Nat, des_decrypt_block c K =
      permute ((((List.range 16).reverse).foldl (desRound (generate_subkeys K))
          ((permute c IP).take 32, (permute c IP).drop 32)).2 ++
        (((List.range 16).reverse).foldl (desRound (generate_subkeys K))
          ((permute c IP).take 32, (permute c IP).drop 32)).1) FP := fun _ => rfl
  have henc : des_encrypt_block Ppt K =
      permute (((List.range 16).foldl (desRound (generate_subkeys K))
          ((permute Ppt IP).take 32, (permute Ppt IP).drop 32)).2 ++
        ((List.range 16).foldl (desRound (generate_subkeys K))
          ((permute Ppt IP).take 32, (permute Ppt IP).drop 32)).1) FP := rfl
  rw [hdec, henc]
  set sk := generate_subkeys K with hsk
  set A := permute Ppt IP with hA
  have hAlen : A.length = 64 := by rw [hA, permute_length]; rfl
  have hT : (A.take 32).length = 32 := by simp [hAlen]
  have hD : (A.drop 32).length = 32 := by simp [hAlen]
  set f := (List.range 16).foldl (desRound sk) (A.take 32, A.drop 32) with hf
  have hflen := foldl_desRound_lengths sk (List.range 16) (A.take 32, A.drop 32) hT hD
  rw [perm_FP_IP (f.2 ++ f.1) (by simp [hflen.1, hflen.2])]
  rw [List.take_left' hflen.2, List.drop_left' hflen.2]
  rw [foldl_desRound_inv sk (List.range 16) (A.take 32, A.drop 32) hT hD]
  rw [List.take_append_drop]
  exact perm_IP_FP Ppt hP

/-- Witness for C1 at the FIPS test-vector plaintext and key. -/
theorem claim_C1_des_roundtrip_witness :
    (int_to_bits 0x0123456789ABCDEF 64).length = 64 ∧
    (int_to_bits 0x133457799BBCDFF1 64).length = 64 ∧
    des_decrypt_block
      (des_encrypt_block (int_to_bits 0x0123456789ABCDEF 64)
        (int_to_bits 0x133457799BBCDFF1 64))
      (int_to_bits 0x133457799BBCDFF1 64) = int_to_bits 0x0123456789ABCDEF 64 :=
  ⟨by simp [int_to_bits], by simp [int_to_bits],
   claim_C1_des_roundtrip (int_to_bits 0x0123456789ABCDEF 64)
     (int_to_bits 0x133457799BBCDFF1 64) (by simp [int_to_bits]) (by simp [int_to_bits])⟩

/-! ## Claim C2: FP and IP are inverse permutations -/

/-- C2. For every 64-bit block x, `permute (permute x IP) FP = x` and
`permute (permute x FP) IP = x`. -/
theorem claim_C2_FP_IP_inverse (x : List Nat) (h : x.length = 64) :
    permute (permute x IP) FP = x ∧ permute (permute x FP) IP = x :=
  ⟨perm_IP_FP x h, perm_FP_IP x h⟩

/-- Witness for C2 at the all-zero block. -/
theorem claim_C2_FP_IP_inverse_witness :
    (List.replicate 64 (0 : Nat)).length = 64 ∧
    permute (permute (List.replicate 64 (0 : Nat)) IP) FP = List.replicate 64 (0 : Nat) ∧
    permute (permute (List.replicate 64 (0 : Nat)) FP) IP = List.replicate 64 (0 : Nat) :=
  ⟨by simp,
   (claim_C2_FP_IP_inverse (List.replicate 64 0) (by simp)).1,
   (claim_C2_FP_IP_inverse (List.replicate 64 0) (by simp)).2⟩

/-! ## Claim C9: left_rotate does not reduce n modulo the width -/

/-- Counterexample to C9: rotating `[0, 1]` by 3 returns the block unchanged,
while rotating by `3 % 2 = 1` swaps the bits; the two results differ. -/
theorem claim_C9_cex :
    left_rotate [0, 1] 3 = [0, 1] ∧ left_rotate [0, 1] (3 % 2) = [1, 0] ∧
    left_rotate [0, 1] 3 ≠ left_rotate [0, 1] (3 % 2) := by
  refine ⟨rfl, rfl, ?_⟩
  decide

/-- C9 as amended: `left_rotate` is cyclic only for `n ≤ len block`; for
larger `n` the Python slices saturate and the block is returned unchanged,
so `left_rotate block n = left_rotate block (min n (len block))`, not
`left_rotate block (n % len block)`. -/
theorem claim_C9_left_rotate_saturates (bits : List Nat) (n : Nat) :
    left_rotate bits n = left_rotate bits (min n bits.length) := by
  rcases Nat.le_total n bits.length with h | h
  · rw [Nat.min_eq_left h]
  · rw [Nat.min_eq_right h]
    unfold left_rotate
    rw [List.drop_of_length_le h, List.take_of_length_le h,
      List.drop_of_length_le (Nat.le_refl _), List.take_of_length_le (Nat.le_refl _)]

/-! ## Claim C8: permute under exact Python indexing -/

theorem pyGetItem_in_range (bits : List Nat) (k : Int) (h0 : 0 ≤ k)
    (hlt : k < (bits.length : Int)) :
    pyGetItem bits k = some (bits.getD k.toNat 0) := by
  have hk : k.toNat < bits.length := by omega
  simp only [pyGetItem]
  rw [if_neg (by omega : ¬ k < 0), if_pos ⟨h0, hlt⟩]
  simp [List.getD_eq_getElem?_getD, List.getElem?_eq_getElem hk]

theorem pyGetItem_too_big (bits : List Nat) (k : Int)
    (hge : (bits.length : Int) ≤ k) :
    pyGetItem bits k = none := by
  simp only [pyGetItem]
  rw [if_neg (by omega : ¬ k < 0)]
  exact if_neg (by omega)

theorem permuteChecked_in_range :
    ∀ (table : List Int) (bits : List Nat),
      (∀ e ∈ table, 1 ≤ e ∧ e ≤ (bits.length : Int)) →
      permuteChecked bits table = some (permute bits (table.map Int.toNat))
  | [], _, _ => rfl
  | e :: rest, bits, h => by
    obtain ⟨h1, h2⟩ := h e (List.mem_cons_self e rest)
    have hrest := permuteChecked_in_range rest bits
      (fun x hx => h x (List.mem_cons_of_mem e hx))
    have hget : pyGetItem bits (e - 1) = some (bits.getD (e - 1).toNat 0) :=
      pyGetItem_in_range bits (e - 1) (by omega) (by omega)
    simp only [permuteChecked, hget, hrest, permute, List.map_cons]
    have htn : (e - 1).toNat = e.toNat - 1 := by omega
    rw [htn]

theorem permuteChecked_error :
    ∀ (table : List Int) (bits : List Nat) (e : Int), e ∈ table →
      (bits.length : Int) < e → permuteChecked bits table = none := by
  intro table
  induction table with
  | nil => intro bits e he; cases he
  | cons a rest ih =>
    intro bits e he hbig
    rcases List.mem_cons.mp he with rfl | hmem
    · have : pyGetItem bits (e - 1) = none := pyGetItem_too_big bits (e - 1) (by omega)
      simp only [permuteChecked, this]
    · have hrest : permuteChecked bits rest = none := ih bits e hmem hbig
      simp only [permuteChecked, hrest]
      cases pyGetItem bits (a - 1) <;> rfl

/-- Counterexample to C8: a table entry of 0 is not an input error; Python
negative indexing makes `permute` silently return the LAST source bit. -/
theorem claim_C8_cex :
    permuteChecked [5, 7] [0] = some [7] ∧ permuteChecked [5, 7] [0] ≠ none := by
  constructor
  · decide
  · decide

/-- C8 as amended. The output has length `len table` with position i holding
`src[table[i] - 1]`, and a too-large entry (`table[i] > len src`) is an input
error; but an entry of 0 (more generally, entries down to `1 - len src`) is
silently accepted through Python negative indexing, 0 yielding the last bit. -/
theorem claim_C8_permute_indexing :
    (∀ (bits : List Nat) (table : List Int),
      (∀ e ∈ table, 1 ≤ e ∧ e ≤ (bits.length : Int)) →
      permuteChecked bits table = some (permute bits (table.map Int.toNat)) ∧
      (permute bits (table.map Int.toNat)).length = table.length) ∧
    (∀ (bits : List Nat) (table : List Int) (e : Int), e ∈ table →
      (bits.length : Int) < e → permuteChecked bits table = none) := by
  constructor
  · intro bits table h
    exact ⟨permuteChecked_in_range table bits h, by rw [permute_length, List.length_map]⟩
  · intro bits table e he hbig
    exact permuteChecked_error table bits e he hbig

/-- Witness for C8 as amended, on a concrete in-range table and a concrete
out-of-range table. -/
theorem claim_C8_permute_indexing_witness :
    (∀ e ∈ ([2, 1, 2] : List Int), 1 ≤ e ∧ e ≤ (([5, 7] : List Nat).length : Int)) ∧
    permuteChecked [5, 7] [2, 1, 2] = some (permute [5, 7] (([2, 1, 2] : List Int).map Int.toNat)) ∧
    ((3 : Int) ∈ ([3] : List Int)) ∧ ((([5, 7] : List Nat).length : Int) < 3) ∧
    permuteChecked [5, 7] [3] = none :=
  ⟨by decide,
   (claim_C8_permute_indexing.1 [5, 7] [2, 1, 2] (by decide)).1,
   by decide, by decide,
   claim_C8_permute_indexing.2 [5, 7] [3] 3 (by decide) (by decide)⟩

/-! ## Matrix accessors and the counting form of the DDT -/

/-- Cell `(r, c)` of a matrix of naturals, defaulting to 0. -/
def matGet (m : List (List Nat)) (r c : Nat) : Nat := (m.getD r []).getD c 0

/-- Cell `(r, c)` of a signed matrix, defaulting to 0. -/
def matGetI (m : List (List Int)) (r c : Nat) : Int := (m.getD r []).getD c 0

/-- Output difference of an S-box in the integer convention. -/
def sboxDiff (sbox : List (List Nat)) (x delta_x : Nat) : Nat :=
  sbox_lookup_int sbox x ^^^ sbox_lookup_int sbox (x ^^^ delta_x)

/-- Counting form of the DDT; `compute_ddt_eq_ddtCount` proves that the
increment loop of `compute_ddt` computes exactly these counts. -/
def ddtCount (sbox : List (List Nat)) : List (List Nat) :=
  (List.range 64).map (fun delta_x => (List.range 16).map (fun delta_y =>
    ((List.range 64).filter (fun x => sboxDiff sbox x delta_x == delta_y)).length))

/-- Shape invariant of the 64x16 accumulator matrix. -/
def MatShape (m : List (List Nat)) : Prop :=
  m.length = 64 ∧ ∀ row ∈ m, row.length = 16

theorem getD_set_ne {α : Type} (l : List α) (i j : Nat) (a d : α) (h : i ≠ j) :
    (l.set i a).getD j d = l.getD j d := by
  simp [List.getD_eq_getElem?_getD, List.getElem?_set_ne h]

theorem getD_set_self {α : Type} (l : List α) (i : Nat) (a d : α) (h : i < l.length) :
    (l.set i a).getD i d = a := by
  simp [List.getD_eq_getElem?_getD, List.getElem?_set_self h]

theorem getD_replicate_zero (n c : Nat) : (List.replicate n (0 : Nat)).getD c 0 = 0 := by
  rw [List.getD_eq_getElem?_getD, List.getElem?_replicate]
  split <;> rfl

theorem getD_mem_of_lt {α : Type} (m : List α) (r : Nat) (d : α) (hr : r < m.length) :
    m.getD r d ∈ m := by
  rw [List.getD_eq_getElem?_getD, List.getElem?_eq_getElem hr, Option.getD_some]
  exact List.getElem_mem hr

theorem zeroMat_shape : MatShape ((List.range 64).map (fun _ => List.replicate 16 0)) := by
  constructor
  · simp
  · intro row hrow
    obtain ⟨_, _, rfl⟩ := List.mem_map.mp hrow
    simp

theorem zeroMat_matGet (r c : Nat) (hr : r < 64) :
    matGet ((List.range 64).map (fun _ => List.replicate 16 0)) r c = 0 := by
  unfold matGet
  rw [getD_map_range _ _ hr]
  exact getD_replicate_zero 16 c

theorem bumpCell_shape (m : List (List Nat)) (r c : Nat) (hs : MatShape m) :
    MatShape (bumpCell m r c) := by
  obtain ⟨hlen, hrow⟩ := hs
  rcases Nat.lt_or_ge r m.length with hr | hr
  · refine ⟨by simp [bumpCell, hlen], ?_⟩
    intro row hmem
    rcases List.mem_or_eq_of_mem_set hmem with h | h
    · exact hrow row h
    · subst h
      rw [List.length_set]
      exact hrow _ (getD_mem_of_lt m r [] hr)
  · unfold bumpCell
    rw [List.set_eq_of_length_le (by omega)]
    exact ⟨hlen, hrow⟩

theorem bumpCell_matGet (m : List (List Nat)) (r c r2 c2 : Nat) (hs : MatShape m)
    (hr2 : r2 < 64) (hc2 : c2 < 16) :
    matGet (bumpCell m r c) r2 c2
      = matGet m r2 c2 + (if r = r2 ∧ c = c2 then 1 else 0) := by
  obtain ⟨hlen, hrow⟩ := hs
  by_cases hr : r = r2
  · subst hr
    have hrm : r < m.length := by omega
    have hrl : (m.getD r []).length = 16 := hrow _ (getD_mem_of_lt m r [] hrm)
    unfold matGet bumpCell
    rw [getD_set_self _ _ _ _ hrm]
    by_cases hc : c = c2
    · subst hc
      rw [getD_set_self _ _ _ _ (by omega)]
      simp
    · rw [getD_set_ne _ _ _ _ _ hc]
      simp [hc]
  · unfold matGet bumpCell
    rw [getD_set_ne _ _ _ _ _ hr]
    simp [hr]

theorem foldl_bump_row (g : Nat → Nat) :
    ∀ (ds : List Nat) (m : List (List Nat)), MatShape m → ds.Nodup →
      ∀ r2 c2, r2 < 64 → c2 < 16 →
      matGet (ds.foldl (fun acc d => bumpCell acc d (g d)) m) r2 c2
        = matGet m r2 c2 + (if r2 ∈ ds ∧ g r2 = c2 then 1 else 0)
  | [], m, _, _, r2, c2, _, _ => by simp
  | d :: ds, m, hs, hnd, r2, c2, hr2, hc2 => by
    have hnd2 := List.nodup_cons.mp hnd
    have ih := foldl_bump_row g ds (bumpCell m d (g d))
      (bumpCell_shape m d (g d) hs) hnd2.2 r2 c2 hr2 hc2
    rw [List.foldl_cons, ih, bumpCell_matGet m d (g d) r2 c2 hs hr2 hc2]
    by_cases hd : d = r2
    · subst hd
      have hds : d ∉ ds := hnd2.1
      by_cases hg : g d = c2
      · simp [List.mem_cons, hg, hds]
      · simp [List.mem_cons, hg]
    · have hne : r2 ≠ d := fun h => hd h.symm
      simp [List.mem_cons, hd, hne]

theorem foldl_shape (step : List (List Nat) → Nat → List (List Nat))
    (h : ∀ m d, MatShape m → MatShape (step m d)) :
    ∀ (l : List Nat) (m : List (List Nat)), MatShape m → MatShape (l.foldl step m)
  | [], _, hm => hm
  | d :: l, m, hm => foldl_shape step h l (step m d) (h m d hm)

theorem foldl_bump_row_shape (g : Nat → Nat) (ds : List Nat) (m : List (List Nat))
    (hs : MatShape m) :
    MatShape (ds.foldl (fun acc d => bumpCell acc d (g d)) m) :=
  foldl_shape _ (fun m d hm => bumpCell_shape m d (g d) hm) ds m hs

theorem foldl_bump_outer (g2 : Nat → Nat → Nat) :
    ∀ (xs : List Nat) (m : List (List Nat)), MatShape m →
      ∀ r2 c2, r2 < 64 → c2 < 16 →
      matGet (xs.foldl (fun acc x => (List.range 64).foldl
          (fun acc2 d => bumpCell acc2 d (g2 x d)) acc) m) r2 c2
        = matGet m r2 c2 + (xs.filter (fun x => g2 x r2 == c2)).length
  | [], _, _, r2, c2, _, _ => by simp
  | x :: xs, m, hs, r2, c2, hr2, hc2 => by
    have hinner := foldl_bump_row (g2 x) (List.range 64) m hs (List.nodup_range 64) r2 c2 hr2 hc2
    have hs2 := foldl_bump_row_shape (g2 x) (List.range 64) m hs
    have ih := foldl_bump_outer g2 xs _ hs2 r2 c2 hr2 hc2
    rw [List.foldl_cons, ih, hinner, List.filter_cons]
    by_cases hx : g2 x r2 = c2
    · have hmem : r2 ∈ List.range 64 := List.mem_range.mpr hr2
      simp only [hx, hmem, and_self, if_true, beq_self_eq_true, List.length_cons]
      omega
    · simp [hx]

theorem compute_ddt_matGet (sbox : List (List Nat)) (r2 c2 : Nat)
    (hr : r2 < 64) (hc : c2 < 16) :
    matGet (compute_ddt sbox) r2 c2
      = ((List.range 64).filter (fun x => sboxDiff sbox x r2 == c2)).length := by
  have h := foldl_bump_outer (fun x d => sboxDiff sbox x d) (List.range 64)
    ((List.range 64).map (fun _ => List.replicate 16 0)) zeroMat_shape r2 c2 hr hc
  rw [zeroMat_matGet r2 c2 hr, Nat.zero_add] at h
  exact h

theorem compute_ddt_shape (sbox : List (List Nat)) : MatShape (compute_ddt sbox) :=
  foldl_shape _ (fun m _x hm => foldl_bump_row_shape _ (List.range 64) m hm)
    (List.range 64) _ zeroMat_shape

theorem matrix_ext_64_16 (m : List (List Nat)) (f : Nat → Nat → Nat)
    (hs : MatShape m)
    (h : ∀ r c, r < 64 → c < 16 → matGet m r c = f r c) :
    m = (List.range 64).map (fun r => (List.range 16).map (fun c => f r c)) := by
  obtain ⟨hlen, hrow⟩ := hs
  apply List.ext_getElem
  · simp [hlen]
  · intro r h1 h2
    rw [List.getElem_map, List.getElem_range]
    apply List.ext_getElem
    · have hmem : m[r] ∈ m := List.getElem_mem h1
      simp [hrow _ hmem]
    · intro c hc1 hc2
      rw [List.getElem_map, List.getElem_range]
      have hr64 : r < 64 := by omega
      have hc16 : c < 16 := by
        have hmem : m[r] ∈ m := List.getElem_mem h1
        have := hrow _ hmem
        omega
      have hmg := h r c hr64 hc16
      unfold matGet at hmg
      have hrowval : m.getD r [] = m[r] := by
        rw [List.getD_eq_getElem?_getD, List.getElem?_eq_getElem h1, Option.getD_some]
      rw [hrowval, List.getD_eq_getElem?_getD, List.getElem?_eq_getElem hc1,
        Option.getD_some] at hmg
      exact hmg

theorem compute_ddt_eq_ddtCount (sbox : List (List Nat)) :
    compute_ddt sbox = ddtCount sbox :=
  matrix_ext_64_16 (compute_ddt sbox)
    (fun r c => ((List.range 64).filter (fun x => sboxDiff sbox x r == c)).length)
    (compute_ddt_shape sbox)
    (fun r c hr hc => compute_ddt_matGet sbox r c hr hc)

theorem decide_eq_beq (a b : Nat) : decide (a = b) = (a == b) := by
  by_cases h : a = b <;> simp [h]

theorem filter_count_eq_card (D : Nat → Nat) (t : Nat) :
    ((List.range 64).filter (fun x => D x == t)).length
      = ((Finset.range 64).filter (fun x => D x = t)).card := by
  rw [Finset.card_def, Finset.filter_val, Finset.range_val]
  show _ = Multiset.card (Multiset.filter _ (↑(List.range 64) : Multiset Nat))
  rw [Multiset.filter_coe, Multiset.coe_card]
  refine congrArg List.length ?_
  refine List.filter_congr ?_
  intro x _
  exact (decide_eq_beq (D x) t).symm

/-! ## LAT entry characterization -/

theorem compute_lat_matGetI (sbox : List (List Nat)) (a b : Nat)
    (ha : a < 64) (hb : b < 16) :
    matGetI (compute_lat sbox) a b
      = (((List.range 64).filter (fun x =>
          parity (x &&& a) == parity (sbox_lookup_int sbox x &&& b))).length : Int)
        - 32 := by
  unfold matGetI compute_lat
  rw [getD_map_range _ _ ha, getD_map_range _ _ hb]

theorem filter_eq_card (f g : Nat → Nat) :
    ((List.range 64).filter (fun x => f x == g x)).length
      = ((Finset.range 64).filter (fun x => f x = g x)).card := by
  rw [Finset.card_def, Finset.filter_val, Finset.range_val]
  show _ = Multiset.card (Multiset.filter _ (↑(List.range 64) : Multiset Nat))
  rw [Multiset.filter_coe, Multiset.coe_card]
  refine congrArg List.length (List.filter_congr ?_)
  intro x _
  exact (decide_eq_beq (f x) (g x)).symm

/-! ## Packed digit-vector machinery for fast table certification

The sixteen table certificates below are reduced to small kernel
computations by packing each row of counters into one natural number with
base-128 digits and counting matches through modular arithmetic: for a
vector of 0/1 digits packed 7 bits apart, the digit sum is the value
modulo 127.  The bridges `ddt_bridge` and `lat_bridge` prove, once and
symbolically, that the tables computed by `compute_ddt`/`compute_lat`
agree with closed arithmetic formulas over certified packed literals. -/

/-- Base-128 little-endian digit assembly of a vector of counters. -/
def ofDig : List Nat → Nat
  | [] => 0
  | d :: t => d + 128 * ofDig t

theorem ofDig_cons (d : Nat) (t : List Nat) : ofDig (d :: t) = d + 128 * ofDig t := rfl

theorem ofDig_mod127 : ∀ l : List Nat, ofDig l % 127 = l.sum % 127
  | [] => rfl
  | d :: t => by
    rw [ofDig_cons, List.sum_cons]
    have h : d + 128 * ofDig t = (d + ofDig t) + 127 * ofDig t := by ring
    rw [h, Nat.add_mul_mod_self_left, Nat.add_mod, ofDig_mod127 t, ← Nat.add_mod]

theorem ofDig_zipAdd : ∀ l1 l2 : List Nat, l1.length = l2.length →
    ofDig l1 + ofDig l2 = ofDig (List.zipWith (· + ·) l1 l2)
  | [], [], _ => rfl
  | [], _ :: _, h => by simp at h
  | _ :: _, [], h => by simp at h
  | a :: t1, b :: t2, h => by
    have ih := ofDig_zipAdd t1 t2 (by simpa using h)
    simp only [List.zipWith_cons_cons, ofDig_cons]
    rw [← ih]
    ring

theorem digit_split_xor (a b A B : Nat) (ha : a < 128) (hb : b < 128) :
    (a + 128 * A) ^^^ (b + 128 * B) = (a ^^^ b) + 128 * (A ^^^ B) := by
  have h7 : (128 : Nat) = 2 ^ 7 := by norm_num
  have ha7 : a < 2 ^ 7 := by omega
  have hb7 : b < 2 ^ 7 := by omega
  have hx7 : a ^^^ b < 2 ^ 7 := Nat.xor_lt_two_pow ha7 hb7
  apply Nat.eq_of_testBit_eq
  intro j
  rw [Nat.add_comm a, Nat.add_comm b, Nat.add_comm (a ^^^ b), h7]
  rw [Nat.testBit_xor, Nat.testBit_mul_pow_two_add A ha7 j,
    Nat.testBit_mul_pow_two_add B hb7 j,
    Nat.testBit_mul_pow_two_add (A ^^^ B) hx7 j]
  by_cases hj : j < 7
  · simp [hj]
  · simp [hj]

theorem digit_split_and (a b A B : Nat) (ha : a < 128) (hb : b < 128) :
    (a + 128 * A) &&& (b + 128 * B) = (a &&& b) + 128 * (A &&& B) := by
  have h7 : (128 : Nat) = 2 ^ 7 := by norm_num
  have ha7 : a < 2 ^ 7 := by omega
  have hb7 : b < 2 ^ 7 := by omega
  have hx7 : a &&& b < 2 ^ 7 := Nat.lt_of_le_of_lt (Nat.and_le_right) hb7
  apply Nat.eq_of_testBit_eq
  intro j
  rw [Nat.add_comm a, Nat.add_comm b, Nat.add_comm (a &&& b), h7]
  rw [Nat.testBit_and, Nat.testBit_mul_pow_two_add A ha7 j,
    Nat.testBit_mul_pow_two_add B hb7 j,
    Nat.testBit_mul_pow_two_add (A &&& B) hx7 j]
  by_cases hj : j < 7
  · simp [hj]
  · simp [hj]

theorem ofDig_zipXor : ∀ l1 l2 : List Nat, l1.length = l2.length →
    (∀ d ∈ l1, d < 128) → (∀ d ∈ l2, d < 128) →
    ofDig l1 ^^^ ofDig l2 = ofDig (List.zipWith (· ^^^ ·) l1 l2)
  | [], [], _, _, _ => rfl
  | [], _ :: _, h, _, _ => by simp at h
  | _ :: _, [], h, _, _ => by simp at h
  | a :: t1, b :: t2, h, h1, h2 => by
    have ih := ofDig_zipXor t1 t2 (by simpa using h)
      (fun d hd => h1 d (List.mem_cons_of_mem a hd))
      (fun d hd => h2 d (List.mem_cons_of_mem b hd))
    simp only [List.zipWith_cons_cons, ofDig_cons]
    rw [digit_split_xor a b (ofDig t1) (ofDig t2)
      (h1 a (List.mem_cons_self a t1)) (h2 b (List.mem_cons_self b t2)), ih]

theorem ofDig_zipAnd : ∀ l1 l2 : List Nat, l1.length = l2.length →
    (∀ d ∈ l1, d < 128) → (∀ d ∈ l2, d < 128) →
    ofDig l1 &&& ofDig l2 = ofDig (List.zipWith (· &&& ·) l1 l2)
  | [], [], _, _, _ => rfl
  | [], _ :: _, h, _, _ => by simp at h
  | _ :: _, [], h, _, _ => by simp at h
  | a :: t1, b :: t2, h, h1, h2 => by
    have ih := ofDig_zipAnd t1 t2 (by simpa using h)
      (fun d hd => h1 d (List.mem_cons_of_mem a hd))
      (fun d hd => h2 d (List.mem_cons_of_mem b hd))
    simp only [List.zipWith_cons_cons, ofDig_cons]
    rw [digit_split_and a b (ofDig t1) (ofDig t2)
      (h1 a (List.mem_cons_self a t1)) (h2 b (List.mem_cons_self b t2)), ih]

theorem ofDig_smul : ∀ (c : Nat) (l : List Nat),
    c * ofDig l = ofDig (l.map (fun d => c * d))
  | _, [] => by simp [ofDig]
  | c, d :: t => by
    simp only [List.map_cons, ofDig_cons]
    rw [← ofDig_smul c t]
    ring

theorem ofDig_div16 : ∀ l : List Nat, (∀ d ∈ l, 16 ∣ d) →
    ofDig l = 16 * ofDig (l.map (fun d => d / 16))
  | [], _ => by simp [ofDig]
  | d :: t, h => by
    obtain ⟨e, he⟩ := h d (List.mem_cons_self d t)
    have ih := ofDig_div16 t (fun x hx => h x (List.mem_cons_of_mem d hx))
    simp only [List.map_cons, ofDig_cons]
    rw [ih, he, Nat.mul_div_cancel_left e (by omega : (0:Nat) < 16)]
    ring

theorem ofDig_extract : ∀ (n P : Nat), P < 128 ^ n →
    ofDig ((List.range n).map (fun i => (P >>> (7 * i)) &&& 127)) = P := by
  intro n
  induction n with
  | zero =>
    intro P hP
    interval_cases P
    rfl
  | succ n ih =>
    intro P hP
    rw [List.range_succ_eq_map, List.map_cons, List.map_map]
    have hfun : ((fun i => (P >>> (7 * i)) &&& 127) ∘ Nat.succ)
        = fun i => ((P >>> 7) >>> (7 * i)) &&& 127 := by
      funext i
      show (P >>> (7 * (i + 1))) &&& 127 = ((P >>> 7) >>> (7 * i)) &&& 127
      rw [show 7 * (i + 1) = 7 + 7 * i by ring, Nat.shiftRight_add]
    rw [hfun]
    have hQ : P >>> 7 < 128 ^ n := by
      rw [Nat.shiftRight_eq_div_pow]
      have h2 : (2 : Nat) ^ 7 = 128 := by norm_num
      rw [h2]
      rw [Nat.div_lt_iff_lt_mul (by omega : (0:Nat) < 128)]
      calc P < 128 ^ (n + 1) := hP
        _ = 128 ^ n * 128 := by ring
    rw [ofDig_cons, ih (P >>> 7) hQ]
    have hand : P &&& 127 = P % 128 := by
      have h := Nat.and_pow_two_sub_one_eq_mod P 7
      norm_num at h
      exact h
    have hshift : P >>> 7 = P / 128 := by
      rw [Nat.shiftRight_eq_div_pow]
    simp only [show 7 * 0 = 0 by ring, Nat.shiftRight_zero, hand, hshift]
    omega

theorem sum_le_length_of_le_one : ∀ l : List Nat, (∀ d ∈ l, d ≤ 1) → l.sum ≤ l.length
  | [], _ => by simp
  | d :: t, h => by
    have ih := sum_le_length_of_le_one t (fun x hx => h x (List.mem_cons_of_mem d hx))
    have hd := h d (List.mem_cons_self d t)
    simp only [List.sum_cons, List.length_cons]
    omega

theorem countP_add_countP_not {α : Type} (p : α → Bool) :
    ∀ l : List α, l.countP p + l.countP (fun a => !(p a)) = l.length
  | [] => rfl
  | a :: t => by
    have ih := countP_add_countP_not p t
    by_cases h : p a = true
    · rw [List.countP_cons_of_pos p t h, List.countP_cons_of_neg _ t (by simp [h]),
        List.length_cons]
      omega
    · rw [List.countP_cons_of_neg p t h, List.countP_cons_of_pos _ t (by simp [h]),
        List.length_cons]
      omega

theorem sum_map_indicator {α : Type} (p : α → Bool) :
    ∀ l : List α, (l.map (fun a => if p a then 1 else 0)).sum = l.countP p
  | [] => rfl
  | a :: t => by
    have ih := sum_map_indicator p t
    by_cases h : p a = true
    · rw [List.map_cons, List.sum_cons, List.countP_cons_of_pos p t h, h, if_pos rfl]
      omega
    · rw [List.map_cons, List.sum_cons, List.countP_cons_of_neg p t h]
      have h2 : p a = false := by simpa using h
      rw [h2]
      simpa using ih

theorem zipWith_map_same {α β γ δ : Type} (f : β → γ → δ) (g : α → β) (h : α → γ) :
    ∀ l : List α, List.zipWith f (l.map g) (l.map h) = l.map (fun x => f (g x) (h x))
  | [] => rfl
  | a :: t => by
    simp only [List.map_cons, List.zipWith_cons_cons]
    rw [zipWith_map_same f g h t]

theorem zipWith_replicate_right {α β γ : Type} (f : α → β → γ) (c : β) :
    ∀ l : List α, List.zipWith f l (List.replicate l.length c) = l.map (fun a => f a c)
  | [] => rfl
  | a :: t => by
    simp only [List.length_cons, List.replicate_succ, List.zipWith_cons_cons, List.map_cons]
    rw [zipWith_replicate_right f c t]

def mask448 : Nat := 2 ^ 448 - 1

def onesD : Nat := 5723139561382731421648218959748067199634971343994630395917245662839679433963763175796779926880028075281594658317056519161689776603265

def fifteenD : Nat := 85847093420740971324723284396221007994524570159919455938758684942595191509456447636951698903200421129223919874755847787425346649048975

def sixteenD : Nat := 91570232982123702746371503355969075194159541503914086334675930605434870943420210812748478830080449204505514533072904306587036425652240

theorem onesD_eq : onesD = ofDig (List.replicate 64 1) := by decide!

theorem fifteenD_eq : fifteenD = ofDig (List.replicate 64 15) := by decide!

theorem sixteenD_eq : sixteenD = ofDig (List.replicate 64 16) := by decide!

def spLit0 : Nat := 94259597495147690769204753626979875226284818109608733115435188911746695689230

def dLit0 : Nat := 31766204776941302346308338386456472071545801150541395074435990761779393248198094291998739939707150793482329985707036616219479039362922379458202625602422344311567130798491389960629517321958088213112831906038050840682635745302285922417382946488442603214217353593466666802808790758781231891854860905712906740311982930876204481586960425720175498135046613467449562317407470709680426527343046758389330369753574900381068400279769473031744006243512213659948162061650654956454323194030232210776378821262767904079137961035382985607666318660363022800309144021864046441147141120448803829484996482633276600522058839112984145181340060659049377446376747270840153455778546523539172242966172078799923098365345291844709473991020906372714563026593706796799862699110354027850845758962443861193078759292809586892652005284805139857392747037656369184323360996499964032232664422823075243674678962317103657038669687476920605608802502028233540048207884616244492947598019995411663411861465927744715146716148251446040567430187826313083886966348849071109913330573199175856445162529019606623976467118706073761197052904130616875973750777328239648719531467503865424660788159119872314105798193120235725526312884520156973345285183771031534890928670614906702721639159327965924456517008465072446904778109058652971152021247085061744550267801020061299827418893100444947479214045681899657565206125800280903694971248024858144168895383719595950579759672080389812964798561623738050412745660075355510730861391144441043851906321781210628161039136116470550370804742266211358572915068153688183323745963339963707531120973292637230767006166292327686648644130245918496683343143191333890025489643566493153277721045891052288726981479475876067200942065570705030908788840712335884375500442284174871610116000778224912516769855908390064273294986101845586450124581369710964417016836810473342474159352729717220374755024433501310209095703834705505905504272029234613131504663480817241356662528243248719752465517723813707025835906886591541140840766067098912176338691935787899425613163457933197259460342378574284172928864826764592710701595049095193958650091115245397307205091158171818363525795393540014055064955838108168568467409440759167995946717296936219440218386312365099338309385639436493058300338418510182018056403739055881853523304204831247423012638168243057239311870505822098775301990148569367101791737613424256577211715956032410678022652441412766442615350504196414025257941828050262205714661014906987907863948647647984757587971249122599768019133143882491930344057802130894788050071474652659806504006132680367004955816433685302357614281796942227551866389648828885553156389152567043483072120022693020567041432547118799971788847985525136538158377110107294849062896134563283211291482635457575917550800834458869630497994956124068667637532533021468872076521655502850746926567168894711402070121088116435855320452919196266084752875889043097724557537436564320946270186343602280346985680977322149198490954634630893442755437224399318839905429582147195507568564255497286655990380975707354079485387159702171168744435096934256724511182362285817993427623571342518911819903439550393443298451395779551511219982751858674587204498028359103919776302523969762845725455066931409054200058785710515910974547840313846336585606264808915495903804199700939825236346285958809303790438864881783957830257304539506558462871090347657006860629840830980169816927330585446808728853629348080911145564525668796440453601997901070636009800305884684917598207290252653646532634321826809992884706306413051191402483529774011811250935444987453784206848268203820907111134676732836716284366044102638796366101780425776222458743269933662024417617271061181372038285044795151659032380683234862495507560768707498751991791399350112593261542763829150737844686926660329212715213908152573551745240449367066208962030647453076505620911666300818819142675212762601313906616354166397785300919383266532733322845457721954990504687592461635476968726133413394757171398055101689449955477846425054180771479595716544828055278500217496024855512111788379428355757908352643415994673831133787550363373871289275648964138954714678675611141612829829832116912754821289078383735659623455471733248539463529309337053233242434081659729839872634918671154254530473904081235974509789275910922286070740459411497547313610376655098875877767556861418369444084467038420178115196672811276140518001500166410675101989985375232631343750670117010231095392040235754718268145115562386347738108547742158537496300660778257470608997651924849465022485543115096052221867869147236192925278102296395137101141655328049288739849825618019571319487277755580080290867671726278924700086977976828083638450593126489646030737063177425152135103016022350415115645866901793268393878820574259349963697567267462194556745973731731871397108848002411678607399056871532975011882303558621023859473353165451767711799982287821834357177163167441424958834612458625041445406425455084904613155696244254331740077196770109668116470032619630368041204363157754689147483370323514093406602303883074498016298920325749919087925822842766352979391591768919677578954543487195854865983287849083983852774743104342504343647201141287107738637709925036772763325086417163439217293820579790403846339632534913910218319267884247706267194752254087514356703225080632393210825274045177654455086111141257014673875018050549304408460342005243030117477011245072226514248858271873265525656302566638266344958849226713062921213806083697366794580988340954884662959168284232795316218939857936709363497185343743399434321101731823074854381423565169118312620075334768190947724045085451741573513064115582565559700785367189856145632098720824598540839963015269142112721343751193209792799686529164734046771275423203458901502296694214507074139443333689351532049801340059961932327959715617207641805072945442005318358066105013730131396871050194168844574345356997501748026023896603412819543966669286394747220880830664536651765385250620091840363022573058840500062500017828050018092489910491508113679145842542183206137067204918579904440083805331808079400555523032739477155453948985847591973598802640417444025084566249275103077466107080912518410770568462166198449626343109953576452830747006970184317325147420345207211637282972912439923730970487716658290842331289971495214876987121768490680878977368044312106782281949846117933074438215206772161151966265894914972938300729385969345103718358908649711868525634685318172847171720067076577774469063590902292998725021340147387023266336025022755376191350234854279089952230856800038797128101184695785660808188018346090795746654384665749006172699123341858448525329121512413916974530688681541059148795169994252187402799083910635023599488181768146977224086426936728139429887652687765271422195081690383308886003504918281170035257941658898499499740396819623398816007286562424679088003266072513799408532505048011275716475459391745281838150002066043728695660046629451143685080127110013063026541816294939847502388000342972335884623917760763859696579393733220021706568985202687613508159900148376699771417102631577402490311544382447842130242404434755362390899824765687838852584540708761426789358678992221996689185186341383255732133465288347801725882206073442845538229751012829296085033297702072308879223312285792893592298432315869573807964573801448564254423929868447597439418437676333097010500599831871354207712984870378323244030768381299671572868405851137325016869029326270465426079084544268951454365499341302390707228884470427090019608898701213723089912821747345062523974958498821442112746433450726486316850301646466250339784575401896714577524065062989082372283268462588281669832670150953253255097011037996503047465355261583860478255348236209297818364711352161383829695007033982389543344597851164600774065257182333590806104646298562938173710947763905162426198068797834059106095265492886754487205293919941099748656212596701279878191440960569275277435707826838844689911384810397507844122566519976259264198030365091059191575709131473205661715573534421583230260427875395158810513813560769956582036176343117454864591314688903088621566193672198984157392421496721359430638839335964333344698015103695188662529831953093188980434233743937675388729620534533972676691063643857554452569092224574920391156494930224394840767943490388222329221621037748301081257357637425422902866335023643236689520518188621667553616648700324553018295044409879443109054727730366144486804719804719777008506715443100844548362538378700360809498741768136738586622597189143383168370184757146888287246146770075411967252485420415234285202901847131840264200357719254096823590518620283286006144544218145261718113541870716204900722401908216973751044991179433432842240

def sbLit0 : Nat := 47402249273090430054894102712259727170606882327654005638827029231349319972504004548119742013704540275602584554881273789542466083931971467501560937041924368692273417422992611063582562813422500320096446103525567281854571408839815060342831342174354625849646082485201487993589765648513417434937998152560835816934356065353266627012312538158775166060174062257640886876690197110009885484605759785273611536127733185311861684641867462051941801500470333316578481369896997507013167959943045665202010240792480831374202533762777249891069411304711952043209117855923553160520069398803506256438947932068986840859445184688717454282104328698732988692987492660977908508521843945864090632535215763381241815060573743072618126179681849323291938983548943244910163887470908618896395178912806964369467919567632940384087509855686512205748983338649001786737189334132323442474926730413186544572145698085947253694802858313817696202371391662792890774958334044053576542378105955706942763374368087706883418608305249995977826107688227129906071884882371327926404366059392194383818272757950125330413332494044685839443811187697851426492571359374451850137995744654811068217975092093964991288056817613576398287465798256244416107576879235710580657861513778406237831517978001380652816712733982776691049318448925344185599801750497140484494173454328271223186949676015367974095897092413308501885718653952979999208031744784468235068619392069784477626478117748942070367290195179901496279125449456771994083848638104985693775124934693258680076654606022499351808602383143847352221385654550975150384687190409028006347963016904568102045507339503349232688363315732653174694023479593102579440487759436418450682775557616628086710244070387245349179426537151238299200776894204139144768370024304057208047205220219610535947922416433777858012787145547229321675922350040084890237432027775244878556143287357647020723764630636143565469093457200701015314193350886894303345396398635053422673423743709146415753894806555767573110891081073532999501727412693949442986177774853999824611158258959958917598207915486520117569230642000698255504191058589318676777731801103588047665703860944674955564073248246132384742365651271680

def spLit1 : Nat := 72317623469868586881174403492150662799630272821737066409507035240097739493695

def dLit1 : Nat := 64532144540351842902929388134807576293482891164756812796103686623447576918188079239963027022594889729990707640100389170031795299430603373896384033651414876834537143109164608586777666865116571314560050419768401020134810510995712647289813753758409895262740282038108332317113434783504322753272956586112202949034406871241397061829884772567915604036838532628857450437512204959385720341914958809386286520632045600279723668798973785050504350130303543189888717440844294886731861736075607772443661581687570633505574327353789374604782474577446455955805966292282168195654292243874761629667266548167030645863329607654957768272062889636001515664783249943440948161090722358506508021514753436312056093838778735294960758194504121095451036622102883890527791536756165108886036409907361518718410740156998392279190563234406003024070368282127496524627317463038612227792801297798627716482041299977268826861585602648162267614244879506066978785872792298690824325096302939415577123733468676447978324465599141946440004245434502159285676115498777033342337432372915842616178703917534583658761829399062140997845192010863249481309936994252912580838279263279967139082527319653305397486660132181010315682681951787864765521990239947899279683027956260531015627452897177574402400863779703750693300298988045283877845061080945025611077154958315847554036532964514777536561035063796010359594728423005094246948285105161091382704373466876942204422558267303812851430611587519892367018126595950342292957775592303526497753674946510769655366085292198332444704374358463108183617158684553115311965120844461249685134719310451919290299810118715169570316410217984312889035227841627435790089797429353710510189255369060762729404569733664308625493446209824678111256759813380501308253194833506212841626798718899712493199301441838416204031277080751035731020757461307964490152708689623751504205641166584056049525338418274654137431579578381125700235309123345363924749150877139337202728588735569187137228438699261537104029276293913470078204125634323087537296875039043087620974594014521180418040764437785317012576896630160784224871584214647555295629036165882453253246362340863252851277321218460895466401853705213235111525991730586513950066336499069624311702542831490212306391384195741764381039449585461615957591721701790101838267164721435650573288482722087646365594814411008376955790537688654537861845368958567908248341577719692652611197631253817928701170943252332501999116097911336625795440491765250814266946897200355282583777119300501167002193070047464905212061003871365898412106933143185696983077003563491639523184679296955246099241500340829845148358639536232624111474233674443352436129404639765884873392867261756035990247964149396089006817954355223130059560018016032140178557696731510392438913816176645518413032953009753408024106136020523480757604079920437048524625058713160308017438724049640636982517321515479669828772348766217633480842425497474921988666029112268037335347150520716381797320638156316516643875309109862193402144982426368160514210164236269003721909577271674039650245483466859930274469228198128111932084642857892871405578481163470430585877404926271652348681142016113911953947072044578098023831119794714357306951702642387886753097630367222974661721791014745272723892507178684383610169786781983198174949944275267307738584297335445703708496820930434464425787645222377774482259637682815642278225568440877734926949184364544645245666382137050304949161615734102729048553325620830600649069293416220272512253029547692584203498356550993872400284735078300928866398498777153652100644215021824982219832070777609019788435733159942257052028896342738423904082898619889956480581427841903751266640200792878857411020162766093069671781475854053748039561516828134037866891294070168560529853941104347078397960599477011458477680533183461111420109294628724892327754608182268180726631130180453619869966323412963045813860029146967251425838100837894825960653401129889752393876671958907920608099533366509024719101096083483864891344300075453165437226911210904930713249406577532318843328173197279739038637960469198445788200050127984108141333781396831447027563339579657258399731901404920707185926629574491653796067966962709840629645944714709634356791896129981770462578553336357338478444596683225105115685886476739230824501782790862495600068236984057852159611817132935678703483060994774168424086129618422425964083385959796036967462335042833518669637453719573570325580366350575380999888308268557643910624381728683721539444419095528241217961042859728174037910037305272456530971602858662452518468738201922504023925327086497526183977982748094686551574068245207880707451427078932228526687512106860380819845866724320715516164284046246906483255517570019790476559843667436925191810555520351078505484412195530110453153986530984636859576205897800351767336664925579826949739822826964305301208286559348772129283062946720870775173254723426178390454862478174504856864625316295832985495480381423171774436201452963857965952404127389949319689116945408762811405635320075452507704973498688475065926667332810428680359549947158801489379815998877526955297085798255260374030095470894686772605867601530970268845455043533535925194335398138481242220801212850995710010648029278836944566389118434263781505894321061324461562626868798720742579995875099155633713811633240083496463446186358042611810352339007729073606472490537451503279647171482313189957371172406360230820698387989488630939816747063038591726833484351395657342911575939513968557607040900346481866785602581909305574584857002880546329102587687395863435273273254224967570208172404743914229548097356669626995870687320168699208709655279428363098299270390958048703325266674671935350716636204478670810865009950678419406703578491415803140068080731270992391060907665948819903868919401710038350797531967310694615907937151775300089634150760409700770559310425852781504926879575854788403891118114178643312751837699969257069527737614649611234335826842179081516166935223233591378945032441622715285288495552154284267027438136080211669525124761838013393058250524785043713838583768116781810920634391864549061036296347818034681024526109725447131598377190472857343166902394304504000963019626275326378723669025219812224314806212976682963246722670891349823413316407917686481370907732623946797985034834120367457428495378019777006404337687513837789676296347591444275596069015323336243760001757113399811938765340828198084017207995792837735695912934728557143982581445545612258805811213306496259983750317768188929600441976875239623989291967165154387897836726759109046840452562471353597574469531057903772201156886642752601863287315616271258217600348576956388862476864080626349883099046942714073311883665737644088588554430974513368302601141315229424994832899454604458697420630051427915656514648759887032436783367418002069839981299321329465945983035813249129137645328220944452975815075855740739439457379281680878533073137869418833755815589639059448775726405575826460243312476664873110159610727744085279072354368974730699220315294584120227342696838032553573577453346446372128188063258327313121349090144410904533558804832242878901877094698591031120241141308064235389918418432684943017156613953352718234277550163491499283427594888725500755559420857247232196669658072180476570215879189658692152708009660409650631419473144359581951404235942717307470929018022749169386860859564325647239939657450468398140486982225116794376569976730533804495559833402476912468150822590745070107439016879515587262388348117542338398503856555191688311802551973947299758149594503619561816073584923612187926893060207496000637178407099800622377456493866061980505512619712088778417529279675337672866433557896848838209231867152186952087419983040253322365005534250826114191581157682909439502174646826900829016311375931667394110337720365917537249142622892646371316969388637352984605326965929050325083773529792957653854277455211553221516422531184446444312793599077312433028149679587466421251984582099012783116688731547079044570174693970922428813937724615328912572433179494080496279684221001967241969182818738197304743393200902163660965727691332444126847133519509539701363958899993601074134122714728071851970225599740573208310472644990379003226066796512998741665446329470210130765844938206948498682666033022590590461286955021186678585663636307194521845504225448342193153154019573030048349229176127139390822390306320210483933355823659700148727964251101307358251465560869241762615088588627722654656875607404984827245898376486580277937584449216398192808623885215695083701743365214023093742915404641655267626937066141109157804965312341263438681542680053033800525142447345394616937315758170976949509932738073904419759932158342024378261176320

def sbLit1 : Nat := 2915806844820339906578332577945069735947388724318324462711275630220159736497545009212923311102614441877881794792449829482818447863148758323950118422273101545110806736414806859811022429701059113252059209116001627415993531016592542164080950270005266906542470583854202089697786331154137708948925753392533973032359918490191412862462383458814515048162304652142471698269746559381849891038988796913161019678144101083767475827057754918492074835672892564868057595919364865432409337969993265315227454383585970134453322993245797968842276789506227532831585830886842933159569175712584660503129641430753299433080312843745166006742022585645046978435796062084996501482977252409059182761268438475675066301740284346381545323190368188929382536127118099722128296515923953916745893591804759685773772975170445842301994483578539906300562639620833289093962454625190633298335567173369344757752094245232394043573160321718301894368438599381012538298256999671537597920499506609066827549173437777270783989433699796557248294862804776545630664735672107552779962408071396494419608761900252749053487373225203100350354197230738078302181010267728078079085773903098307971687701848608262282834722902874220583086822686424655907078305216434944063364956508331255437821532774382180992598632905686922216596110121880576857441420730074755795614007288245066199535713131114721397268748010453281047580276409676990969890814409109673704220235499728772987194984347009889594347507480049504122642654159455023932021250511881550364804071772057289421833700788762377792431625946978444295031424195517621513391812702153006476389118054537446553948038791610488713857994473666750096033719021150682706474825552871289744521543508040632499472773840990777930514343446559069272188248304225183971337068809181790634027977337598435964226179930132968987705287907595335214089981711776885236004539906675721405127872754398310814544932063092485215545673151104180049580096489398176705971826959669718282053393932696477714141999153228590656416493994169559768785947127484423175021624778759369150060307451913734836890582664697082848914545624591177818618770254011268799196025843673059935133758986692557112002558582792868212233994240

def spLit2 : Nat := 90092157876383471123671226397040502769423024563614181176886582510566848950490

def dLit2 : Nat := 64358270871934220786305008567664735652822050926916031541144594690263504634131719739927555433237635718009720803339364614194509312162419473858887336377733359298493557714029993291040163258656103825895009876356487232183165088126175467721098104692334490284177598259834860060665185319955429454579094154997192906332941664909192242890555752558282061899185316409500803094449700461589780830159009493990028058855909439425151672265289944472361138044752664250120386914132108512050869266718506754369606004739064635313990852382960360443358762792700606646447311667431935456215980982168390326171265101069553226890336857316524388123792573552513126479872885367904088941756832363384508385006575589959248966709106208769027025785650969469552851170105178219548951439739105404095040572950551156946276212252855642170931206334514537967413268068849537212672853900934847963189556410335232844720786165264056182826108516157817057718769920620203715178497374215472422817938429380454937851299432376362207500004046020254405375678237613420973499159495704038893113552241792627628086937532944819005376157014439040703131090260475370078287659166886287489143773892650837407802727945414992696634812878427847178915608907662383220545129436934104227869844532259707888824216108590787904373901109193469167516176180494749393008065485867056226687001884041783011942576842966226290059470846107994615856609086741100301081420113027689336072978591440425554851704978438325521693559783544514502160620700180858610556532346212201764465937765079409272094662122616353641384825805867771284548411235507860663880864909226848183300074573468140096639401707488133901217058275622647162857041676784499282624195230835548287196365973329109200242555074538492310526046614786160078508349899603221658857450359522231993342926901140532850885648810907207188354061312298386496005707090997216263535018381389529466276022190990109022845189408041447513007993803905202501929119182617280514199787346535739765975707317880535339509086403691184745652672396235516018736975093148352406792545609926667661332523725530705724299930915758430800889086371671400775909494484199203938984795916678098148611925712044935476894534297647843739285584880371966034794263247802554678396775094350719545363712913336989826182674142106111100843668272954221703136434297713749360507472619854880421800252987416782909794078243036223675001425002647096840671375078892572869812828195547101326460505844157085689566943929459394568761912080566845396132965414342703887216647327348365045914267236474650307468146732799721306766707108669492777777567190493834869841105290763053032379488648673844287755740404947209228825141505138047787783545804460532744097160143547903308538444804844605889755371757833206994109317293402146340177538177685542794203202515155197807360316467869212437156887151174308809805344658408967243798335302014108108670171423703479412625065792689033081273666403295579493180849991481942015769054690438211357441503837056078400286352679876849762160192245296730152625557914266451243351177474627801733531509504423747614896835414830833358431092659969339482638138976433616419273439643986956389918423605559529707835655213802114373357264939338051249762132261180646573748296889946531078520316680847140472511274390665635623503716173736487650437602901051393887303001848780936193904442794297277465206554250842495142866886163834736838547238152520482919792103859826883244799177294970044009991287605723839748829080317278704930818650262249999377056395359389986676378951536314924864223577474978119472425948322394737575505982676402786059370847271648959376070782917201857169827845551212453689660953890893502237441955679976865223395397702791689899747025554277525769348111905058901798408701035149302474633798834684769252504257448993287681504119196077523384010861696994494834011697656745127962040798948069430228852924791878297674574279333722523198798628087406719512304548151128071591277066147875368312629713043651942246775674609117663663167793891720622134343440306119551981300215408988040018726784401465836904399652031964012541580961883557027374755413645578473484892381587658341761010869079958347273373709977372780492221263822863124073226965627829153916033727024175817353939889250654803062147153833197278132352320458338753090866589228932125678083886115972811132148590004811541051958739444579369929592776549467502275207211032651409750045928499117983966461026275108184482763624043562872643326589856829772798498024031535139261455357385644191021468236651795957404441571695733464355093037733783729885697305374791846200948169499435607695429848189870953861292353725305192594811691892726453727858530838888776996155258913934668989682225595627400395547071400606792198098766557077442795946779072160759399053166274035194639443812958840563011372443531049927076293631344992730934884217413172703149059691438310885051374543759354309630685737355525621522053705884426775784727184591866400862988470229397761370144298850548265693661699366723610064592457020958016537119074884812499174337268724181548148041410073809498975602461859609917113337914979535431805132997631474090570370815739252490967126976143820031203252117458899344352629494442930620160550566017703276752753934422141427676532894334976530901453874037441754183865812687906290964355677492799802655291064212335261124182113616554042429098238201753209090234825361148881566374007970096910286870159369092682975110497009542841970286004041850353269556276047969598507230596910983297178477355514419123380533210297123800529403230024978700648320317440133560331983713996753072111026144592640942976329864443428442087630331444441530305146445030813223992651413381779386397089671296963724806353354876135637323885439869688463129486833392324739043484199574994110436543911248349635660400982943885110458832355221596246834430353606529902551133158910957854966254025981171828331224432121414803770111878791600656776876572027648497319529227690499686228026604262940334012568119984152713713967044923419657227186107959966176831525201097805885856931870599129201448787110172039657547241017117650246842282361055327321865854674214403751374141994306378195489075374671512462237516406907649306381459935451068694366381731927400592833645657114428018336263336658071184583972041124427071400527714643733955838693507065865005932330150059433468034869396414207695115830448029714282944722022878326183125324938505985295210299963284689666657187630701516803003076276847558230550711726076162634670573450142215627488395347669851526978434195648648373636185984260420284782686027774159133824537493772082919377172694865245300966531464025696054676625807411432357254466856782962481231973019728045939317197571037931246957840922490770121630197357255224200728886156168616056219998641325307762314465418720322279998942516164197361616332529907878752972641671229975853661877713972693201877489709093378211107392780957283822514008354349280846447201717214875811162628356397433844072139931529391301473819750988610342351070696293808887568359557858694880258738623998507675840183444173830002894863616905613416324821387565370296694271619037373406176434513233468351757606216944471873109045399959659556642863239214126387911725522750358666699427497017163844857400199887451631668654083305837471319348564535677839787760636755674676300483675274261766434485081294445730551631773868096483598734020406255911774656982655287785572218802508314185670415641719867154282560982309437590669557715924661640643202595193294660861358014520336742308255918397368768646119470568118729626666501606258669256764360197611894443012885361202802510519398995142692335688397504785927734053023961177083703586318813118173587656816081471297238963519501357914382920860037183965452913526991901639249236139044811953419860718685530356699470886035227922911289863251185407230388169158855118495678981779150978361770744708293375364381384338782326149220457631563647561308514589317872059623924677199066385377229151233799975058613140553617082585566761050264241504577076511190711205585298691133752410638121987271313232539617456816362600832873027532466177822133626609880537756076650671458853770328455979521717828933000780281397050447848066218203189265074478532658578709925008241900343725239095521472757824869299797570574850157076718748701761374884847463372301046742779017941348193010710250531495646772132135130143360274737046741941175910571654670608514481442817293370070867751973479602134554712714023695263902955231680350299485271702554577896696440462117082713172305029132680646422043321008679633261561554073072470834812602106160018013639680467360662383457782969961760462532361800697526398386225091262084318914013998929041545322643995118459170518754356686950272662492807724999240798868851514504064940621436841895180256492527874163937719720345600

def sbLit2 : Nat := 373245879301617343172737587586477404272428929584634014411019294739533178345884508688911419225963789551505578251549657832247107082826096806954957735489219808410763635396036074772947426929916120932108258380779520473593548966549846855243646963775416339638085821008929384932777873827954651666097568799649671617526413085316555538030368627674733774264124805670507400435750676510514664639827156267942484123649770538579468944051790408951756018477663525422356406120483587679138905134418253246182918162832824946318183214599058958849926145537160990570219976541827698122607329123567241219942481497791831876697265868928086278492870216839237542508010650304637162908740460340392496855781412815548698382544591194855365516082400055044311471354798612492803816986811106744878186822353823609159536361990063938246207642632640479113884787348279125003059281196573941875391689917982894838683833785788548630270566003967712169671215093475877421164669803068965709346089449542996285357173303067813963012070218026160461994151321735070812493694437698579568364136741215584376044625504470934041418224091325355160909864395511299825174050072517359452955902756835806304980864668154816829828020333538377787215178684644507226454641898954942067189761179827614288937013878974087330179060310430281201915968609244401739313396594039278616531871901104830324158988082229434968701514469829204213918504803451950050347630483487819542576602910194496127373550631393365369257733922478335426922525083100611343705809053553320846576651273668685317147210566545043076452302303946024038349351134134637114623450195534527881122143194777409275898071484056636917880734774132495190274924406507200158509366877828684092234916392523508468924365100291767546923337122001261264276247525553688553014336415489002979386033198749168965504189990445770875351663623214976627568714532740612800149783050509868916181776952191199141655177579144970133920439370071808405254102016355518629090653388955993563296243855491592252500579152572994144677211996757876386247098380480382950339025566960121909029249372781531546020590466762997990818082367584698776977202365902878035870563884680138607125801286754002095003678405743281457775830368256

def spLit3 : Nat := 103198795489812484564349293996641663712466489397297738337431959542959634812375

def dLit3 : Nat := 96048766927031555874524868086499246979134866023028276397777549994445309615411642805486897695218088769983984375382903069192821726506943161200885979793003634710854649733093848744251843841774651207159429251443099859674677650562430876498077563645377442407538079606336167818543467286232791282263163965321095835599637831367824333113349329264748638925384394787212502400615872293970956454671670251628023133346491429025548691285880183029862535539620799884415417173087164983850832636906639182796936700772548512104060098597381387186191042900129995332108959102986418967606018629065775538743167289442150103969681975429305409217242647180736736001139486949572877436905506856659546483983668031161468645469725996435284775343666812406081971883684109336452797939560061975130916912540008947117948111031189358610916677686524557459143719521408587145833337104023064537391053959887919205796090812655742292289094555988497803945189334518008030864502551738813275545584238726483495772765245130184398046970667390961822531517934196703476063128833541804681126287264804694097676738425967896163683971542077984058382784358592182654904848925104205877548432828851480078935572512953752685643337005623852668867732225544703577239955609982253724814521528228298579150119759601054973565271879713012936285376373453056062078203679064351416804546060323721894469757557872006056287806868296706418418992766586786006824412568554753210169490889086887261784293192423416025296132664210321768347527335528379183562834039659120020416902546807750663339373341181682318345608592597881970528966520575588892580040580040537150666276235485712709712952205951592941153601423684086670889416836300034400807272751718424395839277726817649799622895099543857193857571278503895493886896694644364190662184633181226442128823955305978743707567081197110830901140959354048310799001409891635522927280357653976186356637295484111620614084541877474525257327596915322081162415196433392746833787826589825973037018487709552721348191436402949090585339774111679655533368156943293803871032200611800812963893165013246441984459201462462553436545512370819970033774014587826459509863089688274188038233283139724892521295311061362612790744853929159355026617143913837137136274523363290038695492357806325914736291086371528162812762821484345024110068307230737869140813182993317474445290587259631384344154117298539480191050656248554201200531999669051382776534063513000886546415479526149565599182314445772812928826507534372488560013179512039491498664720257549107279066825354193992387090788803733518240119123551729601055035987688632379315758689784043642045435762080443485454238895105808334042236427426410111028063598371806049362839178790023823623387037310030004321201464341453173494083003241591014168591110772341215782033383116663177391595310580588649278146734303082925814040701773023987098554787642537579208713377119017155571588809415565650300238703195181138559145817250580867533800289956970299278825537257668750339031706915712157547296449687097020331471294825609143106517435748862049826396785020758265870199709508467278368990984309762991811927139954143766695853638580211984754573747211333800961163776099189292412237924069622646788548179557211807767513211108863208263605108965583995422208963370035556859054934312595912925267068596901479002136897735776622582940188088333913999375178829122521053670701722282436233410913131086181178055903233781049955833146159207158995894782211133050472092820656273551379591602535465457562447619056948677649725184207635669972142439797376682985464268462714798749272707812729292398827237056061392943403689487265396534017495454252589480547877159653304620014001405325214986286070780700719039691059660001237450716250449957319366641379349175790068304212014918519307663188806174362862031365920292623540411097244701084757355626177403773557873441482365628977156195874036500037370137347174064923873968446064552563394112053494305835707166823787828149481387948791808401833632261541503245427326795246698646645051155694981876200474197846809436183211567609165174497290345310838983508058664547675281866112888328219863503780244171634827676797076311376456020269370434860663593192407064578839777963032486975506883301355911126949984022348960658870036413772167034140238137093863321133373203454325083110287308282346078550589945705057323199271186730316343848439572190331339226385691370017141835626273969138435968452091866805354647811836404508829000851086298940183136574657830984515321235474875174809722828328476263914816010508586881073521049181857578694638874497341935508977950875867852579211098636948492416831574460962847019245503583273901647178404650367186409398190755369792035971985461134187894598881361564314176905797235608761325270176702472188725101521651927580316764335367586115610487451973898664663902925822074130187681027843659347771407767644982108985845932972446341774712995583204043101300319874661086595666558374867492795186230627563738877461958233573136528796033868342864965585772978610243709900508662574399636821403679422476976304670453103848333431806903538066889521494627164999987412338084746227503797016206564132370613516411391797527091898949463486080217427529563434110987330879386259449761379444076756529433625807231248493772996062090116899777428390040864456633561219071906000147211395873816364029790652036907197934096250531396096342465988676383447502379232743653612233442093436354831600567486508521392672698774964053824604820418546315602414336124584751891633734208348826656512470206506889710733446023680282048155214496406705168964506956029603537429492587404918208750622259742221975981454777655386306591105318417406064502025381193147437535436901111264726459790160064683740388181791024669623384145753487179075546463761880312013256218570070476916906791716448143746975217671690193022474553660100970004006023169199246244292347044015389207878952269957636110227881533483024232320799000641524223253438164182933680705561417777133891746262705210286048127947328647052279766140519336985541877353629975010034757003894566724921809782208842798333128157159133676798843429671833122096308400198365539944208855645259609094768356937713922717502953762123514134673002720855593546976922546041528253551267953021557920338275239004205410550411612017015181872093873422149300754198838281084812482392123773054653173961371366155065700588028346074277108536190591216187038682235789049855223636070849084618071751723405051790548340861553105740399844669947283930703276486837680571421756941941965604297905284345962143820986205439380556068716672125435816842492329323697175017130862335490509352875142739305262437129028775373771903976629936908950669351820450518318322297008738161557104284338718818088811375965729952346126524355066207018383584411652269254449263696364372605516795733451670411037943804195242147907248756780271367175127045730121386231708133354189230938739737054716462070043519424360489153702773724741339025180571194464837864966755737099472067356028555234906180943070787908327208483384601136340631980123480322442647738307573256452442405422691671453736607104496282849679727898355456816757980916003312850185015120043994958851532089230567804956740305198937127417344097041709630366003510853183357548272861519384295986258589633865550640739227027634409991640886084226735018919563101530637202161917019828846510566610478361789845611231863991427572599753762053705117749370517711346971448101843012512539253654924461928978602987759199846297573396142128097398597433407270129813497229258966032340262357636695826897683177816339577086725538004943863365085384103808262455524212339980028436011515785353348859681949546698313833701169381677838691706620928672220103183442918651866363189517435712192593652315426950517334232865306425349695132050936309083621013954761535966285515434633747547086586789395189912997718575951436103855356350125957999287818574905954529954502473488937547437962719401004338956567303337927188017241807483701022153513987099511936095668630846781775463810155114099730574555925301368708759756441720074044712037025161631140830348697916060690880171489975361833302535694684446352078213767464751911135474219022781121138619384220342616862562933289619169003580698677651874716172336909896656274663076997678451746616274048797474443610104755555222129864132339355553746137458600617503337121387730753395877261404592504810480057287054449555367451706909591217155220517712529255820286983952579079617959693127348133034307237887805574509824880182411444972932656827698308296960863305016824909420873807479003416379350723284779273986085818158078224379942579412946317661040786810102086311341872302706245826649851662076565802622786761089217067655147793348137637542451233823405395693058901714984611186575326380296435692235776106956320418874617197756416000

def sbLit3 : Nat := 47775495330347995742813823430385961347158816004242944715572922905252090315653367070843190279234281461281309426991206884702347773144509052673553122337947623801637817195793590553592782642646400070130696276080406010183851529419365256820457768079366698103639228441715425611035433865533766492403287156396035442036882983843359727475565913415517460198263078639227855906396447846880671943578018019704689935374828644875954520862228286813662921052469502783194257607067789129593601275237207618247103331689410352932711208998168993487192816152793630298420937727749822809908893374675712857365386122513641987360759840972263275850474136515421736412111327701559603868821257613115983902694704069746356794379418756453159082011823982989219567547799344194269194804053929768569472160541733364512923345969724522530347569050116962610728445133145538212125246287401949387061758149345765879662462416853264690826919297662219894220614594250975225604931923048755024246356580107214389595916671560938850570745883953965711933326670561063023347808825216182341318033642362210765375102827304399358401496589326365910949064485890802978440964377044076988455945865350824560895133317106955107864794376374382070812338331901252954806628818347664243203808985092789578058380252379961139965454014566455679438290994072812976898612172145864179202415606428442032682641861611737664348616030414873764399459796328156060576640403341945106077701492980792135477724981279641388280170818410831364973394985496289660747172513921997275439715702746643555755894644404749745146918072061476306126314706569925576361810154631791761501814970134723813507323453629017896347903548334723064994202254122584604712719458683900339173459544121183530132622787741767917841980454245734974651418093301529839193931796748203795886267733366521445922372366141106915884606930297923579010327647274902440901259703325477045602688313903190081254796952696959040809281559083350829404854763611622364459977533493724618576054138935108225160836797872326187435273973562928581839330818117577554993625041145069208664837417902512371097210024869507552988201541824576472724989170636374149279500563111919819471581093661282909984794090083362519113884921495552

def spLit4 : Nat := 28185211285398037342211152085881015441539194505182087643372523401960879340770

def dLit4 : Nat := 10594158943164229869696138651577789289291069932102617845319852907283752793145719309415481143306215299799921708815052800566853139457984751040534636285325784670283460819590895532636181773677760696977471296991720274047488722057451948232651191179274802889224322003166638757565382854796648082151436002883000638760656584347284449489325712397373530181001641076321546264189765581661842849648214356238932836402670300957651767104076166239254073936039767113542738590482067718795326455991782540733811280235604391738001844905805852502711937567697279026472438289234841270032954687805647485379527811687015541962637868069106117636940340781901207273214628736390857950368158118677562413452204235567807265453553390504020053422937381736936658499197034806347132770383917637139815352222798342034558946684061196207040418284935210648445139180322051586001841894886819047038099603668938172479647787749009639410707639299881791626990040028825051545397410971320505451745147259965633291997337053052342232493773897560465841838731981922538686854588629025257700744433410558630960146185087856171889064521214925400124456386559955511006799932430739265180406829211456758161617428940669094055787409773456705657503635503799629218563679578709647614909342350353159190929652115053016648902811371068710692345332385001486025043744684115692412387561787355599799748074393165890907650286967579746864898211697136258048170342042207910455486421338179470125741199915704126213826639712832661726533580784486442470488945235881822720278754246377504442321362405768572196939758227808821678315508660156630108493078363112091257553790172695146745657527017608344604786247988140018013111526728739552306033985144093745790763011684810505790791436761952701535135454362127359486407618987346256272480279340586657430486636339911428702041710977586604242823970436162786955184302981799487312881806604985885998920066668385712991565488797688486580422942970628609570691699065790963580724811379016621928802194351674966467172564279031595580825862800221247933537224236561235781257372982744454082888906248329207476165590827892352519997903722741581284160551775274988141783594549663471524900853531949224579359404178086918653853994155722627151808275365176788458797451383864712750242031430401000745811674762274663088926651283309143796645983709422911065951498977817223345565284751856837568213233711552354345525490144305737524896303770317099509018882633489885036828489742027686533153492087785051673354103968623038369626675183705683111570767709308101414916845155112068517966280207848215771845388551055544564024154277111183273629332298404573517684812836479843818776352116834066936506857005882684971526038799555412067368911851056440077921928777820721159399871982302113365838843128408494064719332218318184941851537651366451553888776232965079681388140054931387295012500815155705289963074948278695705208906194148562723818993264079489560669853650181597974200218178624763493105331792823505798502426724725446064970997710092570807007076613045670192591663467810491541523525537438702250948170721950439894193140583626922853548283491223275823052423874343053816482802722750897947222293371816120053324063789334758895620478211177727046421685012745708331168692246346585251421357720077099696956344878979441203669449406719660605821024808651092894438513127017821854084714467199294012782240738490171943297203763618434648069243722179516364137607125985436120211488399434208517453258420568782209142572617707159770923604208087327812663972922998943919982435199537691918694493266450657339515942871320289966170873372062860647931282110211390044242455115705914607596614629332763786132675043047794784159796929981329876141322044941250785100853174142891244260136002522378424206924851453769521768006660330983056197431277204394381291289129539215094617858040370904949543962971541753702939484448922189508609253519138934130514862874849285577482922569060558796192823244502618666758628513198064954345449016635474173417006317085331762502543266810144115572523020679652603878882222259484509779418480468983241130123139068194544976009252662405192413082875001594622789006096814053543436227975141035880942887566691079974447058146467930969975128471666825965194511513408919860627518578475187618302386820463914964164174060813887072072872598479929695212246463889753238283470659124734094989864439451114849432421269322780993162406612141326260453161789362896950890907913372777868809335812732855836961111682893275358773155708837659734335655532149947698996324005798147995648611543973131797970544128810709532601741318350724683150906704602753860025636619558420793842018543848826100197457531902757773794510145143088955421023215203339848463078067622659184379665978527167567610739753257948692743186521455169455275016344793426509936553622345726096808479415419824827708637633383127088878110979267287498682840832665916427476365944577756447039356850483664498411597838939267059666137982133566683201833431110237349652806706782217465465306640581817291704785716917281545229134063109480255633353085391610538784247937244584488334913709430135695262894138068954996811565432973599871306141216429781188019302193332740978964220026098641919992172781929183295593960710275821878336953287760590566531454398237150595604145846962193314651907763025210272853498958639380792226949243174229592951983504014035817409458980085054656398051308232916600328301501130897208934697041567725958027279136528591332838321109386300517532731077509535276115709521116474774923089361003231048092445921285302690813499984121273237151248702786171197541130709907313296699048920389194372061877343311378929611772146431520452366072110446937874754008589688131842352845106942984015711682627266402957699147934254637445590707872903578097032970869290977816228225795280662032966873829136261982501117030188212690523359440698754300413857220369901950019565056012425628785592023711157434616440928386736833531041012697745678586105258932012899335477649373639221249786952740803025778200460048920186955519877707408377750569044968780999347404576912740971138386252906650315056072229718019503675308628432116281356507889412432948328500773801511277139122291240093569553450203952350346820208819224246806311077834232801849583165098602218829239675573038607230942245293544566535557656431848013442921447573978604849604196586168074187996502346698558794839059126577041947008461093251494764835037686481109241019485506589738942699575853572092465189271134666184789599231304655711779432693544939119926945698189960484780263144459200933311774340317015897625932633862027649742274997952240213458078104687830498004775207251403641197849542105879649287491784142589661675382756214493471472628913391161018980334238419494060755032029059137958140795503041328002627281902015204371158406940300196366381848786995567699405630426303622480269747019719937620143388960301865473565062888122973190878953788001228827216566078122442900024199665484898436083560492139840606510231671435024760524033140565422363319833621796288276232504290139474167381210815716193633731148133226230095880866622423783846462035861741355213629550896167158411641520487608647829506810249926831518652786882387382770241340812537294546647674597897028965042181291617248248599862329561098173875661402944285477494612157144764784008028612876770919726784711416827701366667592252453472970888949538996846087074496110044607563708240504332369458029823562385925114320186366505591663045573718639157793327343448809058564504026175628757650287961863171595851875071308459456683974140254853485577627005881819632163237995646217121292936611960493260196031629386061941643715158090599827669701902121914990498668408111190351727243100229842510291309339778720597336345800813947117248829085587858693571086871803889923328512265711054113579798681372936548492578384471213100777195021069115457708924278657423602022568813483917561323048041557560866295596803900148461168570965176991508768243117378085511945750880332715752051907403678033440824798891568586280820884878255326616109734484541068920762240347302576914460447975138152056117475521960715664218023558148961226035939498143128810610054914899699093145851234365938404814633999538944530276409205290096108995517933763393360651405632773166622272632540465103278377723016620028123934026251265221594500668881442617947376036858373673100695508349997201766386171023932823293396759796364473586400437753726331164571523880708763261016747190961968241068000896349468400020486403904369368370803960094220470510279877534323041976575282566286802070444437265189687626375392172726579138571994970309669324787709446407637896818360194823997567983034417344747108011194738947578901742777900723311454542758004408845180000654629405682233704545206310559717277034443949015889519641834355946784392606357657885700259840

def sbLit4 : Nat := 370330249033158321941441350858252950634199835406750948417656262637583900654436159074301223480964380305189422235293968045206540220951856843236681554930387388372313294169896152815129072395440685685764502198869832760085609414443494201583619224793138356043330342192936222520876489309784884407855667421743322543742943295272728693650262536034124426607885832941070505059960864661484181251673097241627603012120897530663809548333609261987605332342721603220545671492831913939848216103058091584284051812857472281904859036438272791445337263072787773145104744248127161985927923012963528998597551135128565276901689071060338204103897134288169458243408316777979128719429771507046331364543582056546676676299237577505549751216377684613268200081759406882743929983561457693517585650813577517782282773001525430190544972822518884007216570302975182213452701162004980756976198316359882459866560980486998244375641386611451924048913469574114110669664095082047752325772255356095618229270563064097710719072009191330959352966988944164667507686633137108117562993452952620738454476038222202210471885397849864242025120118165526514817708799472320310050165858094659820141209045785568180709256149331778940316778898247874749510577338901805285261292236218408344885437151193609270388140435725986655177629589579839144494618700384635679887726816538676996584019440847508573178356578502327959583183387876373120063077311528483307609690214532143354342088710750716331655704549833997306784487843398682317706933577334653168176407651316374326900133388595010180058397312431922167575379403799938915138453447190603251208825465274519163375136912863110217595757780869984607480297645136576102639244787273797653620752034794046584041912086938247837330717640389949796665713192681555222710126214739708807247639438927959608304980025249846408315535549184560470389158822723900519606278106208190487135386809691126923177938292710253264064970414556656960073912082872624144672194152412145134687257564731979159753560708808452856215281724020863118009263376668825173324031326415465592900136646515787458290595327378354117130820936877270530142210105390243863867914565751401486495235765776290653738482875049601578502046351360

def spLit5 : Nat := 97040633689497225737847778079331787567681173476944779052450958825173530898860

def dLit5 : Nat := 11586775912089495786633876042175969853987185209093038957093577422796435123823028618546091639160045144368158637591459574421097405992146442123500370165120839564333405917937053451461560567007136847897737990745799756056879374277305842901480650272360684967936885369093840469810630875566492848184475981500959783911525237950526817374897496720068168024027084389329942051354944616626655466448100535881544382362652962668833261871034459596595962998433768735599145575135304228381059534545680845890530534200416933443240113429595471332937562049901585026945543782202822703963699999672110047995536166690949530052600073347487792760011236078349889936311105513743092597314281409600081926513972445200498135636003830411828904826212986669345687811368133024658021704734164545288025308772973601970383811898226869819742095411170437076992580777115788818372593388843366419843811376132816063099837553730886800265551563611836628539948650463293059254401624204437950940680935708614226792856842415157028119908449307182737316727493952587137908519582244928810116877592634449250167343952135943012971887772056895296294104544641308720868951583196178261323982375944385766671599389752007853343857056283737909557197017344839479094080855134924551467051739211619328329310009791916025682942545307617168547783930429835586179762998959541936116548809850948148770342088311212666022943679865071155414088604640389907007493554955551419411372645831733674248643573871058813616002336244192828396632229098925775528319116000677156026410931523543685802364853877175819353657832144249457262129279161042341774053348322364719120176297812947469714715791570245620911015998765949597257874421391855610576534609384667798888983254638955648587657696029784597694228564972325494179089393648583419794985313454170737264227035348737309667648012208758561584392236807704351730831492035913209416740181901844996491706052683872461119301518717673094351158381506551760052260125836308326084670185046476848079797323863698557278128884746001030927412337830202395384141989597352531199106532411213745983944536094016676201589021791051950231955987422208724094826848010701813937842251296076564231634754389118998806343376907752890618512717563927074010360337883487873313413914579166531796410454764075200611125005645397150516593486360717866284636455399432391959903988702943135551675034811681694272817901532631201843033942001517681501851048365015531460370466763755577598472400469518819970915184052039667111407487025919300330606669101369578264649154013860680243166966845114653856101506043524283248553516890297524888751538539553855818265581513286910792731701637320778383217269786731438001058486217656548252570832581510279728845144776121106353073674885013528068631633201466201041601000744430710473345358464585089620929919584409489916127109882654426166896719569017950674144159194254062224444941492875064381096451410862860827355918489735482456056331115261713251219545016611523960111805833962586315687235897022740611525532484409779016899836846452311921052198224060682048374601150603188708504677248798034796312164005738216943679466178452266793748132370512890397946227145886867225624013873445578201978450299597570967833714106091674774211240450484218923624081683633606906998741455882946727253262668430934388180136382691792988919708824279611604185245395046120421563110127664808475510601147791097195798016741652767540658797447614365343204992123194884062527501831393737977474237429920355231705619916979466768922989514076391685550233838708525819260529180302636682878647927158406974742471237879511718513566211205641470570616781365607166914014574009179420794096412136707722595656586638145749356526810404734600886181445088285995369383049901956814688975953701315608391141698059169326509711565384722623863833930677324927617445529367993617615636875886692153971243905944507600698928669923837486497297912946326754575345555673537951735585737868468773666937204676364944033455220985147617298406410564881435150584768499787205686385505653813337074853762296896690283856724634064053164243231084337439015768247589476109406549820606120300907715927301875113782871074591565812507712074055960886072129599686955326083542738382658191928125240420733747362801613844055957458233149069016026388959636282721367098945913320156058848382375603834253266117738460711091803989409194949874884029079268824284823999805640267174601146467902180449707131307979099283948658071614931459586099857725400763491572561636497185041617515282541982746814038578711591855315209677222401856554697316539394247518298956648792204063839880990609072107871447623481362381139861050103381077307694506560735121187025264485580010673603827692834833501644838287674233473152805216201786934983146481819920153539125052705838446409004191563856287540895745780582595408566506506032185581375620889325862661379179673177672672008306105866896567987433622482622857831631307468797038972807565923930584596155565202223273671088385529160810955896740721543883807504231407226274290853680020431253856859988688842853362942946156121063767720638725289142176555729622418994395361785597591220655881821457099225874626755430512095157471638178120029334747038449795821804257769062907555112668967817976482344580496513038018170274326293101715937735707342310843320891008096157173520766610388129909174907648286284807464016504276756703570222721591399941078551249709524072373065613913671316109115719138552772689629082563301985347104458219846638430146893173320273316732661499838159777004231222789786214575179550461597491197183475575001755607926844252562701491487517559392833810746500265191657802174424991999011511571388534105872991977648450503446295665320019821275038056144897515657331918156556477511757248572324659439161111436864853730648241081304140375786796891944542739217776213836947661937720413639000016008148203940549331716922354642982963721156242082278326753565020923929530775967758804004996483292375292728626749823938419244885850310558122527721205214813433670960975402649342245363545596525780356433288004432050273458696060337150129549104114001555612682369966538783792104875423014027019421972911870097586843125913009122937736011518964629326030528544407844759174829427282642132268062473614883655893841822042619711328117369703403580733336312275546804909920070512975306528118519379885651018780913171549744764034621600362762396135776276625375438734478127242562383080590162653866187119960266584681570736509799338981901593630600695954104434580019714204925930156635859016271662932420326982932246485950086995756263293416766703553146435827857827714490630086480281369061730128195570645333609451150472446126984217979219585868942761247443695835353068578780234015469417927921910626807739174287384368592484088061323916955266946312174733784056373697807211451604301758866556767264761982339288172963015148668494596108595429631979207797953907496453144646486807939921073097623474372597035959237001295296065755306418805688756168215335993981050749009205972765557923629522805220351777724818659672530989095318920224601246232897104479510955815937794045625327365405827214920618374550685508770355437289240769810119749898876302047330859593199082820334536688594184989707915701225399641441038103439630431545713996535458263682802514232822387248572352283669475005889122768999015923318207982351304284994797757093322467171167627373657055012798993613259163449990335207298791724125361476492220012621336847692154400530989712111833150829667129686837912190416683389811140728011622856109085242210956500409626134393912948382333212080671822122976309681865675094672347339855977280335529812626081313359687620723575490153887260867846271500650082188090520729784419041198264283441006359553576161789637983121136500186979491469908685832757898431602498528274870802852313601979147352613344931997624442514560587550215786817644525739744936357809032842969763917808447567026248466162931614746411254990239794012940912534391172725553539088219621909685355686038232307356489784245120029045066890049156135013855273558536440376661688053934212520941493650227883552323325462116689435334867133128912445414193038498061643977707412766702690505286325186733314953992547625918337703266957463234497330860521375931833228872498199262474630929777540942045039015963973810443327030375262022173926768608767344951675010878922279470827569006580053590154657972751407707332219907152469079870040318212310194424344231089180880525054341447678260116211234606821715367720355050933931185106536397178511152869877799692550087461337993554262915915751253578541393441337538577939495339363717076222882812811924743225914311125879102031072538136378335111600885704160141046177350268035184182938297812747226229637905453332388870588173219863677601016774102126051225942685709002762339766065075026414901892766218418388992000

def sbLit5 : Nat := 47405165081314921619083184054690633133583563020409513811343764875648816082254958030790707911953699743902564639944452514126570244960134913146884442114622388142237747687165156409180377639818501168324153077470829179021664614540147882995367551445350848567324698000124144827726808638007911599030918451756899546966284069370002507196684068745201893929001167721587965160611960448491970113649119310355757412186824927559413648573700681242837170684206167197852627307011331280981858372025162894504462853075714730794315375697470446233550152282663568224885624592858027753452694917079192944799302012256608671515372864357734439967384700138546197846293366194625397090926904931583613626990866850751027073519769053993746619961154011925608467573354685757175209841640215338365972376812746377476363191887573463600180840203389408996497112284814748635927464284064480368659506570368290973541358791724443158339749254942705170379884985372442966113929431857850294554963317307973961431085264421992316132265416164620059186354624236384535062898777591681389941740697154603618706897097308309755985626463404126553696215839009182395194630723390039466306749107259275211505351966002654858233380935501799674613330500383389641468963298929051561701054071464184503143418523446542274681869148084659289055889315626541349239369164555276848454498867213755225777103028298743235888739744514648322032231805966784128816506746056865916619001318378618095839270361737219821262923614864018518431447289077773011821480391197000499870375560453245375192957336088565896788482654958907978787323192970463387010898414437962660197398999247372128160504765929907831615575399635095769489052528872489303123888082104046646266691741791570441751958821475907184130584178021728136311802033472421392669642688703153695744992956558626324880567026225191876278041185181418635545892614049699649093078486991542727795690730269636767804136293863364825059531417017927318145448447855929869059212450789043763529419405316742923425798577994025844800235589585891650333263294035695221963397342333551797020839923962321566933558281680964650690305010912898921474461043145895835291451942417957934492590138729405748305681956460077054411402997923840

def spLit6 : Nat := 87849664337609002163346151631590268977786595685238643143092630436953462016980

def dLit6 : Nat := 85952327081115586313735007689506642637173428659889452511297278291363429344031422557131298438453657453604495464596674136178288601903313301431390556114472786537470211005298800565552211719121822957142987001190717581178308489699366347060703605658096229355954798855566207689388065463992091105010829883710383261028762370103967186047655582259472232569797399446069395472746169402976754372124456408919520272204442743083454666334598266573287979115149010379248665591599437032200510262850743153217162396055100969290914387286737617308124838494645375972993168648700215567528338378908623741001510413385257286483130911216936104859377945936597842172740114848334346969904596671310333483819841389996278390113242045759978838533048740259308840449031121968422868687517314797820802243281757519590577995083785697286902600297690242507845065186339093169856599280894320394580244798283368672704318750175595353284966744952197240607420888172954051924220335432044160382047363533533912658462160137147569534954255777799884737735852632680074812620541510356806782110141637861417923623989984446612936434492305397740111401080830706080270418484107291801099678739982225235130599194379345016231821635105685086955522193978012067046211291417756508576224590756948470899448349264670944812152514272341127338106917246309779127352773845812437462984109314699224262727603585783482872291420448685006641451684385048594234277794656654866764056196262976296585287919163872703327763776954579040271806186208890512499472265878048608235934739509232847746129621202351630294265239062995068373511463308374882922492714452037512778680570077792146299414627653168345004397058769446026344608297916184209989437879930177722796061089688782204550993348540093904445475717427385764342894694449604807327679934859094340896569574636991553575354506456469688702838562536462065155501786830413836531845744218679486266356987285189592102695992889297130067467335160366695368640073717409092738348405810082640112184629065892400536675907895126270598940158598496789604316634319614785270264360699708039093737808739983880598664429274854766459555990156993832283668149494114280013784795417487440317777235370375230930882900569584934645384456771923369308564205460621978820916264608828536132250068514979659331903218654038342204966914325567756538751015505435457686699672224558236525175218793805701253511498264133350086064910319957220763218008104113504133116332536705711474038804461267473594833058924380132286082758238556803143649244853928118405888677237080962868657039382154985145884115609433454519099238787549725976767676186578700398948307315829426256615855450452495704277875926685955190726028002813016278263580314561129596378572099605006936731057115161538783957573428135961461714809391305050895364070773665406166311258784459175386262503651512607694800284398239383790782737346167152924455769086374279101735621512573121176827612186414855028513359968064644968182338202020319308494492731836503813829356350083138566546356068724388846969079067366910072903257589382131735968537463047575170837076584845212468466585222673753669207124801246393715928538745854898735562130269985548090991507294202865276550991742597873987996222163152704421757496534765705514546556827290525806008672748303846650829278198368029498998902750084424806159665305818482686302488694661270371877549808779977214586874665784284889280438403022151201173932036937168609842672224872587113971783515161425513783319096214758856742678169547600616983989015039271888236886834050420401620802474609896785578702485859104315921014052778103724650793440100453020108589453269877035868204423287642142317543805153736550668497869317185982501303747124573926542069360605803948173957152130695039096714643011402766293079306446939533545493602714714082243128521313975479321537227515574838284065950559432473827887470645865714222181135683435348417196666038835614688731144176929772362730350394297333518862011634666276563949096620078266428044389464484192222805213682429270917329663146437267547530878786193848245911499677113335887519757110790573390605700961571194151427853152060203515060930731972386464688046988904542278369534388461531111373564424508031363462431784498107935575870303159072413577667924046720012291317935884346123907655199444696333137613517857112828135406726476642132228633888395598418047795568860626074599777766686542848012372812573088159978638748269654577872602484174538709030707785430500718439779639156839767384984960513512530474706154152240166012893277619994536398046822667714888462664581034596440399508261825302208894977773368464916600883277517454209062680023266441568035352317565162070310489095999098644692447783306177123648244163168742835107286545551633409440452013734370244607056709121546044625762569444051339293786277622073756487590049250044351940370403840591434381011441267545313439329056092464921503932845049133875720617444476463501739772544385848733671954624891062984106024873035823806649362101274064376473813209130917791069124987066377206973788259950273533829641575826610526018494914911746435347507436868835050577234031875889357518605109827294369026803695870042476888288482213011536419896660298228678015993687060730111730885842967272870845212110591992783324682802034413575409970797483113820254992897487259028697290142563487974326354263688427808115190793391160742606585854730136296102964781590149292274958444138337358655841182547357505466019890808818448517845778306294414741942000341438524369899078349083491125514840041554233353971760631421988989313815474784679140138797697132162049195099892381862773294592523069677405671619186433731710563517051041366109688718233436265061777790732383490627960994479570993369345499948139056978057970304733090469558743472666396379207190066039420088284017636260412756587203833655812947534961483701312827856874651518188821796264887029847212389054642552287633913879537738609527995212487326153955895599044181494601850242130839012029964124353479968696769295535195319115898042115383478360403713071740283205992999271135897466046492602188969921838904444522650907697657248338397347408388347520731254709536929513267174955320294377914740042722877513547681435746151708674479762114708537046895588052979710142482518986894795245612873223744337720975540685058156541971423397765390669852905331369028659521158075543081791435495431233607447023042199961590754015856652145722072689240878492633132243153265537969317841931951160583322840208011670442725076690637099108548128633002765493316910510558245909149918461551549382564514761628490180427495407913229757056046637785691287510585565624694587412842607518741661992339228822798619994317160307629493164774990642912663178648447263325851270465514459991797975486853498635798642515109213208297703822719417174635178626377343178674743754924118856344127366041333559779570779229210986760411120467668773798633922889445378584975443041375204501092849595247631908548408581859667578385360868656007453509628752528860198568273949667326786529914046546862139619591106708561317923158236531702516262829659911387079470879291842240554966479448317355120012391487630409975278927414572792393300910856003403764717609892380445448891639420792971038029027888067808578600087752661805090593795275253254405332033682008457854046194603706800474013010959962348655998973685232424417129876598608311823705580390673335075436427270164829325960489030552507403940400945861811558299348061450475248263740640068657089261936210479156853928767051810824537441153653314250038955909364652201094732151764741473235726144480086411509697315470009510392486957942372821867842269708186284393844059374465089381707529796008781593760286234845293226503987493514231731894417007251294567032548098541012652689682654364846950073504754973851997385526424829874010470218831337960460785908651694829634500249255582330283524338803434137262460815542566133862309502472894595868714387815446126212551827932045826219935319689865020237599293541435300566136640281771924626720590549331800186751643615731149193223268724432647626316766948867729268245374432132947913106823042238634777537724480767987108074853916468369559934366558905036641337217021860835731319546965453064607425130178249027690750460968538179790981658318856011002010471635276241722132332717257387245043970677796773070104599635910964650222559515126794585289134828425535404555221942353971059254875956033277951474607517344177334918438219659570381160922239285618716702078063943578140336322990833949179036726557384623809220998180706005952826924153723552883658949837427235289364138704656164548051720192562008688942031311257052068236715192953231431456943394505128223067936371252636655971054729886020769700133877983192142594701532157015935118096326444271469342146600545485465938316278204970963511551844325064993626678639543125415034880

def sbLit6 : Nat := 370330249043936350722302361224065097312784771984382532042492183921408184322552457409904146077354022902564701741995669066149250284890543296281065208310548330148435550266194133096857754908889719550237530662800487270428337028921166529445103683259763603075994048379113641692936330903302512818653893167882518365479967878737256363633171405825623136927751647791990820308163839722445153088813467614064770848468769975146951301185888614692059218573022879240785495031222000476055445416553172930865655552796021375875325042807509070904606199076142883628395093195734315164037105772313852837284126902107503650420445856700094167971911393263701457677493267195123318760215716735553352771560232892926085236291806932685644207875059329886150490097939612702081106018462813011706333424356270998828390341020463039695015461145175499035432444530452671615155784923507325582232058749368107667375662396611928914547987644788547696960949542685241536710403292520403233452248567852969064702929364441644464096120361652864179234721704339018110380241591103952426956371321401010885283071126703202709353370644650753371957555444715560179182657470837786868744767516308009991190383464371058321159907626552940957598526018220537887553275238635654900611402624961662687710043130562175351897353099171811349929516855996643714214710198931433239079561693429172866183013120681654654294578782785055187398902531617302962274427292318877439571194732716541971166128258826577807036287882095391830060648678756600016239719194824008001324172264712137131639617299904528072592915660631141788276076188916166467626533603262502148400827574793534560176027902469822123341327780866061643656998486745066370621509161651325830697291995823096230574386314059639653430890562546778173043659807568129334085309310553409977778613509531581726314349536318518779437478142097765924090043954896665182674334517090971220358139648128174850943342756084301508007696198926472262180250366087035782651323622946339000384987038393155750311349269069492877375529497616019503521409267145292849819579135043262604030999373647405745672601914862104853534541404668550842475721933117562151998038880341400831229838484148559242488342983257089350460694855680

def spLit7 : Nat := 83404590237719787327812362679316318017024511432049869692805637047474152075805

def dLit7 : Nat := 64276847484164618971057220289615505927810050222907015252417943447832075032191061101695701212283949767490172899184470745093505791580143269663174346662618657542285542527236216834022032021491720373720816324285683081796617302131375980275941987796196267112861649851052500000987414359500615227709128939988325458638205762838498053129436647662904998338316571169045315301404899384615902029096248238623578830482542291434030949235254959584351519332161204138308933241814918339433256228711192328752326648687119141143096209392162995927428776585827511504162741488421870283196486763405290622079967422062905441285101417377712195314909093293456545590360852875950258776059249107245990501828011664440677251680901268892712787535874122132306491777457455862466381629560653008543174982058487171632376216282837697781732234580158416083164676909840142620560425268991286341792770428588393947933432373293608253288148467664041974320438810666808392998154569096356908342455782472135832630839638359436306880100780558566475691068280298749144873864221881098807156226367586165935199504206925395853088648217863396677121433386371180139473789005811408011352533028603954570386831511905141104334469432797623231189919833064763974758567753817515502129809645902042081228958890609986111654163059491173687134875708221846192021297062280480872148326556479691817559006122031529518261194151483659235705666592648228575460373548597371997914514521307090649799970006148871834622232796112423348243361076783576166337568351640869350141390880229796600836012924647692202158157659085541093729440753114975614205451196117656832273745865919849046555489284940959483172703751224791741113637404079756770948857377400186860848258316363443116904966643006557802977535927727215391411630396499641845037882854734796614569387368789571483936935364680282892290079665518616798474939168670953207085233184264402998388834313221944289345564042092847857910484945541626810373233622668162097016649157470273310395977661674588599815172382238598853792431320353992189222158790759005173609095727114635112906235292102756934974148270437113342948546153194309591452839306379582607398244754127735338150780782943549221995302195720861468629350384294196965865543013308642438491890108909848776712611365866004678221847689345756278336396970499184181813145001148417786820875046383079914923519080770787899617242549025493029686301426776401265792994142651915801278355125237892199265656094923838211901577966172413228509789449399383109235695854725435333784833813819535304424397524722521604087376328515711676609678263864506735240876298981196888734906945372746584052738973592465713646608794303860878077679822509769362454809564314396351067880826273802838011320168530308650459584563897242857617353355316508798842314218290182577479290042214358894533003003559570587916442755009963976850237085862725015789899552860595295206743932606231699609230031696346458692091502132286653041855052271924763073986953841525364556269067955908016740747014715304670399906919460399891486109687773334732050313918963744041981561162801167393936932782151709582527265594803245377300916814771125752026184526235791007578688645415990909326066775919894382937338765743133401460323372077633542124341177251986629468269454827486099904496662533881842553147535190604786377123139311862240041204066605377742935915740932614783941664432297491209005216863271685807154810715519203729017991604649878377955929950344448582637534134376646355038984241628984494420875223922617258404567252433880385629378188297859431978864798838530565845373992122695606669072741613866480422637893716227373993631587260555945082545919620377706534235349002850952217918055297267390416434840333419989527052252548830408896567525151766846429907489260735898947540149855159435706514815702631843123334069568222662525390716835630900210607637820269568867964720760115758734362943800138797248425062620546625117738670929474285513838982839465996153060509880643961999898986768919283795855163279700651739236320046167914012439331239598086831772073855655612152890562178986841931256739652218004557543659394208612347966467099762665021104832455518861777199160355957765293878711958784126802257873326751198394720946753679990871685836568182686598863562601405590832555171652204520386518492214566112767260246431369765692247512697270750641806732063041604082996095370203008848951949739012500340571253534256864987668321998213278990893150231383363716032424359544403304735930354047127319031427519578119268765275928241230118643536098178466163882165155903990404982623852217359375133559703084251421322485241281774544251726234158971090004092885677688460153559023028861188898376984858992648439492044274649691310889210537921206236814123901962057654919090717741582208058725090495260072520042725062296683718225445814554041301188296475323726164749820261729670765654719085716444460017100430630673686630888247560856185557409689014237927049749628142021523271138632723254138713494359516271897366094230501282915207500793383690989807608344501154526391772941459700115304434365926664814438450177999483864893356044008120322857420788801042549822208559797154528917736063246988300104571818067801978982879291894552848072535407627190529982821160987594165764425683691253319930847483825052127827103247848204793235766377129617075176153506109328867034503751634761362065301800130945732987282645945240525334571579321793396118173789647988694907736542673751234000522503044184332153753822888590367851125701930810516558894667337979133680083987831127139784173886199096242963139264815096089256722707544383960049718421911878425219387880066671549087897090930605118311740886170946887337826274260810169971028627289686668497484037899072969926944824504680054857703640662729489268549060805485671721941096921542773973372203476104589090585398989308671112986714086842485885130342171538579434747817038033241993491037591337726382932333484696987382940161485684058409723019525624874654542239443073868187969316004866696072001916301701105145421167098973037721417256568123157783871468426166933885178517976581430475256779602362657202533655144290000595601896877557775118725458014755506824714256021536076057641912800552014316352381937082944396482448103467287942045079927864137218528549202190598512691033685049087252643856536811770804053623412434812248499207598917505629503526590376432604668971078373339014736719355224458623216246008883626609256952025186587547594287483073200000375119984090454790727556120473381039490664966073852169655588578202229022835691123617939433022023193114317796777925539711019332233515756798074483081822191357521972875678694894429534195429782030799415783672078315207868457924943543856935697743327275671312934885810649088823312621605506341479763562629346843643877869958369222468328315482534715198175845258306424854843858587532358809286338237211008237739127595434511447775931038098386845182912102396806332998839794721739782367848288076381807397776957343797455240084063478335714545937038776720305660576093202573656890698229709729862272085479790007618153780909919933568007132908875128303576354087127172496777751191942289228643027293583995859038164152580186443143164841145925320264182359250293472758521141382797932105190115269878928502353063010323423416945293228664023424949194870008135708087543555847443816202324550645776576529922134255571739348660689158019432391692357237425802974963993885707208728965523653011206133353746110899595328334249537514096708488601741366185646967207281156875496994893419950924507213642145517734238066730239289202039546108918771406880902320586312019381404397724814703883768049133959860905534190340910634446393586100710774913730212465158853945847250787658981966469187174389061971555727229271526151050853437773007164613164250768643111289382470997390038839472370150069669770932005854572216117670559342854335902699119389537600016379813967527611834254298435588069958346832569382187015087952177629010846022200713268410070847203362950051018282956966099418118170033928914416846029628743250274506161264784583007287709129797548099259524041012386966478002245955943033244812104617769012334868554696665520668494882261397391802853011203522479715569148717997549680206767636241098573218367004815592625653752459541540477083169248647193908344667838165117761693183928149179761329364805720515989044061781973968465773592833174036208819299380745391250672872342178007705795177538739193585720351770309186107985784155871520913200475351503627524587234784656751131069030625693816441123602267003219477334653038123166183527402130100167365298156281522583027598149535675520385637591199692137242079592713543934771293995002635852845741843041695820883640235561095632468339490823116605701530710505855806884501623493788511425916559632673130632788780838251584850401997349307460238704640

def sbLit7 : Nat := 47772579345536448376680089963672058972029383474550381261581391919796315968274499467624986838574243483288541980065763893357277450922010635490494616372673692747127560343855625720626945105427690431718502551440453947392359351560225855452356632362517449039653921258655866772977260581023785168346437927635014826471060229971707456441878468289798618433043680407111484344192166882153730822148717766998500920651143893235740499778502522256981260010040301861692372870902577178825736968639868876765212792211640673504416636800725900137156893977652500087498035591519211075452664270243750870804459075080772497683982980923120339913909445479152320148365856097845119138582061380274481286537486732180763892097161311457670374621313480626681506388658899671992673289053874122501870034771455552147959314680297765706790000258285242334479586477152872287169192654989563841022409495335411772413825752475100768854254572371952979663824456895709968448626670677230636928993984284257761991177925875886804602341252133473297168271125054155713707779431132630477669660239590652819565753455017453640168526203795242231627851520005230327791153134895297558940533395823067463798356327565516027616024664106992539874476117622130976023102878473807739025648268889444982418504659720475267233677212993983841447788393893905729461458809946197675817951041510725413432336800692319337240588946697778767816874890699482475910254717522147696865342675046113847863426431332266609677359688440298457610892622825368460018259508623991595999277847915005282837779472684704359306782568422572659048922030563307446524828570314432503009572240253658491712865556556636770078492768408299058928256023333343776674403452798433148910036264632378842440422240417831990385300248714504384871025574661233282462942338148315949210757295267181279155322272282944687870656670386990197790383762709996923976549337848338548474815492932109439046641126449637268282922939020344311638910472323618787244431433793286002028208614035669725417172063296118125848241093260436597955719079713457098046517187803831685589594142107647080971453122377704303758021522035302378452970321761364385964431751874067264197673542466073304427207158627629623527425211105280

theorem beq_xor_zero (v c : Nat) : ((v ^^^ c) == 0) = (v == c) := by
  rw [Bool.eq_iff_iff]
  simp [Nat.xor_eq_zero]

theorem nonzero_count_packed (E : List Nat) (hElen : E.length = 64)
    (hEb : ∀ e ∈ E, e < 16) :
    ((ofDig E + fifteenD) &&& sixteenD) / 16 % 127 = E.countP (fun e => !(e == 0)) := by
  have haddstep : ofDig E + fifteenD = ofDig (E.map (fun e => e + 15)) := by
    rw [fifteenD_eq, ofDig_zipAdd E (List.replicate 64 15) (by simp [hElen])]
    congr 1
    have h64 : (List.replicate 64 (15:Nat)) = List.replicate E.length 15 := by rw [hElen]
    rw [h64, zipWith_replicate_right]
  have handstep : ofDig (E.map (fun e => e + 15)) &&& sixteenD
      = ofDig (E.map (fun e => (e + 15) &&& 16)) := by
    rw [sixteenD_eq, ofDig_zipAnd (E.map (fun e => e + 15)) (List.replicate 64 16)
      (by simp [hElen])
      (fun d hd => by
        obtain ⟨e, he, rfl⟩ := List.mem_map.mp hd
        have := hEb e he
        omega)
      (fun d hd => by
        rw [List.eq_of_mem_replicate hd]
        omega)]
    congr 1
    have h64 : (List.replicate 64 (16:Nat)) = List.replicate (E.map (fun e => e + 15)).length 16 := by
      simp [hElen]
    rw [h64, zipWith_replicate_right, List.map_map]
    rfl
  have hcollapse : E.map (fun e => (e + 15) &&& 16)
      = E.map (fun e => if e = 0 then 0 else 16) := by
    refine List.map_congr_left ?_
    intro e he
    have h16 := hEb e he
    interval_cases e <;> rfl
  have hdiv : ofDig (E.map (fun e => if e = 0 then 0 else 16)) / 16
      = ofDig (E.map (fun e => if e = 0 then 0 else 1)) := by
    rw [ofDig_div16 (E.map (fun e => if e = 0 then 0 else 16))
      (fun d hd => by
        obtain ⟨e, he, rfl⟩ := List.mem_map.mp hd
        by_cases h0 : e = 0 <;> simp [h0]),
      Nat.mul_div_cancel_left _ (by omega : (0:Nat) < 16), List.map_map]
    exact congrArg ofDig (List.map_congr_left
      (fun e _ => by by_cases h0 : e = 0 <;> simp [h0, Function.comp]))
  have hindic : E.map (fun e => if e = 0 then 0 else 1)
      = E.map (fun e => if (!(e == 0)) then 1 else 0) := by
    refine List.map_congr_left ?_
    intro e _
    by_cases h0 : e = 0 <;> simp [h0]
  have hsumb : (E.map (fun e => if e = 0 then 0 else 1)).sum ≤ 64 := by
    have h1 : ∀ d ∈ E.map (fun e => if e = 0 then 0 else 1), d ≤ 1 := by
      intro d hd
      obtain ⟨e, he, rfl⟩ := List.mem_map.mp hd
      by_cases h0 : e = 0 <;> simp [h0]
    have h2 := sum_le_length_of_le_one _ h1
    simpa [hElen] using h2
  rw [haddstep, handstep, hcollapse, hdiv, ofDig_mod127, Nat.mod_eq_of_lt (by omega),
    hindic, sum_map_indicator]

theorem count_eqc_of_packed (f : Nat → Nat) (dy R : Nat)
    (hfb : ∀ x, f x < 16) (hdy : dy < 16)
    (hR : ofDig ((List.range 64).map f) = R) :
    ((List.range 64).filter (fun x => f x == dy)).length
      = 64 - ((((R ^^^ (dy * onesD)) + fifteenD) &&& sixteenD) / 16) % 127 := by
  have hdyones : dy * onesD = ofDig (List.replicate 64 dy) := by
    rw [onesD_eq, ofDig_smul, List.map_replicate, Nat.mul_one]
  have hl0b : ∀ d ∈ (List.range 64).map f, d < 16 := by
    intro d hd
    obtain ⟨x, _, rfl⟩ := List.mem_map.mp hd
    exact hfb x
  have hlen : ((List.range 64).map f).length = 64 := by simp
  have hxorstep : R ^^^ dy * onesD
      = ofDig (((List.range 64).map f).map (fun v => v ^^^ dy)) := by
    rw [← hR, hdyones, ofDig_zipXor _ _ (by simp)
      (fun d hd => Nat.lt_of_lt_of_le (hl0b d hd) (by omega))
      (fun d hd => by
        rw [List.eq_of_mem_replicate hd]
        omega)]
    congr 1
  have hElen : (((List.range 64).map f).map (fun v => v ^^^ dy)).length = 64 := by simp
  have hEb : ∀ e ∈ ((List.range 64).map f).map (fun v => v ^^^ dy), e < 16 := by
    intro e he
    obtain ⟨v, hv, rfl⟩ := List.mem_map.mp he
    have h24 : (16 : Nat) = 2 ^ 4 := by norm_num
    rw [h24]
    exact Nat.xor_lt_two_pow (h24 ▸ hl0b v hv) (h24 ▸ hdy)
  have hnz := nonzero_count_packed _ hElen hEb
  have hcne : (((List.range 64).map f).map (fun v => v ^^^ dy)).countP (fun e => !(e == 0))
      = ((List.range 64).map f).countP (fun v => !(v == dy)) := by
    rw [List.countP_map]
    refine List.countP_congr ?_
    intro v _
    show (!((v ^^^ dy) == 0)) = true ↔ (!(v == dy)) = true
    rw [beq_xor_zero]
  have hcompl := countP_add_countP_not (fun v => v == dy) ((List.range 64).map f)
  rw [hlen] at hcompl
  have hfil2 : ((List.range 64).filter (fun x => f x == dy)).length
      = ((List.range 64).map f).countP (fun v => v == dy) := by
    rw [← List.countP_eq_length_filter, List.countP_map]
    rfl
  rw [hfil2, hxorstep, hnz, hcne]
  omega

theorem parityFuel_le_one : ∀ (fuel x : Nat), parityFuel fuel x ≤ 1 := by
  intro fuel
  induction fuel with
  | zero =>
    intro x
    cases x <;> simp [parityFuel]
  | succ f ih =>
    intro x
    cases x with
    | zero => simp [parityFuel]
    | succ y =>
      have heq : parityFuel (f + 1) (y + 1)
          = ((y + 1) &&& 1) ^^^ parityFuel f ((y + 1) >>> 1) := rfl
      rw [heq]
      have h1 : (y + 1) &&& 1 ≤ 1 := Nat.and_le_right
      have h2 := ih ((y + 1) >>> 1)
      have hx : ((y + 1) &&& 1) ^^^ parityFuel f ((y + 1) >>> 1) < 2 ^ 1 :=
        Nat.xor_lt_two_pow (by omega) (by omega)
      have h2p : (2:Nat) ^ 1 = 2 := by norm_num
      omega

theorem parity_le_one (x : Nat) : parity x ≤ 1 := parityFuel_le_one x x

theorem count_beq_of_packed (f g : Nat → Nat) (R1 R2 : Nat)
    (hf : ∀ x, f x ≤ 1) (hg : ∀ x, g x ≤ 1)
    (h1 : ofDig ((List.range 64).map f) = R1)
    (h2 : ofDig ((List.range 64).map g) = R2) :
    ((List.range 64).filter (fun x => f x == g x)).length = 64 - (R1 ^^^ R2) % 127 := by
  have hxor : R1 ^^^ R2 = ofDig ((List.range 64).map (fun x => f x ^^^ g x)) := by
    rw [← h1, ← h2, ofDig_zipXor _ _ (by simp)
      (fun d hd => by
        obtain ⟨x, _, rfl⟩ := List.mem_map.mp hd
        have := hf x
        omega)
      (fun d hd => by
        obtain ⟨x, _, rfl⟩ := List.mem_map.mp hd
        have := hg x
        omega),
      zipWith_map_same]
  have hindic : (List.range 64).map (fun x => f x ^^^ g x)
      = (List.range 64).map (fun x => if (!(f x == g x)) then 1 else 0) := by
    refine List.map_congr_left ?_
    intro x _
    rcases Nat.le_one_iff_eq_zero_or_eq_one.mp (hf x) with e1 | e1 <;>
      rcases Nat.le_one_iff_eq_zero_or_eq_one.mp (hg x) with e2 | e2 <;>
      rw [e1, e2] <;> rfl
  have hcompl := countP_add_countP_not (fun x => f x == g x) (List.range 64)
  simp only [List.length_range] at hcompl
  have hcle : (List.range 64).countP (fun x => !(f x == g x)) ≤ 64 := by omega
  rw [← List.countP_eq_length_filter, hxor, hindic, ofDig_mod127, sum_map_indicator,
    Nat.mod_eq_of_lt (by omega)]
  omega

theorem ddt_bridge (sbox : List (List Nat)) (sp D : Nat)
    (hsv : (List.range 64).map (sbox_lookup_int sbox)
      = (List.range 64).map (fun x => (sp >>> (4 * x)) &&& 15))
    (hrow : ∀ dx : Fin 64,
      ofDig ((List.range 64).map (fun x =>
        ((sp >>> (4 * x)) &&& 15) ^^^ ((sp >>> (4 * (x ^^^ dx.val))) &&& 15)))
      = (D >>> (448 * dx.val)) &&& mask448) :
    ddtCount sbox = (List.range 64).map (fun dx => (List.range 16).map (fun dy =>
      64 - ((((((D >>> (448 * dx)) &&& mask448) ^^^ (dy * onesD)) + fifteenD)
        &&& sixteenD) / 16) % 127)) := by
  have hsvp : ∀ x, x < 64 → sbox_lookup_int sbox x = (sp >>> (4 * x)) &&& 15 := by
    intro x hx
    have h : ((List.range 64).map (sbox_lookup_int sbox)).getD x 0
        = ((List.range 64).map (fun x2 => (sp >>> (4 * x2)) &&& 15)).getD x 0 := by
      rw [hsv]
    rw [getD_map_range _ _ hx, getD_map_range _ _ hx] at h
    exact h
  unfold ddtCount
  refine List.map_congr_left ?_
  intro dx hdxm
  have hdx : dx < 64 := List.mem_range.mp hdxm
  refine List.map_congr_left ?_
  intro dy hdym
  have hdy : dy < 16 := List.mem_range.mp hdym
  have hpred : ∀ x ∈ List.range 64,
      (sboxDiff sbox x dx == dy)
        = ((((sp >>> (4 * x)) &&& 15) ^^^ ((sp >>> (4 * (x ^^^ dx))) &&& 15)) == dy) := by
    intro x hxm
    have hx : x < 64 := List.mem_range.mp hxm
    have h26 : (64 : Nat) = 2 ^ 6 := by norm_num
    have hxor : x ^^^ dx < 64 := by
      rw [h26]
      exact Nat.xor_lt_two_pow (h26 ▸ hx) (h26 ▸ hdx)
    unfold sboxDiff
    rw [hsvp x hx, hsvp (x ^^^ dx) hxor]
  rw [List.filter_congr hpred]
  exact count_eqc_of_packed
    (fun x => ((sp >>> (4 * x)) &&& 15) ^^^ ((sp >>> (4 * (x ^^^ dx))) &&& 15))
    dy ((D >>> (448 * dx)) &&& mask448)
    (fun x => by
      have ha : (sp >>> (4 * x)) &&& 15 < 16 := Nat.lt_succ_of_le Nat.and_le_right
      have hb : (sp >>> (4 * (x ^^^ dx))) &&& 15 < 16 := Nat.lt_succ_of_le Nat.and_le_right
      have h24 : (16 : Nat) = 2 ^ 4 := by norm_num
      rw [h24]
      exact Nat.xor_lt_two_pow (h24 ▸ ha) (h24 ▸ hb))
    hdy (hrow ⟨dx, hdx⟩)

def ptLit : Nat := 83367290054594056493836724695922386801328891290010204326171640095470368070844255301994765792888784134210764446193644927214077123216446810491368872800773281177723945001341289761873651322333706733242626807949254872655358303015898006073148292817252790030637271264207719274248422113627780150761437253160015517529385112817722258781051514438347627645171927943175017731831151409154536081925751186448706586473900202164101372297761952941262522157473392819950348141211099146410932746275091400354736883203921774124925623975168119590651730809257809524743216610558515614800076001395986793589244821356956999555277447762952140918203307813368302499334046671133460390201653948878708646745865567338042878797598493957332095049613433404282032416997382031335588643279447596134950034422577562550938361212611031770420656844795681348976894440748202854472257629974831426561124564099452504930785497308294367284715597409472772405872338989386015674478324197788304380401616318484607473394973995518183202771617192286496609589654962556643956727521194532664883669309910842980817357776574553775044531675723223758853382865631039930031745725489659232480085187488741395688855541272573082050380750428521061034179245116445614880055451391727282164124475714948095318596446845642019798980955320158813124508145369828943919952932669466574189020431681183792033719895724386498549097593359985487891537316728532893309011501389493475222907008019320136141445857614772224486320795293205448517949171064172959852460359716295424728744373307285458279900916908754366539432104078394580957416152109105150248666063593505114444163349391411499180210328140473592512150857691511703186265829616203544148375356503627991392044194913328788701077702009379339057002727771246744390158746573496990506787338111308977164742624638218321281753195627531490470290147838791158614275707650895759632300541235976126698992177834169274671558971100384909894101932374933958839809424645900363396952014155835058791454921469999881419129601206154976187566001203727820156458699041807779701542154456371773853056232827312296179758565501405860671331097680581961929654710337729902464104318787718099353047684723472099277288338885441088216586620573449528334717648944971427672779199841701617496461478774941846547639023268548452656693165732547951346495870472134777637397551495373190741250387231468700338414520134753111847886548845603389595699041520471145432955620978302311483941529657575069555770279407370569211197059533074814268374680555663733774138052159684783531004222325594238750071102114117574923997449260006901110677731628874379293825984962606028460363961218670091181755272637412667677440128716866794077444244244866199717256399414204989518770158942072218898167941743017248241035644918534212962494507497067725883245061229189102825692815220861084277402942391170281034132273055902549823410108061560482836147000728912808779818943580892564329983534209957811060300920823417892559930274722590799362047878258131821495703617826557301364692917074850912455301128116378308589977055006667896491369995459758511497286798353027555630075196032998766689581412423912651466989212907751775891610663211479812794903438103677539091698702775675083677711495934680942750094427771785829865617642348686091718040352290131060233773496855623628367975729859152800929886302492574367702433014043535174569745024908111007861991454338898947883579544432820638418626977705053786909083484259153125510213060900631818439565187904695541842499341244630781513120865491986628733055570683079017949220408852483996037351144428687331967854535102672786682786331260480204641869675073475644850891073178624978449908726093673297893608523121692856558037928579019384940451934252073172729774128331701284867665916045354983920682261535801796437965334747298260814137143725697622538694285645364483428692352992708804403926212686544648858769959886327735719909458940050780872639063707788310745255680590141855406436333946229747263838667032841712099992458459561398519628948686141743356880813030495321501070656994776198774484674163177277846634485085810187293422475332007981838179705538618326951318593716274901083946328174487885317742730067004816373797129568466167733165767495399541660461373413157760872120194854464290733570081949828023693259147531536021875250077683189500400440691929222375572042316994327136179629258735953577343691610236885449857970766467038821445914858374016482203721415180899015015967967505407858686246264516846812710922065443108764961549786729252128249632945584187695527525896415747850034830768292751132430285557171185745565978370235335788888555979122683115758216055049446235489394342715041783353966791146244494694202079047860637921525980375898536907455229498524154771525968025049934751238611075763414225951898934299618657398815493610950302733531561518959717059557414058089799381186075482604090593977234975909857846910087417996213916130375645726697064839825018681183935804396488410704371749598160162719106444214778983949746505932872020589745947805547027822702735835213544247645044990832356579328441689240991109156231178017131110469111277318447402997338595351683428107044515434851340812241464561200787533149974741124465769289693259092936890219098898925146447875248846814894231938786767475731642692709155036770538930439294718899452874951728822663764102484796629358785428625097872246845321054297774367075612077221866388325009400922986285409246535483384696133221256213474135816027862417473077850158512328948114586655400760400229900947320491911760806903688600326142142141798565042532093492627994401014864210115086297062295631047814161129431442487066096361883372084579690127090535215025935141575407065492609011031799284611251696369908407902729745649828010847748319233917676340830726975058452369065552970964580239839691509365605408258695073123916982182135477662028705400841687804096877274679856811530875317852175467281714117854194957884219470161687488578841639940011917074798149945873773701569246787972164541214138188739403521151822859937441111397197156324999811610778564319064345924302013773148739572829838943906674441184357829401096824182571915589105996886180257346865332276892852511176377127152869399056343756336282853289675251053161251542909728297643142383786528860828792220329634529668619902508103510696572270692131048256468849710888019032589769476137446082492686690236350965630958433397554021266581716349967604034589716201026796246858830530791706571406259419544406111580749981154388200569995544028336636221752228938242549333176004979854049850078715654112257521434257135643524160752757546361286098232872455524772531929474314676393783513137148693716706623497247760544746284772418756663561982318881075404230180848431239532540045593365122630014823312039887876298935276635690375055190050548890889677581374202026714996651907839482340978001041805705569484462650766609309963633265318818519268004325562744667171851802101926771787835379352570045671921460217499536149561141183684029397446236383766492986292436767042851504388081531997708536191536887222921905603298292287780287260859568708982345980468247418747983025946903471120818488076767071520354679697530619803166507058071253665843177712995664575134555140683916760611130047966082817892866090447595757909791926902868306735940408310778156724929175301356663329543970188250792646378186898984763855922780077321579896263151939286924781460055191432770488522554638866114836332262046287091200677291583995973920105494604442779219831866456805311683547273402305634297713324690634130133519240906710984824002147027015830862820203585480883576731958678738141270624080691229733786892418655345634645545488849621819459265687747222771087653836179432005290981534647089808906435234450990554040285381430080893870207097814671883809604265443016902750344296688892982920777932617016174888579458026018643934321778074863679355515778372361489992143393514060792455281101572372192293978443706891107526528729355951872322872153767785410867407456365702214768207668810375941556240460804910764348744486878256583824635864260190890868172705685675376836161365788959235586970713487079137903923589037473113900634261245366466284967983183263622461876235095693679255318378142344143242220089069180963133839112062294978329512816238826557205827995606343877692871594924302320446750329842047153692027309461571623116911413467583785569305641935840850012925098444605621830236492048875047149133317922724999826766802453116789737036445211563371984185137955167102902730427612391024220157036326959417233689546043155858752569328347373297305744649813209699374508569081373668023403016040335837856740976339780051949209837030723594353672101722969222071121156976327915433753915384051682560981917258658294159129219368643812658709203089635427700698385074172518611338739297559295971699864895488

theorem ptRow_cert : ∀ a : Fin 64,
    ofDig ((List.range 64).map (fun x => parity (x &&& a.val)))
    = (ptLit >>> (448 * a.val)) &&& mask448 := by decide!

theorem lat_bridge (sbox : List (List Nat)) (sp SB : Nat)
    (hsv : (List.range 64).map (sbox_lookup_int sbox)
      = (List.range 64).map (fun x => (sp >>> (4 * x)) &&& 15))
    (hsb : ∀ b : Fin 16,
      ofDig ((List.range 64).map (fun x => parity (((sp >>> (4 * x)) &&& 15) &&& b.val)))
      = (SB >>> (448 * b.val)) &&& mask448) :
    compute_lat sbox = (List.range 64).map (fun a => (List.range 16).map (fun b =>
      ((64 - (((ptLit >>> (448 * a)) &&& mask448)
        ^^^ ((SB >>> (448 * b)) &&& mask448)) % 127 : Nat) : Int) - 32)) := by
  have hsvp : ∀ x, x < 64 → sbox_lookup_int sbox x = (sp >>> (4 * x)) &&& 15 := by
    intro x hx
    have h : ((List.range 64).map (sbox_lookup_int sbox)).getD x 0
        = ((List.range 64).map (fun x2 => (sp >>> (4 * x2)) &&& 15)).getD x 0 := by
      rw [hsv]
    rw [getD_map_range _ _ hx, getD_map_range _ _ hx] at h
    exact h
  unfold compute_lat
  refine List.map_congr_left ?_
  intro a ham
  have ha : a < 64 := List.mem_range.mp ham
  refine List.map_congr_left ?_
  intro b hbm
  have hb : b < 16 := List.mem_range.mp hbm
  have hpred : ∀ x ∈ List.range 64,
      (parity (x &&& a) == parity (sbox_lookup_int sbox x &&& b))
        = (parity (x &&& a) == parity (((sp >>> (4 * x)) &&& 15) &&& b)) := by
    intro x hxm
    have hx : x < 64 := List.mem_range.mp hxm
    rw [hsvp x hx]
  rw [List.filter_congr hpred]
  have hcnt2 : (List.filter (fun x =>
        parity (x &&& a) == parity (((sp >>> (4 * x)) &&& 15) &&& b))
        (List.range 64)).length
      = 64 - ((((ptLit >>> (448 * a)) &&& mask448)
        ^^^ ((SB >>> (448 * b)) &&& mask448)) % 127) :=
    count_beq_of_packed
      (fun x => parity (x &&& a))
      (fun x => parity (((sp >>> (4 * x)) &&& 15) &&& b))
      ((ptLit >>> (448 * a)) &&& mask448)
      ((SB >>> (448 * b)) &&& mask448)
      (fun x => parity_le_one _)
      (fun x => parity_le_one _)
      (ptRow_cert ⟨a, ha⟩)
      (hsb ⟨b, hb⟩)
  rw [hcnt2]

theorem sv_cert_0 :
    (List.range 64).map (sbox_lookup_int (S_BOXES.getD 0 []))
      = (List.range 64).map (fun x => (spLit0 >>> (4 * x)) &&& 15) := by decide!

theorem drow_cert_0 : ∀ dx : Fin 64,
    ofDig ((List.range 64).map (fun x =>
      ((spLit0 >>> (4 * x)) &&& 15) ^^^ ((spLit0 >>> (4 * (x ^^^ dx.val))) &&& 15)))
    = (dLit0 >>> (448 * dx.val)) &&& mask448 := by decide!

theorem sb_cert_0 : ∀ b : Fin 16,
    ofDig ((List.range 64).map (fun x => parity (((spLit0 >>> (4 * x)) &&& 15) &&& b.val)))
    = (sbLit0 >>> (448 * b.val)) &&& mask448 := by decide!

theorem sv_cert_1 :
    (List.range 64).map (sbox_lookup_int (S_BOXES.getD 1 []))
      = (List.range 64).map (fun x => (spLit1 >>> (4 * x)) &&& 15) := by decide!

theorem drow_cert_1 : ∀ dx : Fin 64,
    ofDig ((List.range 64).map (fun x =>
      ((spLit1 >>> (4 * x)) &&& 15) ^^^ ((spLit1 >>> (4 * (x ^^^ dx.val))) &&& 15)))
    = (dLit1 >>> (448 * dx.val)) &&& mask448 := by decide!

theorem sb_cert_1 : ∀ b : Fin 16,
    ofDig ((List.range 64).map (fun x => parity (((spLit1 >>> (4 * x)) &&& 15) &&& b.val)))
    = (sbLit1 >>> (448 * b.val)) &&& mask448 := by decide!

theorem sv_cert_2 :
    (List.range 64).map (sbox_lookup_int (S_BOXES.getD 2 []))
      = (List.range 64).map (fun x => (spLit2 >>> (4 * x)) &&& 15) := by decide!

theorem drow_cert_2 : ∀ dx : Fin 64,
    ofDig ((List.range 64).map (fun x =>
      ((spLit2 >>> (4 * x)) &&& 15) ^^^ ((spLit2 >>> (4 * (x ^^^ dx.val))) &&& 15)))
    = (dLit2 >>> (448 * dx.val)) &&& mask448 := by decide!

theorem sb_cert_2 : ∀ b : Fin 16,
    ofDig ((List.range 64).map (fun x => parity (((spLit2 >>> (4 * x)) &&& 15) &&& b.val)))
    = (sbLit2 >>> (448 * b.val)) &&& mask448 := by decide!

theorem sv_cert_3 :
    (List.range 64).map (sbox_lookup_int (S_BOXES.getD 3 []))
      = (List.range 64).map (fun x => (spLit3 >>> (4 * x)) &&& 15) := by decide!

theorem drow_cert_3 : ∀ dx : Fin 64,
    ofDig ((List.range 64).map (fun x =>
      ((spLit3 >>> (4 * x)) &&& 15) ^^^ ((spLit3 >>> (4 * (x ^^^ dx.val))) &&& 15)))
    = (dLit3 >>> (448 * dx.val)) &&& mask448 := by decide!

theorem sb_cert_3 : ∀ b : Fin 16,
    ofDig ((List.range 64).map (fun x => parity (((spLit3 >>> (4 * x)) &&& 15) &&& b.val)))
    = (sbLit3 >>> (448 * b.val)) &&& mask448 := by decide!

theorem sv_cert_4 :
    (List.range 64).map (sbox_lookup_int (S_BOXES.getD 4 []))
      = (List.range 64).map (fun x => (spLit4 >>> (4 * x)) &&& 15) := by decide!

theorem drow_cert_4 : ∀ dx : Fin 64,
    ofDig ((List.range 64).map (fun x =>
      ((spLit4 >>> (4 * x)) &&& 15) ^^^ ((spLit4 >>> (4 * (x ^^^ dx.val))) &&& 15)))
    = (dLit4 >>> (448 * dx.val)) &&& mask448 := by decide!

theorem sb_cert_4 : ∀ b : Fin 16,
    ofDig ((List.range 64).map (fun x => parity (((spLit4 >>> (4 * x)) &&& 15) &&& b.val)))
    = (sbLit4 >>> (448 * b.val)) &&& mask448 := by decide!

theorem sv_cert_5 :
    (List.range 64).map (sbox_lookup_int (S_BOXES.getD 5 []))
      = (List.range 64).map (fun x => (spLit5 >>> (4 * x)) &&& 15) := by decide!

theorem drow_cert_5 : ∀ dx : Fin 64,
    ofDig ((List.range 64).map (fun x =>
      ((spLit5 >>> (4 * x)) &&& 15) ^^^ ((spLit5 >>> (4 * (x ^^^ dx.val))) &&& 15)))
    = (dLit5 >>> (448 * dx.val)) &&& mask448 := by decide!

theorem sb_cert_5 : ∀ b : Fin 16,
    ofDig ((List.range 64).map (fun x => parity (((spLit5 >>> (4 * x)) &&& 15) &&& b.val)))
    = (sbLit5 >>> (448 * b.val)) &&& mask448 := by decide!

theorem sv_cert_6 :
    (List.range 64).map (sbox_lookup_int (S_BOXES.getD 6 []))
      = (List.range 64).map (fun x => (spLit6 >>> (4 * x)) &&& 15) := by decide!

theorem drow_cert_6 : ∀ dx : Fin 64,
    ofDig ((List.range 64).map (fun x =>
      ((spLit6 >>> (4 * x)) &&& 15) ^^^ ((spLit6 >>> (4 * (x ^^^ dx.val))) &&& 15)))
    = (dLit6 >>> (448 * dx.val)) &&& mask448 := by decide!

theorem sb_cert_6 : ∀ b : Fin 16,
    ofDig ((List.range 64).map (fun x => parity (((spLit6 >>> (4 * x)) &&& 15) &&& b.val)))
    = (sbLit6 >>> (448 * b.val)) &&& mask448 := by decide!

theorem sv_cert_7 :
    (List.range 64).map (sbox_lookup_int (S_BOXES.getD 7 []))
      = (List.range 64).map (fun x => (spLit7 >>> (4 * x)) &&& 15) := by decide!

theorem drow_cert_7 : ∀ dx : Fin 64,
    ofDig ((List.range 64).map (fun x =>
      ((spLit7 >>> (4 * x)) &&& 15) ^^^ ((spLit7 >>> (4 * (x ^^^ dx.val))) &&& 15)))
    = (dLit7 >>> (448 * dx.val)) &&& mask448 := by decide!

theorem sb_cert_7 : ∀ b : Fin 16,
    ofDig ((List.range 64).map (fun x => parity (((spLit7 >>> (4 * x)) &&& 15) &&& b.val)))
    = (sbLit7 >>> (448 * b.val)) &&& mask448 := by decide!

/-! ## Certified literal values of the sixteen tables -/

theorem ddt_eq_0 : ddtCount (S_BOXES.getD 0 []) = unpackNatMatrix ddtPacked0 := by
  rw [ddt_bridge (S_BOXES.getD 0 []) spLit0 dLit0 sv_cert_0 drow_cert_0]
  decide!

theorem ddt_eq_1 : ddtCount (S_BOXES.getD 1 []) = unpackNatMatrix ddtPacked1 := by
  rw [ddt_bridge (S_BOXES.getD 1 []) spLit1 dLit1 sv_cert_1 drow_cert_1]
  decide!

theorem ddt_eq_2 : ddtCount (S_BOXES.getD 2 []) = unpackNatMatrix ddtPacked2 := by
  rw [ddt_bridge (S_BOXES.getD 2 []) spLit2 dLit2 sv_cert_2 drow_cert_2]
  decide!

theorem ddt_eq_3 : ddtCount (S_BOXES.getD 3 []) = unpackNatMatrix ddtPacked3 := by
  rw [ddt_bridge (S_BOXES.getD 3 []) spLit3 dLit3 sv_cert_3 drow_cert_3]
  decide!

theorem ddt_eq_4 : ddtCount (S_BOXES.getD 4 []) = unpackNatMatrix ddtPacked4 := by
  rw [ddt_bridge (S_BOXES.getD 4 []) spLit4 dLit4 sv_cert_4 drow_cert_4]
  decide!

theorem ddt_eq_5 : ddtCount (S_BOXES.getD 5 []) = unpackNatMatrix ddtPacked5 := by
  rw [ddt_bridge (S_BOXES.getD 5 []) spLit5 dLit5 sv_cert_5 drow_cert_5]
  decide!

theorem ddt_eq_6 : ddtCount (S_BOXES.getD 6 []) = unpackNatMatrix ddtPacked6 := by
  rw [ddt_bridge (S_BOXES.getD 6 []) spLit6 dLit6 sv_cert_6 drow_cert_6]
  decide!

theorem ddt_eq_7 : ddtCount (S_BOXES.getD 7 []) = unpackNatMatrix ddtPacked7 := by
  rw [ddt_bridge (S_BOXES.getD 7 []) spLit7 dLit7 sv_cert_7 drow_cert_7]
  decide!

theorem lat_eq_0 : compute_lat (S_BOXES.getD 0 []) = unpackIntMatrix latPacked0 := by
  rw [lat_bridge (S_BOXES.getD 0 []) spLit0 sbLit0 sv_cert_0 sb_cert_0]
  decide!

theorem lat_eq_1 : compute_lat (S_BOXES.getD 1 []) = unpackIntMatrix latPacked1 := by
  rw [lat_bridge (S_BOXES.getD 1 []) spLit1 sbLit1 sv_cert_1 sb_cert_1]
  decide!

theorem lat_eq_2 : compute_lat (S_BOXES.getD 2 []) = unpackIntMatrix latPacked2 := by
  rw [lat_bridge (S_BOXES.getD 2 []) spLit2 sbLit2 sv_cert_2 sb_cert_2]
  decide!

theorem lat_eq_3 : compute_lat (S_BOXES.getD 3 []) = unpackIntMatrix latPacked3 := by
  rw [lat_bridge (S_BOXES.getD 3 []) spLit3 sbLit3 sv_cert_3 sb_cert_3]
  decide!

theorem lat_eq_4 : compute_lat (S_BOXES.getD 4 []) = unpackIntMatrix latPacked4 := by
  rw [lat_bridge (S_BOXES.getD 4 []) spLit4 sbLit4 sv_cert_4 sb_cert_4]
  decide!

theorem lat_eq_5 : compute_lat (S_BOXES.getD 5 []) = unpackIntMatrix latPacked5 := by
  rw [lat_bridge (S_BOXES.getD 5 []) spLit5 sbLit5 sv_cert_5 sb_cert_5]
  decide!

theorem lat_eq_6 : compute_lat (S_BOXES.getD 6 []) = unpackIntMatrix latPacked6 := by
  rw [lat_bridge (S_BOXES.getD 6 []) spLit6 sbLit6 sv_cert_6 sb_cert_6]
  decide!

theorem lat_eq_7 : compute_lat (S_BOXES.getD 7 []) = unpackIntMatrix latPacked7 := by
  rw [lat_bridge (S_BOXES.getD 7 []) spLit7 sbLit7 sv_cert_7 sb_cert_7]
  decide!

/-! ## Claim C3: DDT properties -/

/-- Numeric DDT facts can be read off a certified literal matrix. -/
theorem ddt_props_of_lit (sbox : List (List Nat)) (pk : Nat)
    (hlit : ddtCount sbox = unpackNatMatrix pk)
    (h1 : ∀ dx : Fin 64, ((unpackNatMatrix pk).getD dx.val []).sum = 64)
    (h2 : ∀ dx : Fin 64, ∀ dy : Fin 16, 2 ∣ matGet (unpackNatMatrix pk) dx.val dy.val)
    (h3 : ∀ dy : Fin 16,
      matGet (unpackNatMatrix pk) 0 dy.val = if dy.val = 0 then 64 else 0)
    (h4 : ∀ dx : Fin 63, ∀ dy : Fin 16,
      matGet (unpackNatMatrix pk) (dx.val + 1) dy.val ≤ 16)
    (h5 : ∃ dx : Fin 63, ∃ dy : Fin 16,
      matGet (unpackNatMatrix pk) (dx.val + 1) dy.val = 16) :
    (∀ dx : Fin 64, ((compute_ddt sbox).getD dx.val []).sum = 64) ∧
    (∀ dx : Fin 64, ∀ dy : Fin 16, 2 ∣ matGet (compute_ddt sbox) dx.val dy.val) ∧
    (∀ dy : Fin 16, matGet (compute_ddt sbox) 0 dy.val = if dy.val = 0 then 64 else 0) ∧
    (∀ dx : Fin 63, ∀ dy : Fin 16,
      matGet (compute_ddt sbox) (dx.val + 1) dy.val ≤ 16) ∧
    (∃ dx : Fin 63, ∃ dy : Fin 16,
      matGet (compute_ddt sbox) (dx.val + 1) dy.val = 16) := by
  rw [compute_ddt_eq_ddtCount, hlit]
  exact ⟨h1, h2, h3, h4, h5⟩

/-- C3. For each S-box, `compute_ddt` computes
`DDT[dx][dy] = #{x < 64 : S(x) XOR S(x XOR dx) = dy}`; every row sums to 64;
every entry is even; row 0 is `64,0,...,0`; and the maximum entry over rows
`dx` not equal to 0 is exactly 16. -/
theorem claim_C3_ddt_properties :
    ∀ i : Fin 8,
      (∀ dx : Fin 64, ∀ dy : Fin 16,
        matGet (compute_ddt (S_BOXES.getD i.val [])) dx.val dy.val
          = ((Finset.range 64).filter (fun x =>
              sbox_lookup_int (S_BOXES.getD i.val []) x ^^^
                sbox_lookup_int (S_BOXES.getD i.val []) (x ^^^ dx.val) = dy.val)).card) ∧
      (∀ dx : Fin 64, ((compute_ddt (S_BOXES.getD i.val [])).getD dx.val []).sum = 64) ∧
      (∀ dx : Fin 64, ∀ dy : Fin 16,
        2 ∣ matGet (compute_ddt (S_BOXES.getD i.val [])) dx.val dy.val) ∧
      (∀ dy : Fin 16, matGet (compute_ddt (S_BOXES.getD i.val [])) 0 dy.val
          = if dy.val = 0 then 64 else 0) ∧
      (∀ dx : Fin 63, ∀ dy : Fin 16,
        matGet (compute_ddt (S_BOXES.getD i.val [])) (dx.val + 1) dy.val ≤ 16) ∧
      (∃ dx : Fin 63, ∃ dy : Fin 16,
        matGet (compute_ddt (S_BOXES.getD i.val [])) (dx.val + 1) dy.val = 16) := by
  have hchar : ∀ (sbox : List (List Nat)), ∀ dx : Fin 64, ∀ dy : Fin 16,
      matGet (compute_ddt sbox) dx.val dy.val
        = ((Finset.range 64).filter (fun x =>
            sbox_lookup_int sbox x ^^^ sbox_lookup_int sbox (x ^^^ dx.val) = dy.val)).card := by
    intro sbox dx dy
    rw [compute_ddt_matGet sbox dx.val dy.val dx.isLt dy.isLt]
    exact filter_eq_card (fun x => sboxDiff sbox x dx.val) (fun _ => dy.val)
  intro i
  obtain ⟨n, hn⟩ := i
  interval_cases n
  · exact ⟨hchar _, ddt_props_of_lit _ _ ddt_eq_0
      (by decide!) (by decide!) (by decide!) (by decide!) (by decide!)⟩
  · exact ⟨hchar _, ddt_props_of_lit _ _ ddt_eq_1
      (by decide!) (by decide!) (by decide!) (by decide!) (by decide!)⟩
  · exact ⟨hchar _, ddt_props_of_lit _ _ ddt_eq_2
      (by decide!) (by decide!) (by decide!) (by decide!) (by decide!)⟩
  · exact ⟨hchar _, ddt_props_of_lit _ _ ddt_eq_3
      (by decide!) (by decide!) (by decide!) (by decide!) (by decide!)⟩
  · exact ⟨hchar _, ddt_props_of_lit _ _ ddt_eq_4
      (by decide!) (by decide!) (by decide!) (by decide!) (by decide!)⟩
  · exact ⟨hchar _, ddt_props_of_lit _ _ ddt_eq_5
      (by decide!) (by decide!) (by decide!) (by decide!) (by decide!)⟩
  · exact ⟨hchar _, ddt_props_of_lit _ _ ddt_eq_6
      (by decide!) (by decide!) (by decide!) (by decide!) (by decide!)⟩
  · exact ⟨hchar _, ddt_props_of_lit _ _ ddt_eq_7
      (by decide!) (by decide!) (by decide!) (by decide!) (by decide!)⟩

/-! ## Chunked certification of the best mask of the S-box 5 LAT -/

theorem blm4_chunk_1 :
    (List.range' 1 7).foldl (blmOuter (unpackIntMatrix latPacked4)) (0, 0, 0)
      = (5, 5, 10) := by decide!

theorem blm4_chunk_2 :
    (List.range' 8 7).foldl (blmOuter (unpackIntMatrix latPacked4)) (5, 5, 10)
      = (8, 11, -12) := by decide!

theorem blm4_chunk_3 :
    (List.range' 15 7).foldl (blmOuter (unpackIntMatrix latPacked4)) (8, 11, -12)
      = (16, 15, -20) := by decide!

theorem blm4_chunk_4 :
    (List.range' 22 7).foldl (blmOuter (unpackIntMatrix latPacked4)) (16, 15, -20)
      = (16, 15, -20) := by decide!

theorem blm4_chunk_5 :
    (List.range' 29 7).foldl (blmOuter (unpackIntMatrix latPacked4)) (16, 15, -20)
      = (16, 15, -20) := by decide!

theorem blm4_chunk_6 :
    (List.range' 36 7).foldl (blmOuter (unpackIntMatrix latPacked4)) (16, 15, -20)
      = (16, 15, -20) := by decide!

theorem blm4_chunk_7 :
    (List.range' 43 7).foldl (blmOuter (unpackIntMatrix latPacked4)) (16, 15, -20)
      = (16, 15, -20) := by decide!

theorem blm4_chunk_8 :
    (List.range' 50 7).foldl (blmOuter (unpackIntMatrix latPacked4)) (16, 15, -20)
      = (16, 15, -20) := by decide!

theorem blm4_chunk_9 :
    (List.range' 57 7).foldl (blmOuter (unpackIntMatrix latPacked4)) (16, 15, -20)
      = (16, 15, -20) := by decide!

/-- The best mask of the S-box 5 LAT, certified in nine scan segments. -/
theorem best_lat_mask_4 :
    best_lat_mask (unpackIntMatrix latPacked4) = (16, 15, -20) := by
  have hsplit : List.range' 1 63
      = List.range' 1 7 ++ (List.range' 8 7 ++ (List.range' 15 7 ++ (List.range' 22 7
        ++ (List.range' 29 7 ++ (List.range' 36 7 ++ (List.range' 43 7
        ++ (List.range' 50 7 ++ List.range' 57 7))))))) := by decide
  show (List.range' 1 63).foldl (blmOuter (unpackIntMatrix latPacked4)) (0, 0, 0)
      = (16, 15, -20)
  rw [hsplit, List.foldl_append, List.foldl_append, List.foldl_append,
    List.foldl_append, List.foldl_append, List.foldl_append, List.foldl_append,
    List.foldl_append, blm4_chunk_1, blm4_chunk_2, blm4_chunk_3, blm4_chunk_4,
    blm4_chunk_5, blm4_chunk_6, blm4_chunk_7, blm4_chunk_8, blm4_chunk_9]

/-! ## Claim C4: LAT properties -/

/-- Numeric LAT facts can be read off a certified literal matrix. -/
theorem lat_props_of_lit (sbox : List (List Nat)) (pk : Nat)
    (hlit : compute_lat sbox = unpackIntMatrix pk)
    (h1 : matGetI (unpackIntMatrix pk) 0 0 = 32)
    (h2 : ∀ a : Fin 63, matGetI (unpackIntMatrix pk) (a.val + 1) 0 = 0)
    (h3 : ∀ b : Fin 15, matGetI (unpackIntMatrix pk) 0 (b.val + 1) = 0)
    (h4 : ∀ a : Fin 63, ∀ b : Fin 15,
      (matGetI (unpackIntMatrix pk) (a.val + 1) (b.val + 1)).natAbs ≤ 20) :
    matGetI (compute_lat sbox) 0 0 = 32 ∧
    (∀ a : Fin 63, matGetI (compute_lat sbox) (a.val + 1) 0 = 0) ∧
    (∀ b : Fin 15, matGetI (compute_lat sbox) 0 (b.val + 1) = 0) ∧
    (∀ a : Fin 63, ∀ b : Fin 15,
      (matGetI (compute_lat sbox) (a.val + 1) (b.val + 1)).natAbs ≤ 20) := by
  rw [hlit]
  exact ⟨h1, h2, h3, h4⟩

/-- C4. For each S-box, `compute_lat` computes
`LAT[a][b] = #{x < 64 : parity(x AND a) = parity(S(x) AND b)} - 32`, with
`LAT[0][0] = 32`, `LAT[a][0] = 0` for nonzero a, `LAT[0][b] = 0` for nonzero
b; the maximum of `|LAT|` over all eight S-boxes and all nonzero masks is 20,
attained by S-box 5 at `(16, 15)`, where `best_lat_mask` returns
`(16, 15, -20)`. -/
theorem claim_C4_lat_properties :
    (∀ i : Fin 8,
      (∀ a : Fin 64, ∀ b : Fin 16,
        matGetI (compute_lat (S_BOXES.getD i.val [])) a.val b.val
          = (((Finset.range 64).filter (fun x =>
              parity (x &&& a.val)
                = parity (sbox_lookup_int (S_BOXES.getD i.val []) x &&& b.val))).card : Int)
            - 32) ∧
      matGetI (compute_lat (S_BOXES.getD i.val [])) 0 0 = 32 ∧
      (∀ a : Fin 63, matGetI (compute_lat (S_BOXES.getD i.val [])) (a.val + 1) 0 = 0) ∧
      (∀ b : Fin 15, matGetI (compute_lat (S_BOXES.getD i.val [])) 0 (b.val + 1) = 0) ∧
      (∀ a : Fin 63, ∀ b : Fin 15,
        (matGetI (compute_lat (S_BOXES.getD i.val [])) (a.val + 1) (b.val + 1)).natAbs ≤ 20)) ∧
    (matGetI (compute_lat (S_BOXES.getD 4 [])) 16 15).natAbs = 20 ∧
    best_lat_mask (compute_lat (S_BOXES.getD 4 [])) = (16, 15, -20) ∧
    (Int.natAbs (-20) = 20) := by
  have hchar : ∀ (sbox : List (List Nat)), ∀ a : Fin 64, ∀ b : Fin 16,
      matGetI (compute_lat sbox) a.val b.val
        = (((Finset.range 64).filter (fun x =>
            parity (x &&& a.val) = parity (sbox_lookup_int sbox x &&& b.val))).card : Int)
          - 32 := by
    intro sbox a b
    rw [compute_lat_matGetI sbox a.val b.val a.isLt b.isLt,
      filter_eq_card (fun x => parity (x &&& a.val))
        (fun x => parity (sbox_lookup_int sbox x &&& b.val))]
  refine ⟨?_, ?_, ?_, by decide⟩
  · intro i
    obtain ⟨n, hn⟩ := i
    interval_cases n
    · exact ⟨hchar _, lat_props_of_lit _ _ lat_eq_0
        (by decide!) (by decide!) (by decide!) (by decide!)⟩
    · exact ⟨hchar _, lat_props_of_lit _ _ lat_eq_1
        (by decide!) (by decide!) (by decide!) (by decide!)⟩
    · exact ⟨hchar _, lat_props_of_lit _ _ lat_eq_2
        (by decide!) (by decide!) (by decide!) (by decide!)⟩
    · exact ⟨hchar _, lat_props_of_lit _ _ lat_eq_3
        (by decide!) (by decide!) (by decide!) (by decide!)⟩
    · exact ⟨hchar _, lat_props_of_lit _ _ lat_eq_4
        (by decide!) (by decide!) (by decide!) (by decide!)⟩
    · exact ⟨hchar _, lat_props_of_lit _ _ lat_eq_5
        (by decide!) (by decide!) (by decide!) (by decide!)⟩
    · exact ⟨hchar _, lat_props_of_lit _ _ lat_eq_6
        (by decide!) (by decide!) (by decide!) (by decide!)⟩
    · exact ⟨hchar _, lat_props_of_lit _ _ lat_eq_7
        (by decide!) (by decide!) (by decide!) (by decide!)⟩
  · rw [lat_eq_4]
    decide!
  · rw [lat_eq_4]
    exact best_lat_mask_4

/-! ## Claim C10: the two S-box lookup conventions agree -/

/-- C10. For every S-box index i and 6-bit x, the integer-convention lookup
(row from bits 5 and 0 of x, column from bits 1-4) agrees with the group
value that `s_box_substitution` produces from the MSB-first bit list of x. -/
theorem claim_C10_sbox_convention_agree :
    ∀ (i : Fin 8) (x : Fin 64),
      ((s_box_substitution (List.flatten (List.replicate 8 (int_to_bits x.val 6)))).drop
        (4 * i.val)).take 4
        = int_to_bits (sbox_lookup_int (S_BOXES.getD i.val []) x.val) 4 := by
  decide!

/-! ## Claim C6: empty scores still return guess 0 -/

/-- Counterexample to C6: an empty scores dict makes the attack return the
plain guess 0, the same first component as a genuine run in which guess 0
wins, rather than a distinguished no-signal marker.  Counters are created
only when a partial-decryption output difference equals the expected one,
so the dict can stay empty even for a NON-empty pair list: one pair whose
ciphertexts differ in bit 6 (which feeds the first position of S-box 0's
expansion slice) leaves all 64 counters uncreated. -/
theorem claim_C6_cex :
    diff_attack_sbox [] 0 0 = (0, []) ∧
    (diff_attack_sbox [] 0 0).1 =
      (diff_attack_sbox [(List.replicate 64 0, List.replicate 64 0,
        List.replicate 64 0, List.replicate 64 0)] 0 0).1 ∧
    diff_attack_sbox [(List.replicate 64 0, List.replicate 64 0,
        List.replicate 64 0, (List.replicate 64 0).set 6 1)] 0 0 = (0, []) ∧
    ([(List.replicate 64 0, List.replicate 64 0,
        List.replicate 64 0, (List.replicate 64 0).set 6 1)] : List DiffPair) ≠ [] := by
  refine ⟨by decide, ?_, ?_, by decide⟩
  · decide!
  · decide!

/-- C6 as amended: when the scores dict stays empty the attack returns the
plain guess value 0 (`best_key = ... if scores else 0`); the no-signal case
is distinguishable only through the returned empty scores dict. -/
theorem claim_C6_empty_scores (pairs : List DiffPair) (sbox_index expected : Nat)
    (h : (diff_attack_sbox pairs sbox_index expected).2 = []) :
    (diff_attack_sbox pairs sbox_index expected).1 = 0 := by
  have hfst : (diff_attack_sbox pairs sbox_index expected).1
      = (if ((diff_attack_sbox pairs sbox_index expected).2).isEmpty then 0
         else maxByCount ((diff_attack_sbox pairs sbox_index expected).2)) := rfl
  rw [hfst, h]
  rfl

/-- Witness for the amended C6 at the empty pair list. -/
theorem claim_C6_empty_scores_witness :
    (diff_attack_sbox [] 0 0).2 = [] ∧ (diff_attack_sbox [] 0 0).1 = 0 :=
  ⟨by decide, claim_C6_empty_scores [] 0 0 (by decide)⟩

/-! ## Claim C7: what guess the linear attack actually returns -/

/-- Deviation of a counter value from `N // 2`. -/
def devOf (N count : Nat) : Nat := ((count : Int) - ((N / 2 : Nat) : Int)).natAbs

/-- One step of the selection loop of `LinearAttack.attack_sbox`. -/
def selStep (N : Nat) (best : Nat × Nat) (kc : Nat × Nat) : Nat × Nat :=
  if devOf N kc.2 > best.2 then (kc.1, devOf N kc.2) else best

/-- Largest deviation stored in the counters dict. -/
def maxDev (cnt : List (Nat × Nat)) (N : Nat) : Nat :=
  cnt.foldl (fun m kc => max m (devOf N kc.2)) 0

/-- Count stored for guess k, 0 if the guess was never incremented. -/
def lookupCount (d : List (Nat × Nat)) (k : Nat) : Nat :=
  ((d.find? (fun p => p.1 == k)).map (fun p => p.2)).getD 0

theorem selStep_snd (N : Nat) (acc kc : Nat × Nat) :
    (selStep N acc kc).2 = max acc.2 (devOf N kc.2) := by
  unfold selStep
  by_cases h : devOf N kc.2 > acc.2
  · rw [if_pos h]
    exact (Nat.max_eq_right (Nat.le_of_lt h)).symm
  · rw [if_neg h]
    exact (Nat.max_eq_left (Nat.not_lt.mp h)).symm

theorem selfold_snd (N : Nat) :
    ∀ (cnt : List (Nat × Nat)) (acc : Nat × Nat),
      (cnt.foldl (selStep N) acc).2
        = cnt.foldl (fun m kc => max m (devOf N kc.2)) acc.2
  | [], _ => rfl
  | kc :: cnt, acc => by
    rw [List.foldl_cons, List.foldl_cons, selfold_snd N cnt (selStep N acc kc),
      selStep_snd]

theorem selfold_result (N : Nat) :
    ∀ (cnt : List (Nat × Nat)) (acc : Nat × Nat),
      cnt.foldl (selStep N) acc = acc ∨
        ∃ kc ∈ cnt, cnt.foldl (selStep N) acc = (kc.1, devOf N kc.2)
  | [], _ => Or.inl rfl
  | kc :: cnt, acc => by
    rcases selfold_result N cnt (selStep N acc kc) with h | ⟨kc2, hmem, hval⟩
    · rw [List.foldl_cons, h]
      unfold selStep
      by_cases hx : devOf N kc.2 > acc.2
      · rw [if_pos hx]
        exact Or.inr ⟨kc, List.mem_cons_self kc cnt, rfl⟩
      · rw [if_neg hx]
        exact Or.inl rfl
    · rw [List.foldl_cons]
      exact Or.inr ⟨kc2, List.mem_cons_of_mem kc hmem, hval⟩

theorem maxfold_init_le (f : Nat × Nat → Nat) :
    ∀ (cnt : List (Nat × Nat)) (a0 : Nat),
      a0 ≤ cnt.foldl (fun m kc => max m (f kc)) a0
  | [], _ => Nat.le_refl _
  | kc :: cnt, a0 =>
    Nat.le_trans (Nat.le_max_left a0 (f kc)) (maxfold_init_le f cnt (max a0 (f kc)))

theorem maxfold_le_of_mem (f : Nat × Nat → Nat) :
    ∀ (cnt : List (Nat × Nat)) (a0 : Nat) (kc : Nat × Nat), kc ∈ cnt →
      f kc ≤ cnt.foldl (fun m kc2 => max m (f kc2)) a0
  | [], _, _, h => absurd h (List.not_mem_nil _)
  | kc0 :: cnt, a0, kc, h => by
    rcases List.mem_cons.mp h with rfl | hmem
    · rw [List.foldl_cons]
      exact Nat.le_trans (Nat.le_max_right a0 (f kc))
        (maxfold_init_le f cnt (max a0 (f kc)))
    · rw [List.foldl_cons]
      exact maxfold_le_of_mem f cnt (max a0 (f kc0)) kc hmem

/-- Helper: the LAT that `LinearAttack.attack_sbox` reads for S-box index 4. -/
theorem lats_getD_4 : compute_all_lats.getD 4 [] = unpackIntMatrix latPacked4 := by
  show compute_lat (S_BOXES.getD 4 []) = unpackIntMatrix latPacked4
  exact lat_eq_4

theorem linear_attack_sbox_4_counters (pairs : List (List Nat × List Nat)) :
    linear_attack_sbox pairs 4
      = linear_attack_counters (16, 15, -20) pairs 4 := by
  unfold linear_attack_sbox linear_attack_sbox_core
  rw [lats_getD_4, best_lat_mask_4]

/-- Counterexample to C7: one pair with the all-zero ciphertext, S-box index
4. With N = 1 every guess g (stored or not) has the same deviation
`|T_g - N/2| = 1/2` (equivalently `|2 T_g - N| = 1`), so under the claimed
smallest-value tie-breaking the attack would return guess 0; it returns 2. -/
theorem claim_C7_cex :
    (linear_attack_sbox [(List.replicate 64 0, List.replicate 64 0)] 4).1 = 2 ∧
    (∀ g : Fin 64,
      ((2 * (lookupCount
          (linear_attack_sbox [(List.replicate 64 0, List.replicate 64 0)] 4).2
          g.val) : Int) - 1).natAbs = 1) ∧
    (2 : Nat) ≠ 0 := by
  refine ⟨?_, ?_, by decide⟩
  · rw [linear_attack_sbox_4_counters]
    decide!
  · rw [linear_attack_sbox_4_counters]
    decide!

/-- C7 as amended: the guess returned by `LinearAttack.attack_sbox` carries a
stored counter whose deviation `|count - N // 2|` is maximal among all stored
counters (guesses never incremented are not considered, the division is the
floor `N // 2`, and ties go to the earliest stored counter, not the smallest
guess); the statement assumes some stored deviation is positive, otherwise
the attack returns the constant 0. -/
theorem claim_C7_best_stored_deviation (pairs : List (List Nat × List Nat))
    (sbox_index : Nat)
    (hpos : 0 < maxDev (linear_attack_sbox pairs sbox_index).2 pairs.length) :
    (∀ kc ∈ (linear_attack_sbox pairs sbox_index).2,
      devOf pairs.length kc.2
        ≤ maxDev (linear_attack_sbox pairs sbox_index).2 pairs.length) ∧
    ∃ kc ∈ (linear_attack_sbox pairs sbox_index).2,
      kc.1 = (linear_attack_sbox pairs sbox_index).1 ∧
      devOf pairs.length kc.2
        = maxDev (linear_attack_sbox pairs sbox_index).2 pairs.length := by
  have hfst : (linear_attack_sbox pairs sbox_index).1
      = ((linear_attack_sbox pairs sbox_index).2.foldl (selStep pairs.length) (0, 0)).1 :=
    rfl
  have hmax : maxDev (linear_attack_sbox pairs sbox_index).2 pairs.length
      = ((linear_attack_sbox pairs sbox_index).2.foldl (selStep pairs.length) (0, 0)).2 :=
    (selfold_snd pairs.length (linear_attack_sbox pairs sbox_index).2 (0, 0)).symm
  constructor
  · intro kc hkc
    exact maxfold_le_of_mem (fun kc2 => devOf pairs.length kc2.2)
      (linear_attack_sbox pairs sbox_index).2 0 kc hkc
  · rcases selfold_result pairs.length (linear_attack_sbox pairs sbox_index).2 (0, 0)
      with h | ⟨kc, hmem, hval⟩
    · rw [hmax, h] at hpos
      exact absurd hpos (by decide)
    · refine ⟨kc, hmem, ?_, ?_⟩
      · rw [hfst, hval]
      · rw [hmax, hval]

/-- Witness for the amended C7: the one-pair run on S-box index 4 has a
positive stored deviation. -/
theorem claim_C7_best_stored_deviation_witness :
    0 < maxDev (linear_attack_sbox
        [(List.replicate 64 0, List.replicate 64 0)] 4).2
        ([(List.replicate 64 0, List.replicate 64 0)] :
          List (List Nat × List Nat)).length ∧
    ((∀ kc ∈ (linear_attack_sbox [(List.replicate 64 0, List.replicate 64 0)] 4).2,
      devOf ([(List.replicate 64 0, List.replicate 64 0)] :
          List (List Nat × List Nat)).length kc.2
        ≤ maxDev (linear_attack_sbox [(List.replicate 64 0, List.replicate 64 0)] 4).2
            ([(List.replicate 64 0, List.replicate 64 0)] :
              List (List Nat × List Nat)).length) ∧
    ∃ kc ∈ (linear_attack_sbox [(List.replicate 64 0, List.replicate 64 0)] 4).2,
      kc.1 = (linear_attack_sbox [(List.replicate 64 0, List.replicate 64 0)] 4).1 ∧
      devOf ([(List.replicate 64 0, List.replicate 64 0)] :
          List (List Nat × List Nat)).length kc.2
        = maxDev (linear_attack_sbox [(List.replicate 64 0, List.replicate 64 0)] 4).2
            ([(List.replicate 64 0, List.replicate 64 0)] :
              List (List Nat × List Nat)).length) := by
  have hpos : 0 < maxDev (linear_attack_sbox
      [(List.replicate 64 0, List.replicate 64 0)] 4).2
      ([(List.replicate 64 0, List.replicate 64 0)] :
        List (List Nat × List Nat)).length := by
    rw [linear_attack_sbox_4_counters]
    decide
  exact ⟨hpos, claim_C7_best_stored_deviation
    [(List.replicate 64 0, List.replicate 64 0)] 4 hpos⟩

end KRYS
